import Mathlib

/-!
# GDAY two-leaf canopy module (`src/canopy.c`)

A shallow embedding of `canopy.c`.  C `double`s are read as exact rationals,
`int`s as `Int`/`Nat`, the two-element leaf arrays as functions on the index,
`exit(EXIT_FAILURE)` as a final status, and every call of a collaborator the
properties speak about is recorded in a chronological trace.  The daily carbon
fluxes and the scaling of the assimilation to the canopy are given a second
time with their operations in an arbitrary arithmetic, of which exact
arithmetic and the rounded arithmetic of IEEE 754 `double`s are instances.
-/

namespace GDAY

/-! ## Constants and records declared in the headers -/

/-- Modelled from the spec: the header defining `UMOL_TO_MOL` is not among the
sources; the spec gives the factor `1e-6`. -/
def UMOL_TO_MOL : ℚ := 1 / 1000000

/-- Modelled from the spec: the header defining `MOL_C_TO_GRAMS_C` is not among
the sources; the spec gives the factor `12.0`. -/
def MOL_C_TO_GRAMS_C : ℚ := 12

/-- Modelled from the spec: the header defining `SEC_2_HLFHR` is not among the
sources; the spec gives the factor `1800`. -/
def SEC_2_HLFHR : ℚ := 1800

/-- Modelled from the spec: the header defining `DEG_TO_KELVIN` is not among
the sources; the spec gives `Tk = airTemp + 273.15`. -/
def DEG_TO_KELVIN : ℚ := 27315 / 100

/-- Modelled from the spec: the header defining the leaf indices is not among
the sources; the sunlit leaf is the first of the two leaf classes. -/
def SUNLIT : Nat := 0

/-- Modelled from the spec: the header defining the leaf indices is not among
the sources; the shaded leaf is the second of the two leaf classes. -/
def SHADED : Nat := 1

/-- The remaining header constants used by `canopy.c`; their values are not
among the sources, so they are a parameter of the embedding. -/
structure constants where
  KPA_2_PA : ℚ
  KG_AS_G : ℚ
  SIGMA : ℚ
  LEAF_EMISSIVITY : ℚ
  CP : ℚ
  MASS_AIR : ℚ
  RGAS : ℚ
  DHEAT : ℚ
  GBVGBH : ℚ
  GSVGSC : ℚ
  GBHGBC : ℚ
  PAR_2_SW : ℚ
  GRAM_C_2_TONNES_HA : ℚ
  C3 : Int

/-- The fields of `control` that `canopy.c` uses. -/
structure control where
  num_hlf_hrs : Int
  hrly_idx : Int
  ps_pathway : Int

/-- The half-hourly forcing arrays of `met` that `canopy.c` reads. -/
structure met where
  doy : Int → ℚ
  par : Int → ℚ
  tair : Int → ℚ
  vpd : Int → ℚ
  co2 : Int → ℚ
  press : Int → ℚ
  wind : Int → ℚ

/-- The fields of `params` that `canopy.c` uses. -/
structure params where
  cfracts : ℚ
  sla : ℚ
  leaf_width : ℚ
  leaf_abs : ℚ
  cue : ℚ
  kext : ℚ

/-- The fields of `state` that `canopy.c` uses. -/
structure state where
  lai : ℚ
  shootnc : ℚ

/-- The daily carbon fields of `fluxes`. -/
structure fluxes where
  gpp_gCm2 : ℚ
  npp_gCm2 : ℚ
  gpp : ℚ
  npp : ℚ
  auto_resp : ℚ
  apar : ℚ
  deriving DecidableEq

/-- What `calculate_absorbed_radiation` writes through its pointers. -/
structure absorbed where
  apar_sunlit : ℚ
  apar_shaded : ℚ
  sunlit_lai : ℚ
  shaded_lai : ℚ

/-- Modelled from the spec: the collaborators of `canopy.c` (zenith angle,
diffuse fraction, absorbed radiation, photosynthesis, saturation vapour
pressure, Penman-Monteith, water balance, `float_eq`) are not among the
sources, nor is the C maths library; each is a function of its arguments with
the results the spec lists, and the water balance acts on the soil/water state
`W`. -/
structure collaborators (W : Type) where
  sqrt : ℚ → ℚ
  pow : ℚ → ℚ → ℚ
  exp : ℚ → ℚ
  float_eq : ℚ → ℚ → Bool
  calculate_zenith_angle : params → ℚ → Int → ℚ × ℚ
  get_diffuse_frac : ℚ → ℚ → ℚ → ℚ
  calculate_absorbed_radiation : params → state → ℚ → ℚ → ℚ → ℚ → absorbed
  photosynthesis_C3 : control → params → state → ℚ → ℚ → ℚ → ℚ → ℚ → ℚ × ℚ
  calc_sat_water_vapour_press : ℚ → ℚ
  penman_leaf : ℚ → ℚ → ℚ → ℚ → ℚ → ℚ → ℚ → ℚ → ℚ × ℚ
  zero_water_day_fluxes : W → W
  calculate_sub_daily_water_balance :
    control → fluxes → met → params → state → ℚ → ℚ → W → W

/-! ## Conductances (`canopy.c` lines 269-329) -/

/-- `calc_radiation_conductance`. -/
def calc_radiation_conductance (K : constants) (tair : ℚ) : ℚ :=
  let Tk := tair + DEG_TO_KELVIN
  4 * K.SIGMA * (Tk * Tk * Tk) * K.LEAF_EMISSIVITY / (K.CP * K.MASS_AIR)

/-- `calc_bdn_layer_forced_conduct`. -/
def calc_bdn_layer_forced_conduct {W : Type} (K : constants) (E : collaborators W)
    (tair press wind leaf_width : ℚ) : ℚ :=
  let Tk := tair + DEG_TO_KELVIN
  let cmolar := press / (K.RGAS * Tk)
  3 / 1000 * E.sqrt (wind / leaf_width) * cmolar

/-- `calc_bdn_layer_free_conduct`. -/
def calc_bdn_layer_free_conduct {W : Type} (K : constants) (E : collaborators W)
    (tair tleaf press leaf_width : ℚ) : ℚ :=
  let Tk := tair + DEG_TO_KELVIN
  let cmolar := press / (K.RGAS * Tk)
  let leaf_width_cubed := leaf_width * leaf_width * leaf_width
  if E.float_eq (tleaf - tair) 0 = true then
    0
  else
    let grashof := 160000000 * |tleaf - tair| * leaf_width_cubed
    1 / 2 * K.DHEAT * E.pow grashof (1 / 4) / leaf_width * cmolar

/-! ## Leaf energy balance (`canopy.c` lines 186-267) -/

/-- The conductances `solve_leaf_energy_balance` computes on lines 216-237. -/
structure conductances where
  gradn : ℚ
  gbhu : ℚ
  gbhf : ℚ
  gbh : ℚ
  gh : ℚ
  gbv : ℚ
  gsv : ℚ
  gv : ℚ
  gbc : ℚ

/-- Lines 202-237 of `solve_leaf_energy_balance`. -/
def leaf_conductances {W : Type} (K : constants) (E : collaborators W) (c : control)
    (m : met) (p : params) (tleaf gsc : ℚ) : conductances :=
  let press := m.press c.hrly_idx * K.KPA_2_PA
  let tair := m.tair c.hrly_idx
  let wind := m.wind c.hrly_idx
  let gradn := calc_radiation_conductance K tair
  let gbhu := calc_bdn_layer_forced_conduct K E tair press wind p.leaf_width
  let gbhf := calc_bdn_layer_free_conduct K E tair tleaf press p.leaf_width
  let gbh := gbhu + gbhf
  let gh := 2 * (gbh + gradn)
  let gbv := K.GBVGBH * gbh
  let gsv := K.GSVGSC * gsc
  let gv := (gbv * gsv) / (gbv + gsv)
  let gbc := gbh / K.GBHGBC
  { gradn := gradn, gbhu := gbhu, gbhf := gbhf, gbh := gbh, gh := gh, gbv := gbv,
    gsv := gsv, gv := gv, gbc := gbc }

/-- Lines 239-249 of `solve_leaf_energy_balance`: isothermal net radiation. -/
def leaf_rnet {W : Type} (K : constants) (E : collaborators W) (c : control) (m : met)
    (p : params) (s : state) (apar : ℚ) : ℚ :=
  let vpd := m.vpd c.hrly_idx * K.KPA_2_PA
  let tair := m.tair c.hrly_idx
  let kd : ℚ := 8 / 10
  let Tk := m.tair c.hrly_idx + DEG_TO_KELVIN
  let ea := E.calc_sat_water_vapour_press tair - vpd
  let emissivity_atm := 642 / 1000 * E.pow (ea / Tk) (1 / 7)
  let sw_rad := apar * K.PAR_2_SW
  let net_lw_rad := (1 - emissivity_atm) * K.SIGMA * E.pow Tk 4
  p.leaf_abs * sw_rad - net_lw_rad * kd * E.exp (-kd * s.lai)

/-- What `solve_leaf_energy_balance` writes through its pointers. -/
structure energy_balance where
  Cs : ℚ
  dleaf : ℚ
  new_tleaf : ℚ
  et : ℚ
  sensible_heat : ℚ

/-- `solve_leaf_energy_balance`. -/
def solve_leaf_energy_balance {W : Type} (K : constants) (E : collaborators W)
    (c : control) (_f : fluxes) (m : met) (p : params) (s : state)
    (tleaf gsc anleaf apar : ℚ) : energy_balance :=
  let press := m.press c.hrly_idx * K.KPA_2_PA
  let vpd := m.vpd c.hrly_idx * K.KPA_2_PA
  let tair := m.tair c.hrly_idx
  let Ca := m.co2 c.hrly_idx
  let g := leaf_conductances K E c m p tleaf gsc
  let rnet := leaf_rnet K E c m p s apar
  let pm := E.penman_leaf press rnet vpd tair g.gh g.gv g.gbv g.gsv
  let et := pm.1
  let LE := pm.2
  let sensible_heat := (1 / (1 + g.gradn / g.gbh)) * (rnet - LE)
  let Tdiff := (rnet - LE) / (K.CP * K.MASS_AIR * g.gh)
  { Cs := Ca - anleaf / g.gbc
    dleaf := et * press / g.gv
    new_tleaf := tair + Tdiff / 4
    et := et
    sensible_heat := sensible_heat }

/-! ## Daily carbon fluxes (`canopy.c` lines 332-356) -/

/-- `zero_carbon_day_fluxes`. -/
def zero_carbon_day_fluxes (_f : fluxes) : fluxes :=
  { gpp_gCm2 := 0, npp_gCm2 := 0, gpp := 0, npp := 0, auto_resp := 0, apar := 0 }

/-- `update_daily_carbon_fluxes`. -/
def update_daily_carbon_fluxes (K : constants) (f : fluxes) (p : params)
    (acanopy total_apar : ℚ) : fluxes :=
  let gpp_gCm2 := f.gpp_gCm2 + acanopy * UMOL_TO_MOL * MOL_C_TO_GRAMS_C * SEC_2_HLFHR
  let npp_gCm2 := gpp_gCm2 * p.cue
  let gpp := gpp_gCm2 * K.GRAM_C_2_TONNES_HA
  let npp := npp_gCm2 * K.GRAM_C_2_TONNES_HA
  { gpp_gCm2 := gpp_gCm2
    npp_gCm2 := npp_gCm2
    gpp := gpp
    npp := npp
    auto_resp := gpp - npp
    apar := f.apar + total_apar }

/-! ## The canopy driver (`canopy.c` lines 18-182) -/

/-- The automatic variables of `canopy()` that the function reads or writes. -/
structure locals where
  Cs : ℚ
  dleaf : ℚ
  tleaf : ℚ
  new_tleaf : ℚ
  leafn : ℚ
  ncontent : Nat → ℚ
  cos_zenith : ℚ
  elevation : ℚ
  anleaf : Nat → ℚ
  gsc : Nat → ℚ
  apar : Nat → ℚ
  leaf_trans : Nat → ℚ
  diffuse_frac : ℚ
  rnet : ℚ
  total_rnet : ℚ
  par : ℚ
  sunlit_lai : ℚ
  acanopy : ℚ
  trans_canopy : ℚ
  shaded_lai : ℚ
  gsc_canopy : ℚ
  total_apar : ℚ
  hod : Int
  iter : Nat
  itermax : Nat
  ileaf : Nat

/-- A recorded call: the call site's leaf index where there is one, the
arguments, and what the callee handed back. -/
inductive event where
  | photosynthesis_C3 (ileaf : Nat) (ncontent tleaf apar Cs dleaf gsc anleaf : ℚ)
  | solve_leaf_energy_balance (ileaf : Nat) (tleaf gsc anleaf apar : ℚ)
      (Cs dleaf new_tleaf et : ℚ)
  | update_daily_carbon_fluxes (acanopy total_apar : ℚ)
  | calculate_sub_daily_water_balance (total_rnet trans_canopy : ℚ)
  deriving DecidableEq

/-- Is the event a call of the photosynthesis model? -/
def event.isPhotosynthesis : event → Bool
  | .photosynthesis_C3 .. => true
  | _ => false

/-- Is the event a call of the energy-balance solver? -/
def event.isEnergyBalance : event → Bool
  | .solve_leaf_energy_balance .. => true
  | _ => false

/-- How control leaves a piece of `canopy()`: by falling through, or by one of
the two `exit(EXIT_FAILURE)` calls. -/
inductive status where
  | ok
  | C4_not_implemented
  | no_convergence
  deriving DecidableEq

/-- Everything `canopy()` can change: `c` (the cursor), the carbon fluxes, the
soil/water state, its own variables, and the calls made so far. -/
structure world (W : Type) where
  c : control
  f : fluxes
  water : W
  L : locals
  trace : List event

/-- Assignment `a[i] = v` to a leaf array. -/
def assign (a : Nat → ℚ) (i : Nat) (v : ℚ) : Nat → ℚ :=
  fun j => if j = i then v else a j

/-- Lines 102-111 on the C3 pathway: the call of `photosynthesis_C3`, which
writes `gsc[ileaf]` and `anleaf[ileaf]`. -/
def pass_photosynthesis {W : Type} (E : collaborators W) (p : params) (s : state)
    (X : world W) : world W :=
  let i := X.L.ileaf
  let ph := E.photosynthesis_C3 X.c p s (X.L.ncontent i) X.L.tleaf (X.L.apar i)
    X.L.Cs X.L.dleaf
  { X with
    L := { X.L with gsc := assign X.L.gsc i ph.1, anleaf := assign X.L.anleaf i ph.2 }
    trace := X.trace ++ [event.photosynthesis_C3 i (X.L.ncontent i) X.L.tleaf
      (X.L.apar i) X.L.Cs X.L.dleaf ph.1 ph.2] }

/-- Lines 117-121: the call of `solve_leaf_energy_balance`, which writes `Cs`,
`dleaf`, `new_tleaf` and `leaf_trans[ileaf]`. -/
def pass_energy_balance {W : Type} (K : constants) (E : collaborators W) (m : met)
    (p : params) (s : state) (X : world W) : world W :=
  let i := X.L.ileaf
  let eb := solve_leaf_energy_balance K E X.c X.f m p s X.L.tleaf (X.L.gsc i)
    (X.L.anleaf i) (X.L.apar i)
  { X with
    L := { X.L with Cs := eb.Cs, dleaf := eb.dleaf, new_tleaf := eb.new_tleaf,
                    leaf_trans := assign X.L.leaf_trans i eb.et }
    trace := X.trace ++ [event.solve_leaf_energy_balance i X.L.tleaf (X.L.gsc i)
      (X.L.anleaf i) (X.L.apar i) eb.Cs eb.dleaf eb.new_tleaf eb.et] }

/-- Line 123: `leaf_trans[ileaf] = 0.0`. -/
def pass_no_transpiration {W : Type} (X : world W) : world W :=
  { X with L := { X.L with leaf_trans := assign X.L.leaf_trans X.L.ileaf 0 } }

/-- Lines 134-135: `tleaf = new_tleaf; iter++`. -/
def pass_update {W : Type} (X : world W) : world W :=
  { X with L := { X.L with tleaf := X.L.new_tleaf, iter := X.L.iter + 1 } }

/-- A pass that ends in `iter++` was entered with `iter < itermax`, so it
brings `iter` one step closer to `itermax`. -/
theorem pass_update_bound {W : Type} (K : constants) (E : collaborators W) (m : met)
    (p : params) (s : state) (X : world W) (k : Nat)
    (h : X.L.itermax - X.L.iter ≤ k + 1) :
    (pass_update (pass_energy_balance K E m p s (pass_photosynthesis E p s X))).L.itermax -
      (pass_update (pass_energy_balance K E m p s (pass_photosynthesis E p s X))).L.iter
        ≤ k := by
  simp only [pass_update, pass_energy_balance, pass_photosynthesis]
  omega

/-- No pass ends in `iter++` once `iter` has reached `itermax`. -/
theorem pass_update_possible {W : Type} (K : constants) (E : collaborators W) (m : met)
    (p : params) (s : state) (X : world W) (h : X.L.itermax - X.L.iter ≤ 0)
    (hi : ¬ (pass_energy_balance K E m p s (pass_photosynthesis E p s X)).L.itermax ≤
      (pass_energy_balance K E m p s (pass_photosynthesis E p s X)).L.iter) : False := by
  simp only [pass_energy_balance, pass_photosynthesis, not_le] at hi
  omega

/-- The stability loop `while (TRUE)` of lines 99-138 for the leaf `X.L.ileaf`,
by recursion on a bound `n` for `itermax - iter`, the number of passes that can
still end in `iter++`. -/
def stability_passes {W : Type} (K : constants) (E : collaborators W) (m : met)
    (p : params) (s : state) :
    (n : Nat) → (X : world W) → X.L.itermax - X.L.iter ≤ n → status × world W
  | n, X, h =>
    if X.c.ps_pathway = K.C3 then
      if 0 < (pass_photosynthesis E p s X).L.anleaf X.L.ileaf then
        if hi : (pass_energy_balance K E m p s (pass_photosynthesis E p s X)).L.itermax ≤
            (pass_energy_balance K E m p s (pass_photosynthesis E p s X)).L.iter then
          (status.no_convergence,
            pass_energy_balance K E m p s (pass_photosynthesis E p s X))
        else if |(pass_energy_balance K E m p s (pass_photosynthesis E p s X)).L.tleaf -
            (pass_energy_balance K E m p s (pass_photosynthesis E p s X)).L.new_tleaf| <
              2 / 100 then
          (status.ok, pass_energy_balance K E m p s (pass_photosynthesis E p s X))
        else
          match n, h with
          | 0, h => (pass_update_possible K E m p s X h hi).elim
          | k + 1, h =>
            stability_passes K E m p s k
              (pass_update (pass_energy_balance K E m p s (pass_photosynthesis E p s X)))
              (pass_update_bound K E m p s X k h)
      else
        (status.ok, pass_no_transpiration (pass_photosynthesis E p s X))
    else
      (status.C4_not_implemented, X)

/-- The stability loop `while (TRUE)` of lines 99-138, for the leaf
`X.L.ileaf`. -/
def stability_loop {W : Type} (K : constants) (E : collaborators W) (m : met)
    (p : params) (s : state) (X : world W) : status × world W :=
  stability_passes K E m p s (X.L.itermax - X.L.iter) X (le_refl _)

/-- Lines 95-97: leaf temperature, leaf-surface VPD and CO2 start from the
air-space values. -/
def leaf_air_space {W : Type} (K : constants) (m : met) (X : world W) : world W :=
  { X with
    L := { X.L with tleaf := m.tair X.c.hrly_idx,
                    dleaf := m.vpd X.c.hrly_idx * K.KPA_2_PA,
                    Cs := m.co2 X.c.hrly_idx } }

/-- Lines 144-145: `total_rnet += rnet; total_apar += apar[ileaf]`. -/
def leaf_totals {W : Type} (X : world W) : world W :=
  { X with
    L := { X.L with total_rnet := X.L.total_rnet + X.L.rnet,
                    total_apar := X.L.total_apar + X.L.apar X.L.ileaf } }

/-- One turn of the loop `for (ileaf = 0; ileaf <= 1; ileaf++)`, lines 89-147:
air-space initial values, the stability loop, then the two totals. -/
def canopy_leaf {W : Type} (K : constants) (E : collaborators W) (m : met)
    (p : params) (s : state) (X : world W) : status × world W :=
  if (stability_loop K E m p s (leaf_air_space K m X)).1 = status.ok then
    (status.ok, leaf_totals (stability_loop K E m p s (leaf_air_space K m X)).2)
  else
    stability_loop K E m p s (leaf_air_space K m X)

/-- Line 89: `ileaf = 0`. -/
def leaf_first {W : Type} (X : world W) : world W :=
  { X with L := { X.L with ileaf := 0 } }

/-- Line 89: `ileaf++`. -/
def leaf_next {W : Type} (X : world W) : world W :=
  { X with L := { X.L with ileaf := X.L.ileaf + 1 } }

/-- The loop `for (ileaf = 0; ileaf <= 1; ileaf++)` of lines 89-147, unrolled:
the turn for leaf 0, the turn for leaf 1, and `ileaf = 2` on leaving. -/
def canopy_leaves {W : Type} (K : constants) (E : collaborators W) (m : met)
    (p : params) (s : state) (X : world W) : status × world W :=
  if (canopy_leaf K E m p s (leaf_first X)).1 = status.ok then
    if (canopy_leaf K E m p s
        (leaf_next (canopy_leaf K E m p s (leaf_first X)).2)).1 = status.ok then
      (status.ok,
        leaf_next (canopy_leaf K E m p s
          (leaf_next (canopy_leaf K E m p s (leaf_first X)).2)).2)
    else
      canopy_leaf K E m p s (leaf_next (canopy_leaf K E m p s (leaf_first X)).2)
  else
    canopy_leaf K E m p s (leaf_first X)

/-- Lines 53-58: zenith angle, `par` and the diffuse fraction of the slot. -/
def slot_radiation {W : Type} (E : collaborators W) (m : met) (p : params)
    (X : world W) : world W :=
  { X with
    L := { X.L with
      cos_zenith := (E.calculate_zenith_angle p (m.doy X.c.hrly_idx) X.L.hod).1,
      elevation := (E.calculate_zenith_angle p (m.doy X.c.hrly_idx) X.L.hod).2,
      par := m.par X.c.hrly_idx,
      diffuse_frac := E.get_diffuse_frac (m.doy X.c.hrly_idx)
        (E.calculate_zenith_angle p (m.doy X.c.hrly_idx) X.L.hod).1 (m.par X.c.hrly_idx) } }

/-- Lines 64-70: the canopy values zeroed and the call of
`calculate_absorbed_radiation`, which writes `apar[0]`, `apar[1]`,
`sunlit_lai` and `shaded_lai`. -/
def slot_absorbed_radiation {W : Type} (E : collaborators W) (p : params) (s : state)
    (X : world W) : world W :=
  { X with
    L := { X.L with
      acanopy := 0, total_apar := 0, trans_canopy := 0, gsc_canopy := 0,
      apar := assign (assign X.L.apar 0
          (E.calculate_absorbed_radiation p s X.L.par X.L.diffuse_frac X.L.elevation
            X.L.cos_zenith).apar_sunlit) 1
        (E.calculate_absorbed_radiation p s X.L.par X.L.diffuse_frac X.L.elevation
          X.L.cos_zenith).apar_shaded,
      sunlit_lai := (E.calculate_absorbed_radiation p s X.L.par X.L.diffuse_frac
        X.L.elevation X.L.cos_zenith).sunlit_lai,
      shaded_lai := (E.calculate_absorbed_radiation p s X.L.par X.L.diffuse_frac
        X.L.elevation X.L.cos_zenith).shaded_lai } }

/-- Lines 75-86: the nitrogen content of the two leaves. -/
def slot_ncontent {W : Type} (K : constants) (p : params) (s : state) (X : world W) :
    world W :=
  if 0 < s.lai then
    { X with
      L := { X.L with
        leafn := s.shootnc * p.cfracts / p.sla * K.KG_AS_G,
        ncontent := assign (assign X.L.ncontent SUNLIT
            (s.shootnc * p.cfracts / p.sla * K.KG_AS_G * X.L.sunlit_lai)) SHADED
          (s.shootnc * p.cfracts / p.sla * K.KG_AS_G * X.L.shaded_lai) } }
  else
    { X with L := { X.L with ncontent := assign (assign X.L.ncontent SUNLIT 0) SHADED 0 } }

/-- Lines 64-86: the sunlit branch up to the leaf loop. -/
def slot_sunlit_setup {W : Type} (K : constants) (E : collaborators W) (p : params)
    (s : state) (X : world W) : world W :=
  slot_ncontent K p s (slot_absorbed_radiation E p s X)

/-- Lines 149-161: scaling to the canopy and the two updates. -/
def slot_sunlit_finish {W : Type} (K : constants) (E : collaborators W) (m : met)
    (p : params) (s : state) (Y : world W) : world W :=
  let acanopy := Y.L.sunlit_lai * Y.L.anleaf SUNLIT + Y.L.shaded_lai * Y.L.anleaf SHADED
  let gsc_canopy := Y.L.sunlit_lai * Y.L.gsc SUNLIT + Y.L.shaded_lai * Y.L.gsc SHADED
  let trans_canopy :=
    Y.L.sunlit_lai * Y.L.leaf_trans SUNLIT + Y.L.shaded_lai * Y.L.leaf_trans SHADED
  let f1 := update_daily_carbon_fluxes K Y.f p acanopy Y.L.total_apar
  { Y with
    f := f1
    water := E.calculate_sub_daily_water_balance Y.c f1 m p s Y.L.total_rnet
      trans_canopy Y.water
    L := { Y.L with acanopy := acanopy, gsc_canopy := gsc_canopy,
                    trans_canopy := trans_canopy }
    trace := Y.trace ++ [event.update_daily_carbon_fluxes acanopy Y.L.total_apar,
      event.calculate_sub_daily_water_balance Y.L.total_rnet trans_canopy] }

/-- Lines 163-173: the dark branch. -/
def slot_dark {W : Type} (K : constants) (E : collaborators W) (m : met)
    (p : params) (s : state) (Y : world W) : world W :=
  let total_apar := Y.L.apar SUNLIT + Y.L.apar SHADED
  let f1 := update_daily_carbon_fluxes K Y.f p 0 total_apar
  { Y with
    f := f1
    water := E.calculate_sub_daily_water_balance Y.c f1 m p s Y.L.total_rnet 0 Y.water
    L := { Y.L with acanopy := 0, gsc_canopy := 0, trans_canopy := 0,
                    total_apar := total_apar }
    trace := Y.trace ++ [event.update_daily_carbon_fluxes 0 total_apar,
      event.calculate_sub_daily_water_balance Y.L.total_rnet 0] }

/-- Line 61: `elevation > 0.0 && par > 50.0` for the slot that starts in `X`. -/
def sunlit_slot {W : Type} (E : collaborators W) (m : met) (p : params) (X : world W) :
    Prop :=
  0 < (slot_radiation E m p X).L.elevation ∧ 50 < (slot_radiation E m p X).L.par

/-- The body of the loop over `hod`, lines 53-173 (without `c->hrly_idx++`). -/
def canopy_slot {W : Type} (K : constants) (E : collaborators W) (m : met)
    (p : params) (s : state) (X : world W) : status × world W :=
  if 0 < (slot_radiation E m p X).L.elevation ∧ 50 < (slot_radiation E m p X).L.par then
    if (canopy_leaves K E m p s
        (slot_sunlit_setup K E p s (slot_radiation E m p X))).1 = status.ok then
      (status.ok, slot_sunlit_finish K E m p s
        (canopy_leaves K E m p s (slot_sunlit_setup K E p s (slot_radiation E m p X))).2)
    else
      canopy_leaves K E m p s (slot_sunlit_setup K E p s (slot_radiation E m p X))
  else
    (status.ok, slot_dark K E m p s (slot_radiation E m p X))

/-- `c->hrly_idx++` and `hod++` at the end of a turn of the loop over `hod`. -/
def next_slot {W : Type} (X : world W) : world W :=
  { X with
    c := { X.c with hrly_idx := X.c.hrly_idx + 1 }
    L := { X.L with hod := X.L.hod + 1 } }

/-- The loop `for (hod = 0; hod < c->num_hlf_hrs; hod++)` of lines 52-177 with
`n` turns left; each turn ends with `c->hrly_idx++` and `hod++`. -/
def canopy_hod_loop {W : Type} (K : constants) (E : collaborators W) (m : met)
    (p : params) (s : state) : Nat → world W → status × world W
  | 0, X => (status.ok, X)
  | n + 1, X =>
    if (canopy_slot K E m p s X).1 = status.ok then
      canopy_hod_loop K E m p s n (next_slot (canopy_slot K E m p s X).2)
    else
      canopy_slot K E m p s X

/-- The state in which `canopy()` enters its loop over `hod`: the daily fluxes
zeroed, `rnet = 0.0`, `iter = 0`, `itermax = 100`, `hod = 0`; `u` holds the
indeterminate contents of the variables declared without an initialiser. -/
def canopy_entry {W : Type} (E : collaborators W) (c : control) (f : fluxes)
    (water : W) (u : locals) : world W :=
  { c := c
    f := zero_carbon_day_fluxes f
    water := E.zero_water_day_fluxes water
    L := { u with rnet := 0, iter := 0, itermax := 100, hod := 0 }
    trace := [] }

/-- `canopy()`. -/
def canopy {W : Type} (K : constants) (E : collaborators W) (c : control) (f : fluxes)
    (m : met) (p : params) (s : state) (water : W) (u : locals) : status × world W :=
  canopy_hod_loop K E m p s c.num_hlf_hrs.toNat (canopy_entry E c f water u)

/-! ## Auxiliary definitions for the statements -/

/-- Number of calls of the photosynthesis model in a trace. -/
def photosynthesis_calls (tr : List event) : Nat :=
  tr.countP event.isPhotosynthesis

/-- Number of calls of the energy-balance solver in a trace. -/
def energy_balance_calls (tr : List event) : Nat :=
  tr.countP event.isEnergyBalance

/-- The values the last recorded pass for leaf `i` leaves behind: stomatal
conductance and assimilation from the last photosynthesis call, transpiration
from the energy-balance call of that pass, or `0` when the pass made none. -/
def record_pass (i : Nat) (v : Option (ℚ × ℚ × ℚ)) : event → Option (ℚ × ℚ × ℚ)
  | .photosynthesis_C3 j _ _ _ _ _ g a => if j = i then some (g, a, 0) else v
  | .solve_leaf_energy_balance j _ _ _ _ _ _ _ et =>
    if j = i then v.map (fun x => (x.1, x.2.1, et)) else v
  | _ => v

/-- The values of the last pass for leaf `i` in a trace, if there is one. -/
def last_pass (i : Nat) (tr : List event) : Option (ℚ × ℚ × ℚ) :=
  tr.foldl (record_pass i) none

/-- The part of the world that the stability loop for leaf `i` leaves alone:
everything but `Cs`, `dleaf`, `tleaf`, `new_tleaf`, `iter`, the entries `i` of
`gsc`, `anleaf`, `leaf_trans`, and the trace. -/
def outside_loop {W : Type} (i : Nat) (X : world W) : world W :=
  { X with
    L := { X.L with Cs := 0, dleaf := 0, tleaf := 0, new_tleaf := 0, iter := 0,
                    gsc := assign X.L.gsc i 0, anleaf := assign X.L.anleaf i 0,
                    leaf_trans := assign X.L.leaf_trans i 0 }
    trace := [] }

/-- The part of the world that a turn of the leaf loop for leaf `i` leaves
alone: what the stability loop leaves alone, less the two totals. -/
def outside_leaf {W : Type} (i : Nat) (X : world W) : world W :=
  outside_loop i { X with L := { X.L with total_rnet := 0, total_apar := 0 } }

/-- A day's sequence of calls `update_daily_carbon_fluxes(f, p, acanopy,
total_apar)`, one per pair of the list. -/
def daily_updates (K : constants) (p : params) (f : fluxes) (l : List (ℚ × ℚ)) : fluxes :=
  l.foldl (fun g x => update_daily_carbon_fluxes K g p x.1 x.2) f

/-- A whole pass of the stability loop that ends in `iter++`: lines 104-106,
117-121 and 134-135. -/
def full_pass {W : Type} (K : constants) (E : collaborators W) (m : met) (p : params)
    (s : state) (X : world W) : world W :=
  pass_update (pass_energy_balance K E m p s (pass_photosynthesis E p s X))

/-- The photosynthesis model returns positive assimilation on the pass that
starts in `X` (line 115). -/
def pass_assimilates {W : Type} (E : collaborators W) (p : params) (s : state)
    (X : world W) : Prop :=
  0 < (E.photosynthesis_C3 X.c p s (X.L.ncontent X.L.ileaf) X.L.tleaf
    (X.L.apar X.L.ileaf) X.L.Cs X.L.dleaf).2

/-- The new leaf temperature of the pass that starts in `X`. -/
def pass_new_tleaf {W : Type} (K : constants) (E : collaborators W) (m : met)
    (p : params) (s : state) (X : world W) : ℚ :=
  (solve_leaf_energy_balance K E X.c X.f m p s X.L.tleaf
    (E.photosynthesis_C3 X.c p s (X.L.ncontent X.L.ileaf) X.L.tleaf
      (X.L.apar X.L.ileaf) X.L.Cs X.L.dleaf).1
    (E.photosynthesis_C3 X.c p s (X.L.ncontent X.L.ileaf) X.L.tleaf
      (X.L.apar X.L.ileaf) X.L.Cs X.L.dleaf).2 (X.L.apar X.L.ileaf)).new_tleaf

/-- The stopping criterion of line 131 holds on the pass that starts in `X`. -/
def pass_converged {W : Type} (K : constants) (E : collaborators W) (m : met)
    (p : params) (s : state) (X : world W) : Prop :=
  |X.L.tleaf - pass_new_tleaf K E m p s X| < 2 / 100

/-- Line 61 for the slot read at index `idx` of the forcing in half-hour `hod`. -/
def sunlit_at {W : Type} (E : collaborators W) (m : met) (p : params) (idx hod : Int) :
    Prop :=
  0 < (E.calculate_zenith_angle p (m.doy idx) hod).2 ∧ 50 < m.par idx

/-- The world in which the stability loop of the sunlit leaf is entered in a
sunlit slot that starts in `X` (lines 53-97 with `ileaf = 0`). -/
def first_loop_entry {W : Type} (K : constants) (E : collaborators W) (m : met)
    (p : params) (s : state) (X : world W) : world W :=
  leaf_air_space K m (leaf_first (slot_sunlit_setup K E p s (slot_radiation E m p X)))

/-- The physical constants used by the conductances are positive. -/
def positive_constants (K : constants) : Prop :=
  0 < K.KPA_2_PA ∧ 0 < K.SIGMA ∧ 0 < K.LEAF_EMISSIVITY ∧ 0 < K.CP ∧ 0 < K.MASS_AIR ∧
    0 < K.RGAS ∧ 0 < K.DHEAT ∧ 0 < K.GBVGBH ∧ 0 < K.GSVGSC ∧ 0 < K.GBHGBC

/-- The world in which the stability loop of the shaded leaf is entered in a
sunlit slot that starts in `X`, after the loop of the sunlit leaf has ended
(lines 144-145, `ileaf++`, lines 95-97). -/
def second_loop_entry {W : Type} (K : constants) (E : collaborators W) (m : met)
    (p : params) (s : state) (X : world W) : world W :=
  leaf_air_space K m (leaf_next (leaf_totals
    (stability_loop K E m p s (first_loop_entry K E m p s X)).2))

/-- The world in which slot `k` (0-based) of a call of `canopy()` starts, the
slots before it having completed. -/
def slot_start {W : Type} (K : constants) (E : collaborators W) (c : control)
    (f : fluxes) (m : met) (p : params) (s : state) (water : W) (u : locals) (k : Nat) :
    world W :=
  (canopy_hod_loop K E m p s k (canopy_entry E c f water u)).2

/-- The world in which pass `j + 1` of a stability loop entered in `X` starts,
the `j` passes before it having ended in `iter++`. -/
def nth_pass {W : Type} (K : constants) (E : collaborators W) (m : met) (p : params)
    (s : state) (X : world W) (j : Nat) : world W :=
  (full_pass K E m p s)^[j] X

/-- A stability loop taken on its own: the same entry with `iter = 0`. -/
def reset_iter {W : Type} (X : world W) : world W :=
  { X with L := { X.L with iter := 0 } }

/-- A property `I` of the worlds a run of `canopy()` passes through, kept by
every step of the run that goes on, together with a property `F` of the fatal
error raised and the world in which it is raised. -/
structure run_invariant {W : Type} (K : constants) (E : collaborators W) (m : met)
    (p : params) (s : state) (I : world W → Prop) (F : status → world W → Prop) : Prop where
  C4_exit : ∀ X, I X → X.c.ps_pathway ≠ K.C3 → F status.C4_not_implemented X
  no_assimilation : ∀ X, I X → X.c.ps_pathway = K.C3 → ¬ pass_assimilates E p s X →
    I (pass_no_transpiration (pass_photosynthesis E p s X))
  cap : ∀ X, I X → X.c.ps_pathway = K.C3 → pass_assimilates E p s X →
    X.L.itermax ≤ X.L.iter →
    F status.no_convergence (pass_energy_balance K E m p s (pass_photosynthesis E p s X))
  converged : ∀ X, I X → X.c.ps_pathway = K.C3 → pass_assimilates E p s X →
    X.L.iter < X.L.itermax → pass_converged K E m p s X →
    I (pass_energy_balance K E m p s (pass_photosynthesis E p s X))
  update : ∀ X, I X → X.c.ps_pathway = K.C3 → pass_assimilates E p s X →
    X.L.iter < X.L.itermax → ¬ pass_converged K E m p s X → I (full_pass K E m p s X)
  air_space : ∀ X, I X → I (leaf_air_space K m X)
  totals : ∀ X, I X → I (leaf_totals X)
  first : ∀ X, I X → I (leaf_first X)
  next : ∀ X, I X → I (leaf_next X)
  radiation : ∀ X, I X → I (slot_radiation E m p X)
  setup : ∀ X, I X → I (slot_sunlit_setup K E p s X)
  finish : ∀ X, I X → I (slot_sunlit_finish K E m p s X)
  dark : ∀ X, I X → I (slot_dark K E m p s X)
  advance : ∀ X, I X → I (next_slot X)

/-- The net radiation seen by the water balance is `r` so far: the per-leaf
`rnet` is 0, `total_rnet` is `r`, and every recorded water-balance call was
handed `r`. -/
def rnet_untouched {W : Type} (r : ℚ) (X : world W) : Prop :=
  X.L.rnet = 0 ∧ X.L.total_rnet = r ∧
    ∀ a t : ℚ, event.calculate_sub_daily_water_balance a t ∈ X.trace → a = r

/-- Is the event the energy-balance call of a pass that has not converged
(`|tleaf - new_tleaf| >= 0.02`)?  The energy balance is only solved on passes
with positive assimilation. -/
def event.isNonConverged : event → Bool
  | .solve_leaf_energy_balance _ tleaf _ _ _ _ _ new_tleaf _ =>
    decide (¬ |tleaf - new_tleaf| < 2 / 100)
  | _ => false

/-- Is the event a photosynthesis call that returned positive assimilation? -/
def event.isAssimilating : event → Bool
  | .photosynthesis_C3 _ _ _ _ _ _ _ anleaf => decide (0 < anleaf)
  | _ => false

/-- Number of non-converged positive-assimilation passes recorded in a trace. -/
def non_converged_passes (tr : List event) : Nat :=
  tr.countP event.isNonConverged

/-- Some pass of the trace has positive assimilation and starts when `cap`
non-converged passes have been recorded before it. -/
def reaches_cap (cap : Nat) (tr : List event) : Prop :=
  ∃ (pre : List event) (e : event) (post : List event),
    tr = pre ++ e :: post ∧ e.isAssimilating = true ∧ non_converged_passes pre = cap

/-- The iteration count after a part of a run that has not raised the
non-convergence error: the pathway is `ps`, `itermax` is 100, `iter` is the
number of non-converged passes so far and at most 100, and no pass with
positive assimilation has started with that number at 100. -/
def iter_counts {W : Type} (ps : Int) (X : world W) : Prop :=
  X.c.ps_pathway = ps ∧ X.L.itermax = 100 ∧ X.L.iter = non_converged_passes X.trace ∧
    X.L.iter ≤ 100 ∧ ¬ reaches_cap 100 X.trace

/-- The iteration count where a fatal error is raised: either the pathway is not
C3 and the count is as in `iter_counts`, or the pathway is C3, the error is
the non-convergence error, `iter` is 100 and a pass with positive assimilation
has started with 100 non-converged passes before it. -/
def iter_at_exit {W : Type} (K : constants) (ps : Int) (st : status) (X : world W) :
    Prop :=
  (st = status.C4_not_implemented ∧ ps ≠ K.C3 ∧ iter_counts ps X) ∨
    (st = status.no_convergence ∧ ps = K.C3 ∧ X.L.itermax = 100 ∧ X.L.iter = 100 ∧
      reaches_cap 100 X.trace)

/-- A part of a run that leads from `X` to `Y` has made at most `b` passes
that did not end in `iter++`: `itermax` is kept, `iter` has not decreased and
is at most `itermax` if it was, and the photosynthesis model has been called at
most `b` times more than `iter` has been incremented. -/
def passes_bounded {W : Type} (b : Nat) (X Y : world W) : Prop :=
  Y.L.itermax = X.L.itermax ∧ X.L.iter ≤ Y.L.iter ∧
    (X.L.iter ≤ X.L.itermax → Y.L.iter ≤ Y.L.itermax) ∧
    photosynthesis_calls Y.trace + X.L.iter ≤ photosynthesis_calls X.trace + Y.L.iter + b

/-- What `calculate_absorbed_radiation` returns in the slot read at index `idx`
of the forcing in half-hour `hod` (lines 53-70). -/
def absorbed_at {W : Type} (E : collaborators W) (m : met) (p : params) (s : state)
    (idx hod : Int) : absorbed :=
  E.calculate_absorbed_radiation p s (m.par idx)
    (E.get_diffuse_frac (m.doy idx) (E.calculate_zenith_angle p (m.doy idx) hod).1
      (m.par idx))
    (E.calculate_zenith_angle p (m.doy idx) hod).2
    (E.calculate_zenith_angle p (m.doy idx) hod).1

/-- Line 61 can be decided. -/
instance sunlit_at_decidable {W : Type} (E : collaborators W) (m : met) (p : params)
    (idx hod : Int) : Decidable (sunlit_at E m p idx hod) :=
  inferInstanceAs (Decidable (0 < (E.calculate_zenith_angle p (m.doy idx) hod).2 ∧
    50 < m.par idx))

/-- Two forcings agree in all seven variables at index `i`. -/
def met_agree_at (m1 m2 : met) (i : Int) : Prop :=
  m1.doy i = m2.doy i ∧ m1.par i = m2.par i ∧ m1.tair i = m2.tair i ∧
    m1.vpd i = m2.vpd i ∧ m1.co2 i = m2.co2 i ∧ m1.press i = m2.press i ∧
    m1.wind i = m2.wind i

/-! ## The arithmetic of the C type `double` -/

/-- The integer nearest to `x`, the even one of the two when `x` lies halfway. -/
def round_half_even (x : ℚ) : ℤ :=
  if x - ⌊x⌋ < 1 / 2 then ⌊x⌋
  else if 1 / 2 < x - ⌊x⌋ then ⌊x⌋ + 1
  else if ⌊x⌋ % 2 = 0 then ⌊x⌋
  else ⌊x⌋ + 1

/-- The value of the C type `double` (IEEE 754 binary64) nearest to `q`: 53
significant bits, round to nearest, ties to even, gradual underflow below
`2^-1022`.  Overflow to infinity is not modelled. -/
def round_double (q : ℚ) : ℚ :=
  round_half_even (q / 2 ^ (max (Int.log 2 |q|) (-1022) - 52)) *
    2 ^ (max (Int.log 2 |q|) (-1022) - 52)

/-- An arithmetic in which the `double` expressions of the daily carbon fluxes
and of the canopy scaling are evaluated: the value of a decimal constant, and
the sum, difference and product of two values. -/
structure arith where
  lit : ℚ → ℚ
  add : ℚ → ℚ → ℚ
  sub : ℚ → ℚ → ℚ
  mul : ℚ → ℚ → ℚ

/-- Exact arithmetic, the reading of `double` used in the rest of the
embedding. -/
def exact_arith : arith :=
  { lit := fun q => q, add := fun a b => a + b, sub := fun a b => a - b,
    mul := fun a b => a * b }

/-- The arithmetic of IEEE 754 `double`s: every constant and every result of an
operation is rounded to the nearest `double`. -/
def double_arith : arith :=
  { lit := round_double, add := fun a b => round_double (a + b),
    sub := fun a b => round_double (a - b), mul := fun a b => round_double (a * b) }

/-- `update_daily_carbon_fluxes` (lines 347-353) with its operations taken in
the arithmetic `R`, in the order in which C evaluates them. -/
def update_daily_carbon_fluxes_in (R : arith) (K : constants) (f : fluxes) (p : params)
    (acanopy total_apar : ℚ) : fluxes :=
  let gpp_gCm2 := R.add f.gpp_gCm2
    (R.mul (R.mul (R.mul acanopy (R.lit UMOL_TO_MOL)) (R.lit MOL_C_TO_GRAMS_C))
      (R.lit SEC_2_HLFHR))
  let npp_gCm2 := R.mul gpp_gCm2 p.cue
  let gpp := R.mul gpp_gCm2 K.GRAM_C_2_TONNES_HA
  let npp := R.mul npp_gCm2 K.GRAM_C_2_TONNES_HA
  { gpp_gCm2 := gpp_gCm2
    npp_gCm2 := npp_gCm2
    gpp := gpp
    npp := npp
    auto_resp := R.sub gpp npp
    apar := R.add f.apar total_apar }

/-- A day's sequence of calls of `update_daily_carbon_fluxes` in the arithmetic
`R`, one per pair of the list. -/
def daily_updates_in (R : arith) (K : constants) (p : params) (f : fluxes)
    (l : List (ℚ × ℚ)) : fluxes :=
  l.foldl (fun g x => update_daily_carbon_fluxes_in R K g p x.1 x.2) f

/-- Lines 150-151 in the arithmetic `R`: `acanopy = sunlit_lai * anleaf[SUNLIT];`
`acanopy += shaded_lai * anleaf[SHADED]`. -/
def scale_to_canopy_in (R : arith) (sunlit_lai shaded_lai sunlit_value shaded_value : ℚ) :
    ℚ :=
  R.add (R.mul sunlit_lai sunlit_value) (R.mul shaded_lai shaded_value)

/-- Lines 150-158 in the arithmetic `R`: the carbon fluxes after the scaling of
the assimilation to the canopy and the call of `update_daily_carbon_fluxes`, in
the world `Y` in which the leaf loop has ended. -/
def slot_sunlit_fluxes_in {W : Type} (R : arith) (K : constants) (p : params)
    (Y : world W) : fluxes :=
  update_daily_carbon_fluxes_in R K Y.f p
    (scale_to_canopy_in R Y.L.sunlit_lai Y.L.shaded_lai (Y.L.anleaf SUNLIT)
      (Y.L.anleaf SHADED)) Y.L.total_apar

/-! ## A concrete scenario

The end-to-end scenario of the spec: one half-hour slot with `par = 500`,
elevation `0.5`, air temperature 25, wind 2, leaf width `0.02`, total LAI 2
split into `1.2` sunlit and `0.8` shaded, and a stub photosynthesis model
returning a fixed assimilation and conductance. -/

/-- Sample values for the header constants (usual physical values; `C3 = 0`). -/
def sample_constants : constants :=
  { KPA_2_PA := 1000, KG_AS_G := 1000, SIGMA := 567 / 10000000000,
    LEAF_EMISSIVITY := 95 / 100, CP := 1010, MASS_AIR := 29 / 1000,
    RGAS := 8314 / 1000, DHEAT := 215 / 10000000, GBVGBH := 1075 / 1000,
    GSVGSC := 157 / 100, GBHGBC := 132 / 100, PAR_2_SW := 10 / 23,
    GRAM_C_2_TONNES_HA := 1 / 100, C3 := 0 }

/-- A rational stand-in for `pow`: exact for the exponent 4, the rational
fourth root for the exponent 1/4, and 1 otherwise. -/
def sample_pow (x y : ℚ) : ℚ :=
  if y = 4 then x * x * x * x else if y = 1 / 4 then Rat.sqrt (Rat.sqrt x) else 1

/-- Modelled from the spec: `float_eq` is not among the sources; the spec
describes an equality guard with a small tolerance, here relative with
tolerance `1e-8`. -/
def sample_float_eq (a b : ℚ) : Bool :=
  decide (|a - b| ≤ 1 / 100000000 * |a|)

/-- Stub collaborators: the sun at elevation `elev`, the absorbed-radiation
split `ab`, a photosynthesis model returning the fixed conductance `g` and
assimilation `A`, and a Penman-Monteith stub that turns all net radiation into
latent heat with transpiration `et`. -/
def stub_collaborators (elev : ℚ) (ab : absorbed) (g A et : ℚ) : collaborators Unit :=
  { sqrt := Rat.sqrt
    pow := sample_pow
    exp := fun x => 1 + x
    float_eq := sample_float_eq
    calculate_zenith_angle := fun _ _ _ => (elev, elev)
    get_diffuse_frac := fun _ _ _ => 1 / 2
    calculate_absorbed_radiation := fun _ _ _ _ _ _ => ab
    photosynthesis_C3 := fun _ _ _ _ _ _ _ _ => (g, A)
    calc_sat_water_vapour_press := fun _ => 3000
    penman_leaf := fun _ rnet _ _ _ _ _ _ => (et, rnet)
    zero_water_day_fluxes := fun w => w
    calculate_sub_daily_water_balance := fun _ _ _ _ _ _ _ w => w }

/-- The absorbed-radiation split of the scenario. -/
def sample_absorbed : absorbed :=
  { apar_sunlit := 300, apar_shaded := 100, sunlit_lai := 12 / 10, shaded_lai := 8 / 10 }

/-- The stub collaborators of the scenario: assimilation 15. -/
def sample_collaborators : collaborators Unit :=
  stub_collaborators (1 / 2) sample_absorbed (2 / 10) 15 (1 / 1000)

/-- The forcing of the scenario, the same in every slot. -/
def sample_met : met :=
  { doy := fun _ => 180, par := fun _ => 500, tair := fun _ => 25, vpd := fun _ => 1,
    co2 := fun _ => 400, press := fun _ => 101, wind := fun _ => 2 }

/-- The parameters of the scenario. -/
def sample_params : params :=
  { cfracts := 1 / 2, sla := 4, leaf_width := 2 / 100, leaf_abs := 86 / 100,
    cue := 1 / 2, kext := 1 / 2 }

/-- The state of the scenario. -/
def sample_state : state :=
  { lai := 2, shootnc := 3 / 100 }

/-- One half-hour slot on the C3 pathway. -/
def sample_control : control :=
  { num_hlf_hrs := 1, hrly_idx := 0, ps_pathway := 0 }

/-- All-zero contents for the automatic variables. -/
def sample_locals : locals :=
  { Cs := 0, dleaf := 0, tleaf := 0, new_tleaf := 0, leafn := 0, ncontent := fun _ => 0,
    cos_zenith := 0, elevation := 0, anleaf := fun _ => 0, gsc := fun _ => 0,
    apar := fun _ => 0, leaf_trans := fun _ => 0, diffuse_frac := 0, rnet := 0,
    total_rnet := 0, par := 0, sunlit_lai := 0, acanopy := 0, trans_canopy := 0,
    shaded_lai := 0, gsc_canopy := 0, total_apar := 0, hod := 0, iter := 0,
    itermax := 0, ileaf := 0 }

/-- All-zero daily carbon fluxes. -/
def sample_fluxes : fluxes :=
  { gpp_gCm2 := 0, npp_gCm2 := 0, gpp := 0, npp := 0, auto_resp := 0, apar := 0 }

/-- The world in which `canopy()` enters the slot of the scenario. -/
def sample_world : world Unit :=
  canopy_entry sample_collaborators sample_control sample_fluxes () sample_locals

/-- The scenario's world with the iteration count already at the maximum. -/
def sample_world_at_cap : world Unit :=
  { sample_world with L := { sample_world.L with iter := 100 } }

/-- The forcing of the scenario in still air. -/
def calm_met : met :=
  { sample_met with wind := fun _ => 0 }

/-- Stub collaborators under which a leaf warms by one degree per pass until it
is `N` degrees above the air of the scenario: the photosynthesis stub returns
assimilation 15 and the conductance `tleaf - 24`, and the Penman-Monteith stub
leaves the sensible heat that brings the leaf to `tair + min gsc N`. -/
def warming_collaborators (N : ℚ) : collaborators Unit :=
  { sample_collaborators with
    photosynthesis_C3 := fun _ _ _ _ tleaf _ _ _ => (tleaf - 24, 15)
    penman_leaf := fun _ rnet _ _ gh _ _ gsv =>
      (1 / 1000, rnet - 4 * (1010 * (29 / 1000) * gh) * min (gsv / (157 / 100)) N) }

/-- The forcing of the scenario at dusk: light in the first half-hour, none
afterwards. -/
def dusk_met : met :=
  { sample_met with par := fun i => if i = 0 then 500 else 0 }

/-- Two half-hour slots on the C3 pathway. -/
def dusk_control : control :=
  { sample_control with num_hlf_hrs := 2 }

/-- The absorbed-radiation split of the scenario with the LAI pair as `double`s. -/
def double_absorbed : absorbed :=
  { apar_sunlit := 300, apar_shaded := 100, sunlit_lai := round_double (12 / 10),
    shaded_lai := round_double (8 / 10) }

/-- The stub collaborators of the scenario with the LAI pair as `double`s. -/
def double_collaborators : collaborators Unit :=
  stub_collaborators (1 / 2) double_absorbed (2 / 10) 15 (1 / 1000)

/-- The world in which the leaf loop of the scenario's slot ends (line 149),
the LAI pair being given as `double`s. -/
def double_scenario_leaves : world Unit :=
  (canopy_leaves sample_constants double_collaborators sample_met sample_params
    sample_state
    (slot_sunlit_setup sample_constants double_collaborators sample_params sample_state
      (slot_radiation double_collaborators sample_met sample_params
        (canopy_entry double_collaborators sample_control sample_fluxes ()
          sample_locals)))).2

/-- Sample constants with the tonnes-per-hectare factor as the `double` `0.01`. -/
def double_constants : constants :=
  { sample_constants with GRAM_C_2_TONNES_HA := round_double (1 / 100) }

/-- Sample parameters with the carbon-use efficiency as the `double` `0.45`. -/
def double_params : params :=
  { sample_params with cue := round_double (45 / 100) }

/-- Daily carbon fluxes with `gpp_gCm2` holding the `double` `0.1`. -/
def double_fluxes : fluxes :=
  { sample_fluxes with gpp_gCm2 := round_double (1 / 10) }

/-! ## Lemmas on the stability loop -/

theorem assign_same (a : Nat → ℚ) (i : Nat) (v : ℚ) : assign a i v i = v := by
  simp [assign]

theorem assign_other (a : Nat → ℚ) (i j : Nat) (v : ℚ) (h : j ≠ i) :
    assign a i v j = a j := by
  simp [assign, h]

theorem assign_assign (a : Nat → ℚ) (i : Nat) (v w : ℚ) :
    assign (assign a i v) i w = assign a i w := by
  funext j
  by_cases h : j = i <;> simp [assign, h]

/-- The bound of `stability_passes` does not matter. -/
theorem stability_passes_bound {W : Type} (K : constants) (E : collaborators W)
    (m : met) (p : params) (s : state) (n : Nat) :
    ∀ (n' : Nat) (X : world W) (h : X.L.itermax - X.L.iter ≤ n)
      (h' : X.L.itermax - X.L.iter ≤ n'),
      stability_passes K E m p s n X h = stability_passes K E m p s n' X h' := by
  induction n with
  | zero =>
    intro n' X h h'
    rw [stability_passes, stability_passes]
    split_ifs with h1 h2 h3 h4
    · rfl
    · rfl
    · exact (pass_update_possible K E m p s X h h3).elim
    · rfl
    · rfl
  | succ k ih =>
    intro n' X h h'
    rw [stability_passes, stability_passes]
    split_ifs with h1 h2 h3 h4
    · rfl
    · rfl
    · cases n' with
      | zero => exact (pass_update_possible K E m p s X h' h3).elim
      | succ k' => exact ih k' _ _ _
    · rfl
    · rfl

theorem stability_loop_C4 {W : Type} (K : constants) (E : collaborators W) (m : met)
    (p : params) (s : state) (X : world W) (h : X.c.ps_pathway ≠ K.C3) :
    stability_loop K E m p s X = (status.C4_not_implemented, X) := by
  rw [stability_loop, stability_passes, if_neg h]

theorem stability_loop_stop {W : Type} (K : constants) (E : collaborators W) (m : met)
    (p : params) (s : state) (X : world W) (h : X.c.ps_pathway = K.C3)
    (ha : ¬ 0 < (pass_photosynthesis E p s X).L.anleaf X.L.ileaf) :
    stability_loop K E m p s X =
      (status.ok, pass_no_transpiration (pass_photosynthesis E p s X)) := by
  rw [stability_loop, stability_passes, if_pos h, if_neg ha]

theorem stability_loop_cap {W : Type} (K : constants) (E : collaborators W) (m : met)
    (p : params) (s : state) (X : world W) (h : X.c.ps_pathway = K.C3)
    (ha : 0 < (pass_photosynthesis E p s X).L.anleaf X.L.ileaf)
    (hi : (pass_energy_balance K E m p s (pass_photosynthesis E p s X)).L.itermax ≤
      (pass_energy_balance K E m p s (pass_photosynthesis E p s X)).L.iter) :
    stability_loop K E m p s X =
      (status.no_convergence,
        pass_energy_balance K E m p s (pass_photosynthesis E p s X)) := by
  rw [stability_loop, stability_passes, if_pos h, if_pos ha, dif_pos hi]

theorem stability_loop_converged {W : Type} (K : constants) (E : collaborators W)
    (m : met) (p : params) (s : state) (X : world W) (h : X.c.ps_pathway = K.C3)
    (ha : 0 < (pass_photosynthesis E p s X).L.anleaf X.L.ileaf)
    (hi : ¬ (pass_energy_balance K E m p s (pass_photosynthesis E p s X)).L.itermax ≤
      (pass_energy_balance K E m p s (pass_photosynthesis E p s X)).L.iter)
    (hc : |(pass_energy_balance K E m p s (pass_photosynthesis E p s X)).L.tleaf -
      (pass_energy_balance K E m p s (pass_photosynthesis E p s X)).L.new_tleaf| <
        2 / 100) :
    stability_loop K E m p s X =
      (status.ok, pass_energy_balance K E m p s (pass_photosynthesis E p s X)) := by
  rw [stability_loop, stability_passes, if_pos h, if_pos ha, dif_neg hi, if_pos hc]

theorem stability_loop_continue {W : Type} (K : constants) (E : collaborators W)
    (m : met) (p : params) (s : state) (X : world W) (h : X.c.ps_pathway = K.C3)
    (ha : 0 < (pass_photosynthesis E p s X).L.anleaf X.L.ileaf)
    (hi : ¬ (pass_energy_balance K E m p s (pass_photosynthesis E p s X)).L.itermax ≤
      (pass_energy_balance K E m p s (pass_photosynthesis E p s X)).L.iter)
    (hc : ¬ |(pass_energy_balance K E m p s (pass_photosynthesis E p s X)).L.tleaf -
      (pass_energy_balance K E m p s (pass_photosynthesis E p s X)).L.new_tleaf| <
        2 / 100) :
    stability_loop K E m p s X =
      stability_loop K E m p s
        (pass_update (pass_energy_balance K E m p s (pass_photosynthesis E p s X))) := by
  have hk : X.L.itermax - X.L.iter ≤ (X.L.itermax - X.L.iter - 1) + 1 := by omega
  rw [stability_loop, stability_loop,
    stability_passes_bound K E m p s _ _ X (le_refl _) hk,
    stability_passes, if_pos h, if_pos ha, dif_neg hi, if_neg hc]
  exact stability_passes_bound K E m p s _ _ _ _ _

/-- Induction along the passes of the stability loop. -/
theorem stability_loop_induct {W : Type} (K : constants) (E : collaborators W)
    (m : met) (p : params) (s : state) (motive : world W → Prop)
    (case1 : ∀ x : world W, x.c.ps_pathway = K.C3 →
      0 < (pass_photosynthesis E p s x).L.anleaf x.L.ileaf →
      (pass_energy_balance K E m p s (pass_photosynthesis E p s x)).L.itermax ≤
        (pass_energy_balance K E m p s (pass_photosynthesis E p s x)).L.iter → motive x)
    (case2 : ∀ x : world W, x.c.ps_pathway = K.C3 →
      0 < (pass_photosynthesis E p s x).L.anleaf x.L.ileaf →
      ¬ (pass_energy_balance K E m p s (pass_photosynthesis E p s x)).L.itermax ≤
        (pass_energy_balance K E m p s (pass_photosynthesis E p s x)).L.iter →
      |(pass_energy_balance K E m p s (pass_photosynthesis E p s x)).L.tleaf -
        (pass_energy_balance K E m p s (pass_photosynthesis E p s x)).L.new_tleaf| <
          2 / 100 → motive x)
    (case3 : ∀ x : world W, x.c.ps_pathway = K.C3 →
      0 < (pass_photosynthesis E p s x).L.anleaf x.L.ileaf →
      ¬ (pass_energy_balance K E m p s (pass_photosynthesis E p s x)).L.itermax ≤
        (pass_energy_balance K E m p s (pass_photosynthesis E p s x)).L.iter →
      ¬ |(pass_energy_balance K E m p s (pass_photosynthesis E p s x)).L.tleaf -
        (pass_energy_balance K E m p s (pass_photosynthesis E p s x)).L.new_tleaf| <
          2 / 100 →
      motive (pass_update (pass_energy_balance K E m p s (pass_photosynthesis E p s x))) →
      motive x)
    (case4 : ∀ x : world W, x.c.ps_pathway = K.C3 →
      ¬ 0 < (pass_photosynthesis E p s x).L.anleaf x.L.ileaf → motive x)
    (case5 : ∀ x : world W, ¬ x.c.ps_pathway = K.C3 → motive x) (X : world W) :
    motive X := by
  generalize hn : X.L.itermax - X.L.iter = n
  induction n generalizing X with
  | zero =>
    by_cases h : X.c.ps_pathway = K.C3
    · by_cases ha : 0 < (pass_photosynthesis E p s X).L.anleaf X.L.ileaf
      · by_cases hi : (pass_energy_balance K E m p s (pass_photosynthesis E p s X)).L.itermax ≤
          (pass_energy_balance K E m p s (pass_photosynthesis E p s X)).L.iter
        · exact case1 X h ha hi
        · exact (pass_update_possible K E m p s X (le_of_eq hn) hi).elim
      · exact case4 X h ha
    · exact case5 X h
  | succ k ih =>
    by_cases h : X.c.ps_pathway = K.C3
    · by_cases ha : 0 < (pass_photosynthesis E p s X).L.anleaf X.L.ileaf
      · by_cases hi : (pass_energy_balance K E m p s (pass_photosynthesis E p s X)).L.itermax ≤
          (pass_energy_balance K E m p s (pass_photosynthesis E p s X)).L.iter
        · exact case1 X h ha hi
        · by_cases hc : |(pass_energy_balance K E m p s
              (pass_photosynthesis E p s X)).L.tleaf -
              (pass_energy_balance K E m p s (pass_photosynthesis E p s X)).L.new_tleaf| <
                2 / 100
          · exact case2 X h ha hi hc
          · refine case3 X h ha hi hc (ih _ ?_)
            simp only [pass_update, pass_energy_balance, pass_photosynthesis, not_le] at hi ⊢
            omega
      · exact case4 X h ha
    · exact case5 X h

attribute [irreducible] stability_loop

/-- The stability loop writes nothing outside its own leaf state. -/
theorem stability_loop_outside {W : Type} (K : constants) (E : collaborators W)
    (m : met) (p : params) (s : state) (X : world W) :
    outside_loop X.L.ileaf (stability_loop K E m p s X).2 = outside_loop X.L.ileaf X := by
  induction X using stability_loop_induct K E m p s with
  | case1 x h ha hi =>
    rw [stability_loop_cap K E m p s x h ha hi]
    simp [outside_loop, pass_energy_balance, pass_photosynthesis, assign_assign]
  | case2 x h ha hi hc =>
    rw [stability_loop_converged K E m p s x h ha hi hc]
    simp [outside_loop, pass_energy_balance, pass_photosynthesis, assign_assign]
  | case3 x h ha hi hc ih =>
    rw [stability_loop_continue K E m p s x h ha hi hc]
    have e : (pass_update (pass_energy_balance K E m p s
        (pass_photosynthesis E p s x))).L.ileaf = x.L.ileaf := rfl
    rw [e] at ih
    rw [ih]
    simp [outside_loop, pass_update, pass_energy_balance, pass_photosynthesis,
      assign_assign]
  | case4 x h ha =>
    rw [stability_loop_stop K E m p s x h ha]
    simp [outside_loop, pass_no_transpiration, pass_photosynthesis, assign_assign]
  | case5 x h =>
    rw [stability_loop_C4 K E m p s x h]

/-- A loop that is left normally ran on the C3 pathway. -/
theorem stability_loop_ok_C3 {W : Type} (K : constants) (E : collaborators W)
    (m : met) (p : params) (s : state) (X : world W)
    (h : (stability_loop K E m p s X).1 = status.ok) : X.c.ps_pathway = K.C3 := by
  by_contra hps
  rw [stability_loop_C4 K E m p s X hps] at h
  exact status.noConfusion h

/-- On the C3 pathway the entries of the loop's leaf are those of its last pass. -/
theorem stability_loop_last_pass {W : Type} (K : constants) (E : collaborators W)
    (m : met) (p : params) (s : state) (X : world W) (hps : X.c.ps_pathway = K.C3) :
    last_pass X.L.ileaf (stability_loop K E m p s X).2.trace =
      some ((stability_loop K E m p s X).2.L.gsc X.L.ileaf,
        (stability_loop K E m p s X).2.L.anleaf X.L.ileaf,
        (stability_loop K E m p s X).2.L.leaf_trans X.L.ileaf) := by
  induction X using stability_loop_induct K E m p s with
  | case1 x h ha hi =>
    rw [stability_loop_cap K E m p s x h ha hi]
    simp [last_pass, record_pass, pass_energy_balance, pass_photosynthesis, assign]
  | case2 x h ha hi hc =>
    rw [stability_loop_converged K E m p s x h ha hi hc]
    simp [last_pass, record_pass, pass_energy_balance, pass_photosynthesis, assign]
  | case3 x h ha hi hc ih =>
    rw [stability_loop_continue K E m p s x h ha hi hc]
    exact ih hps
  | case4 x h ha =>
    rw [stability_loop_stop K E m p s x h ha]
    simp [last_pass, record_pass, pass_no_transpiration, pass_photosynthesis, assign]
  | case5 x h => exact absurd hps h

/-- The loop for one leaf records nothing for the other leaf. -/
theorem stability_loop_last_pass_other {W : Type} (K : constants) (E : collaborators W)
    (m : met) (p : params) (s : state) (X : world W) (j : Nat) (hj : X.L.ileaf ≠ j) :
    last_pass j (stability_loop K E m p s X).2.trace = last_pass j X.trace := by
  induction X using stability_loop_induct K E m p s with
  | case1 x h ha hi =>
    rw [stability_loop_cap K E m p s x h ha hi]
    simp [last_pass, record_pass, pass_energy_balance, pass_photosynthesis, hj]
  | case2 x h ha hi hc =>
    rw [stability_loop_converged K E m p s x h ha hi hc]
    simp [last_pass, record_pass, pass_energy_balance, pass_photosynthesis, hj]
  | case3 x h ha hi hc ih =>
    rw [stability_loop_continue K E m p s x h ha hi hc, ih hj]
    simp [last_pass, record_pass, pass_update, pass_energy_balance, pass_photosynthesis, hj]
  | case4 x h ha =>
    rw [stability_loop_stop K E m p s x h ha]
    simp [last_pass, record_pass, pass_no_transpiration, pass_photosynthesis, hj]
  | case5 x h =>
    rw [stability_loop_C4 K E m p s x h]

/-! ## Lemmas on the leaf loop and the slot -/

theorem last_pass_append_updates (i : Nat) (tr : List event) (a b c d : ℚ) :
    last_pass i (tr ++ [event.update_daily_carbon_fluxes a b,
      event.calculate_sub_daily_water_balance c d]) = last_pass i tr := by
  simp [last_pass, record_pass]

theorem canopy_leaf_ok {W : Type} (K : constants) (E : collaborators W) (m : met)
    (p : params) (s : state) (X : world W)
    (h : (canopy_leaf K E m p s X).1 = status.ok) :
    (stability_loop K E m p s (leaf_air_space K m X)).1 = status.ok ∧
      (canopy_leaf K E m p s X).2 =
        leaf_totals (stability_loop K E m p s (leaf_air_space K m X)).2 := by
  unfold canopy_leaf at h ⊢
  by_cases h1 : (stability_loop K E m p s (leaf_air_space K m X)).1 = status.ok
  · simp [h1]
  · rw [if_neg h1] at h
    exact absurd h h1

theorem canopy_leaf_outside {W : Type} (K : constants) (E : collaborators W) (m : met)
    (p : params) (s : state) (X : world W) :
    outside_leaf X.L.ileaf (canopy_leaf K E m p s X).2 = outside_leaf X.L.ileaf X := by
  have h := stability_loop_outside K E m p s (leaf_air_space K m X)
  have e : (leaf_air_space K m X).L.ileaf = X.L.ileaf := rfl
  rw [e] at h
  have h2 : outside_leaf X.L.ileaf (stability_loop K E m p s (leaf_air_space K m X)).2 =
      outside_leaf X.L.ileaf X := by
    have := congrArg (fun Z : world W => outside_leaf X.L.ileaf Z) h
    simpa [outside_leaf, outside_loop, leaf_air_space, assign_assign] using this
  unfold canopy_leaf
  split_ifs with h1
  · rw [← h2]
    simp [outside_leaf, outside_loop, leaf_totals]
  · exact h2

theorem canopy_leaf_last_pass {W : Type} (K : constants) (E : collaborators W) (m : met)
    (p : params) (s : state) (X : world W)
    (h : (canopy_leaf K E m p s X).1 = status.ok) :
    last_pass X.L.ileaf (canopy_leaf K E m p s X).2.trace =
      some ((canopy_leaf K E m p s X).2.L.gsc X.L.ileaf,
        (canopy_leaf K E m p s X).2.L.anleaf X.L.ileaf,
        (canopy_leaf K E m p s X).2.L.leaf_trans X.L.ileaf) := by
  obtain ⟨h1, h2⟩ := canopy_leaf_ok K E m p s X h
  have h3 := stability_loop_last_pass K E m p s (leaf_air_space K m X)
    (stability_loop_ok_C3 K E m p s _ h1)
  rw [h2]
  exact h3

theorem canopy_leaf_last_pass_other {W : Type} (K : constants) (E : collaborators W)
    (m : met) (p : params) (s : state) (X : world W) (j : Nat) (hj : X.L.ileaf ≠ j) :
    last_pass j (canopy_leaf K E m p s X).2.trace = last_pass j X.trace := by
  have h := stability_loop_last_pass_other K E m p s (leaf_air_space K m X) j hj
  unfold canopy_leaf
  split_ifs with h1
  · exact h
  · exact h

theorem canopy_leaf_ileaf {W : Type} (K : constants) (E : collaborators W) (m : met)
    (p : params) (s : state) (X : world W) :
    (canopy_leaf K E m p s X).2.L.ileaf = X.L.ileaf := by
  have h := congrArg (fun Z : world W => Z.L.ileaf) (canopy_leaf_outside K E m p s X)
  simpa only [outside_leaf, outside_loop] using h

theorem canopy_leaf_lai {W : Type} (K : constants) (E : collaborators W) (m : met)
    (p : params) (s : state) (X : world W) :
    (canopy_leaf K E m p s X).2.L.sunlit_lai = X.L.sunlit_lai ∧
      (canopy_leaf K E m p s X).2.L.shaded_lai = X.L.shaded_lai := by
  have h1 := congrArg (fun Z : world W => Z.L.sunlit_lai) (canopy_leaf_outside K E m p s X)
  have h2 := congrArg (fun Z : world W => Z.L.shaded_lai) (canopy_leaf_outside K E m p s X)
  simp only [outside_leaf, outside_loop] at h1 h2
  exact ⟨h1, h2⟩

/-- A turn of the leaf loop leaves the entries of the other leaf alone. -/
theorem canopy_leaf_other {W : Type} (K : constants) (E : collaborators W) (m : met)
    (p : params) (s : state) (X : world W) (j : Nat) (hj : j ≠ X.L.ileaf) :
    (canopy_leaf K E m p s X).2.L.gsc j = X.L.gsc j ∧
      (canopy_leaf K E m p s X).2.L.anleaf j = X.L.anleaf j ∧
      (canopy_leaf K E m p s X).2.L.leaf_trans j = X.L.leaf_trans j := by
  have h := canopy_leaf_outside K E m p s X
  have h1 := congrArg (fun Z : world W => Z.L.gsc j) h
  have h2 := congrArg (fun Z : world W => Z.L.anleaf j) h
  have h3 := congrArg (fun Z : world W => Z.L.leaf_trans j) h
  simp only [outside_leaf, outside_loop, assign, if_neg hj] at h1 h2 h3
  exact ⟨h1, h2, h3⟩

theorem canopy_leaves_ok {W : Type} (K : constants) (E : collaborators W) (m : met)
    (p : params) (s : state) (X : world W)
    (h : (canopy_leaves K E m p s X).1 = status.ok) :
    (canopy_leaf K E m p s (leaf_first X)).1 = status.ok ∧
      (canopy_leaf K E m p s
        (leaf_next (canopy_leaf K E m p s (leaf_first X)).2)).1 = status.ok ∧
      (canopy_leaves K E m p s X).2 =
        leaf_next (canopy_leaf K E m p s
          (leaf_next (canopy_leaf K E m p s (leaf_first X)).2)).2 := by
  unfold canopy_leaves at h ⊢
  by_cases h0 : (canopy_leaf K E m p s (leaf_first X)).1 = status.ok
  · by_cases h1 : (canopy_leaf K E m p s
        (leaf_next (canopy_leaf K E m p s (leaf_first X)).2)).1 = status.ok
    · simp [h0, h1]
    · rw [if_pos h0, if_neg h1] at h
      exact absurd h h1
  · rw [if_neg h0] at h
    exact absurd h h0

/-- After both turns of the leaf loop the entries of either leaf are those of
the last pass of that leaf's stability loop, and the LAI split is untouched. -/
theorem canopy_leaves_last_pass {W : Type} (K : constants) (E : collaborators W)
    (m : met) (p : params) (s : state) (X : world W)
    (h : (canopy_leaves K E m p s X).1 = status.ok) :
    last_pass 0 (canopy_leaves K E m p s X).2.trace =
        some ((canopy_leaves K E m p s X).2.L.gsc 0,
          (canopy_leaves K E m p s X).2.L.anleaf 0,
          (canopy_leaves K E m p s X).2.L.leaf_trans 0) ∧
      last_pass 1 (canopy_leaves K E m p s X).2.trace =
        some ((canopy_leaves K E m p s X).2.L.gsc 1,
          (canopy_leaves K E m p s X).2.L.anleaf 1,
          (canopy_leaves K E m p s X).2.L.leaf_trans 1) ∧
      (canopy_leaves K E m p s X).2.L.sunlit_lai = X.L.sunlit_lai ∧
      (canopy_leaves K E m p s X).2.L.shaded_lai = X.L.shaded_lai := by
  obtain ⟨h0, h1, h2⟩ := canopy_leaves_ok K E m p s X h
  have i0 : (canopy_leaf K E m p s (leaf_first X)).2.L.ileaf = 0 :=
    canopy_leaf_ileaf K E m p s (leaf_first X)
  have i1 : (leaf_next (canopy_leaf K E m p s (leaf_first X)).2).L.ileaf = 1 := by
    simp [leaf_next, i0]
  have a0 := canopy_leaf_last_pass K E m p s (leaf_first X) h0
  have a1 := canopy_leaf_last_pass K E m p s _ h1
  have b1 := canopy_leaf_last_pass_other K E m p s
    (leaf_next (canopy_leaf K E m p s (leaf_first X)).2) 0 (by rw [i1]; decide)
  have o1 := canopy_leaf_other K E m p s
    (leaf_next (canopy_leaf K E m p s (leaf_first X)).2) 0 (by rw [i1]; decide)
  have l0 := canopy_leaf_lai K E m p s (leaf_first X)
  have l1 := canopy_leaf_lai K E m p s (leaf_next (canopy_leaf K E m p s (leaf_first X)).2)
  rw [i1] at a1
  have t0 : (leaf_next (canopy_leaf K E m p s (leaf_first X)).2).trace =
      (canopy_leaf K E m p s (leaf_first X)).2.trace := rfl
  have g0 : (leaf_next (canopy_leaf K E m p s (leaf_first X)).2).L.gsc 0 =
      (canopy_leaf K E m p s (leaf_first X)).2.L.gsc 0 := rfl
  have g1 : (leaf_next (canopy_leaf K E m p s (leaf_first X)).2).L.anleaf 0 =
      (canopy_leaf K E m p s (leaf_first X)).2.L.anleaf 0 := rfl
  have g2 : (leaf_next (canopy_leaf K E m p s (leaf_first X)).2).L.leaf_trans 0 =
      (canopy_leaf K E m p s (leaf_first X)).2.L.leaf_trans 0 := rfl
  have j0 : (leaf_first X).L.ileaf = 0 := rfl
  rw [j0] at a0
  rw [t0, a0, ← g0, ← g1, ← g2, ← o1.1, ← o1.2.1, ← o1.2.2] at b1
  rw [h2]
  simp only [leaf_next]
  refine ⟨b1, a1, ?_, ?_⟩
  · exact l1.1.trans l0.1
  · exact l1.2.trans l0.2

/-- A slot that is not sunlit takes the dark branch. -/
theorem canopy_slot_of_dark {W : Type} (K : constants) (E : collaborators W) (m : met)
    (p : params) (s : state) (X : world W) (h : ¬ sunlit_slot E m p X) :
    canopy_slot K E m p s X = (status.ok, slot_dark K E m p s (slot_radiation E m p X)) := by
  unfold canopy_slot
  exact if_neg h

/-- A sunlit slot runs the leaf loop and, when that completes, the scaling and
the two updates. -/
theorem canopy_slot_of_sunlit {W : Type} (K : constants) (E : collaborators W) (m : met)
    (p : params) (s : state) (X : world W) (h : sunlit_slot E m p X) :
    canopy_slot K E m p s X =
      if (canopy_leaves K E m p s
          (slot_sunlit_setup K E p s (slot_radiation E m p X))).1 = status.ok then
        (status.ok, slot_sunlit_finish K E m p s
          (canopy_leaves K E m p s (slot_sunlit_setup K E p s (slot_radiation E m p X))).2)
      else
        canopy_leaves K E m p s (slot_sunlit_setup K E p s (slot_radiation E m p X)) := by
  unfold canopy_slot
  exact if_pos h

/-- A sunlit slot completes exactly when its leaf loop does. -/
theorem canopy_slot_sunlit_ok {W : Type} (K : constants) (E : collaborators W) (m : met)
    (p : params) (s : state) (X : world W) (h : sunlit_slot E m p X) :
    (canopy_slot K E m p s X).1 = status.ok ↔
      (canopy_leaves K E m p s
        (slot_sunlit_setup K E p s (slot_radiation E m p X))).1 = status.ok := by
  rw [canopy_slot_of_sunlit K E m p s X h]
  split_ifs with h1
  · simp [h1]
  · simp [h1]

/-- The world a completed sunlit slot ends in. -/
theorem canopy_slot_sunlit_world {W : Type} (K : constants) (E : collaborators W)
    (m : met) (p : params) (s : state) (X : world W) (h : sunlit_slot E m p X)
    (hok : (canopy_slot K E m p s X).1 = status.ok) :
    (canopy_slot K E m p s X).2 =
      slot_sunlit_finish K E m p s
        (canopy_leaves K E m p s (slot_sunlit_setup K E p s (slot_radiation E m p X))).2 := by
  have h1 := (canopy_slot_sunlit_ok K E m p s X h).mp hok
  rw [canopy_slot_of_sunlit K E m p s X h, if_pos h1]

/-- The sunlit branch enters the leaf loop with the LAI pair and absorbed PAR
returned by the absorbed-radiation collaborator, and the zeroed total. -/
theorem slot_sunlit_setup_absorbed {W : Type} (K : constants) (E : collaborators W)
    (p : params) (s : state) (Y : world W) :
    (slot_sunlit_setup K E p s Y).L.sunlit_lai =
        (E.calculate_absorbed_radiation p s Y.L.par Y.L.diffuse_frac Y.L.elevation
          Y.L.cos_zenith).sunlit_lai ∧
      (slot_sunlit_setup K E p s Y).L.shaded_lai =
        (E.calculate_absorbed_radiation p s Y.L.par Y.L.diffuse_frac Y.L.elevation
          Y.L.cos_zenith).shaded_lai ∧
      (slot_sunlit_setup K E p s Y).L.apar 0 =
        (E.calculate_absorbed_radiation p s Y.L.par Y.L.diffuse_frac Y.L.elevation
          Y.L.cos_zenith).apar_sunlit ∧
      (slot_sunlit_setup K E p s Y).L.apar 1 =
        (E.calculate_absorbed_radiation p s Y.L.par Y.L.diffuse_frac Y.L.elevation
          Y.L.cos_zenith).apar_shaded ∧
      (slot_sunlit_setup K E p s Y).L.total_apar = 0 ∧
      (slot_sunlit_setup K E p s Y).f = Y.f ∧
      (slot_sunlit_setup K E p s Y).c = Y.c ∧
      (slot_sunlit_setup K E p s Y).trace = Y.trace ∧
      (slot_sunlit_setup K E p s Y).L.iter = Y.L.iter ∧
      (slot_sunlit_setup K E p s Y).L.itermax = Y.L.itermax := by
  unfold slot_sunlit_setup slot_ncontent
  split_ifs <;> simp [slot_absorbed_radiation, assign]

/-- A pass with positive assimilation below the cap whose new leaf temperature
is within 0.02 of the old one ends the loop, in terms of the two calls. -/
theorem stability_loop_pass_converges {W : Type} (K : constants) (E : collaborators W)
    (m : met) (p : params) (s : state) (X : world W) (hps : X.c.ps_pathway = K.C3)
    (hit : X.L.iter < X.L.itermax)
    (ha : 0 < (E.photosynthesis_C3 X.c p s (X.L.ncontent X.L.ileaf) X.L.tleaf
      (X.L.apar X.L.ileaf) X.L.Cs X.L.dleaf).2)
    (hc : |X.L.tleaf - (solve_leaf_energy_balance K E X.c X.f m p s X.L.tleaf
      (E.photosynthesis_C3 X.c p s (X.L.ncontent X.L.ileaf) X.L.tleaf
        (X.L.apar X.L.ileaf) X.L.Cs X.L.dleaf).1
      (E.photosynthesis_C3 X.c p s (X.L.ncontent X.L.ileaf) X.L.tleaf
        (X.L.apar X.L.ileaf) X.L.Cs X.L.dleaf).2 (X.L.apar X.L.ileaf)).new_tleaf| <
        2 / 100) :
    stability_loop K E m p s X =
      (status.ok, pass_energy_balance K E m p s (pass_photosynthesis E p s X)) := by
  apply stability_loop_converged K E m p s X hps
  · simpa [pass_photosynthesis, assign] using ha
  · simpa [pass_energy_balance, pass_photosynthesis] using hit
  · simpa [pass_energy_balance, pass_photosynthesis, assign] using hc

/-- On the C3 pathway the conductance and assimilation a loop leaves for its
leaf are what the photosynthesis model returned for this leaf's nitrogen
content and absorbed PAR at some leaf temperature, `Cs` and `dleaf`. -/
theorem stability_loop_photosynthesis {W : Type} (K : constants) (E : collaborators W)
    (m : met) (p : params) (s : state) (X : world W) (hps : X.c.ps_pathway = K.C3) :
    ∃ t cs d : ℚ,
      (stability_loop K E m p s X).2.L.gsc X.L.ileaf =
          (E.photosynthesis_C3 X.c p s (X.L.ncontent X.L.ileaf) t (X.L.apar X.L.ileaf)
            cs d).1 ∧
        (stability_loop K E m p s X).2.L.anleaf X.L.ileaf =
          (E.photosynthesis_C3 X.c p s (X.L.ncontent X.L.ileaf) t (X.L.apar X.L.ileaf)
            cs d).2 := by
  induction X using stability_loop_induct K E m p s with
  | case1 x h ha hi =>
    rw [stability_loop_cap K E m p s x h ha hi]
    exact ⟨x.L.tleaf, x.L.Cs, x.L.dleaf,
      by simp [pass_energy_balance, pass_photosynthesis, assign],
      by simp [pass_energy_balance, pass_photosynthesis, assign]⟩
  | case2 x h ha hi hc =>
    rw [stability_loop_converged K E m p s x h ha hi hc]
    exact ⟨x.L.tleaf, x.L.Cs, x.L.dleaf,
      by simp [pass_energy_balance, pass_photosynthesis, assign],
      by simp [pass_energy_balance, pass_photosynthesis, assign]⟩
  | case3 x h ha hi hc ih =>
    rw [stability_loop_continue K E m p s x h ha hi hc]
    exact ih hps
  | case4 x h ha =>
    rw [stability_loop_stop K E m p s x h ha]
    exact ⟨x.L.tleaf, x.L.Cs, x.L.dleaf,
      by simp [pass_no_transpiration, pass_photosynthesis, assign],
      by simp [pass_no_transpiration, pass_photosynthesis, assign]⟩
  | case5 x h => exact absurd hps h

/-- The fatal non-convergence exit is taken with `iter` at or above `itermax`. -/
theorem stability_loop_fatal_at_cap {W : Type} (K : constants) (E : collaborators W)
    (m : met) (p : params) (s : state) (X : world W)
    (hf : (stability_loop K E m p s X).1 = status.no_convergence) :
    (stability_loop K E m p s X).2.L.itermax ≤ (stability_loop K E m p s X).2.L.iter := by
  induction X using stability_loop_induct K E m p s with
  | case1 x h ha hi =>
    rw [stability_loop_cap K E m p s x h ha hi]
    exact hi
  | case2 x h ha hi hc =>
    rw [stability_loop_converged K E m p s x h ha hi hc] at hf
    exact status.noConfusion hf
  | case3 x h ha hi hc ih =>
    rw [stability_loop_continue K E m p s x h ha hi hc] at hf ⊢
    exact ih hf
  | case4 x h ha =>
    rw [stability_loop_stop K E m p s x h ha] at hf
    exact status.noConfusion hf
  | case5 x h =>
    rw [stability_loop_C4 K E m p s x h] at hf
    exact status.noConfusion hf

/-- What a completed turn of the leaf loop leaves outside the leaf's own
entries: the fluxes and `apar` untouched, `apar[ileaf]` added to `total_apar`. -/
theorem canopy_leaf_totals {W : Type} (K : constants) (E : collaborators W) (m : met)
    (p : params) (s : state) (X : world W)
    (h : (canopy_leaf K E m p s X).1 = status.ok) :
    (canopy_leaf K E m p s X).2.f = X.f ∧
      (canopy_leaf K E m p s X).2.L.apar = X.L.apar ∧
      (canopy_leaf K E m p s X).2.L.total_apar = X.L.total_apar + X.L.apar X.L.ileaf := by
  obtain ⟨_, e0⟩ := canopy_leaf_ok K E m p s X h
  have o := stability_loop_outside K E m p s (leaf_air_space K m X)
  have q : (stability_loop K E m p s (leaf_air_space K m X)).2.L.total_apar =
      X.L.total_apar := by
    have t := congrArg (fun Z : world W => Z.L.total_apar) o
    exact t
  have a : (stability_loop K E m p s (leaf_air_space K m X)).2.L.apar = X.L.apar := by
    have t := congrArg (fun Z : world W => Z.L.apar) o
    exact t
  have i : (stability_loop K E m p s (leaf_air_space K m X)).2.L.ileaf = X.L.ileaf := by
    have t := congrArg (fun Z : world W => Z.L.ileaf) o
    exact t
  have f : (stability_loop K E m p s (leaf_air_space K m X)).2.f = X.f := by
    have t := congrArg (fun Z : world W => Z.f) o
    exact t
  rw [e0]
  refine ⟨f, a, ?_⟩
  show (stability_loop K E m p s (leaf_air_space K m X)).2.L.total_apar +
    (stability_loop K E m p s (leaf_air_space K m X)).2.L.apar
      (stability_loop K E m p s (leaf_air_space K m X)).2.L.ileaf = _
  rw [q, a, i]

/-- With a photosynthesis model that always returns `(g, A)`, a completed turn
of the leaf loop leaves `anleaf[ileaf] = A`. -/
theorem canopy_leaf_constant_model {W : Type} (K : constants) (E : collaborators W)
    (m : met) (p : params) (s : state) (X : world W) (g A : ℚ)
    (hE : ∀ c p s n t a cs d, E.photosynthesis_C3 c p s n t a cs d = (g, A))
    (h : (canopy_leaf K E m p s X).1 = status.ok) :
    (canopy_leaf K E m p s X).2.L.anleaf X.L.ileaf = A := by
  obtain ⟨s0, e0⟩ := canopy_leaf_ok K E m p s X h
  obtain ⟨t0, c0, d0, _, a0⟩ := stability_loop_photosynthesis K E m p s
    (leaf_air_space K m X) (stability_loop_ok_C3 K E m p s _ s0)
  rw [hE] at a0
  rw [e0]
  exact a0

/-- With a photosynthesis model that always returns `(g, A)`, a completed leaf
loop leaves `anleaf = A` for both leaves, does not touch the fluxes, and has
added both entries of `apar` to `total_apar`. -/
theorem canopy_leaves_constant_model {W : Type} (K : constants) (E : collaborators W)
    (m : met) (p : params) (s : state) (X : world W) (g A : ℚ)
    (hE : ∀ c p s n t a cs d, E.photosynthesis_C3 c p s n t a cs d = (g, A))
    (h : (canopy_leaves K E m p s X).1 = status.ok) :
    (canopy_leaves K E m p s X).2.L.anleaf 0 = A ∧
      (canopy_leaves K E m p s X).2.L.anleaf 1 = A ∧
      (canopy_leaves K E m p s X).2.f = X.f ∧
      (canopy_leaves K E m p s X).2.L.total_apar =
        X.L.total_apar + X.L.apar 0 + X.L.apar 1 := by
  obtain ⟨h0, h1, h2⟩ := canopy_leaves_ok K E m p s X h
  have i0 : (canopy_leaf K E m p s (leaf_first X)).2.L.ileaf = 0 :=
    canopy_leaf_ileaf K E m p s (leaf_first X)
  have i1 : (leaf_next (canopy_leaf K E m p s (leaf_first X)).2).L.ileaf = 1 := by
    simp [leaf_next, i0]
  have a0 : (canopy_leaf K E m p s (leaf_first X)).2.L.anleaf 0 = A :=
    canopy_leaf_constant_model K E m p s (leaf_first X) g A hE h0
  have a1 := canopy_leaf_constant_model K E m p s
    (leaf_next (canopy_leaf K E m p s (leaf_first X)).2) g A hE h1
  rw [i1] at a1
  have o1 := canopy_leaf_other K E m p s
    (leaf_next (canopy_leaf K E m p s (leaf_first X)).2) 0 (by rw [i1]; decide)
  obtain ⟨f0, p0, q0⟩ := canopy_leaf_totals K E m p s (leaf_first X) h0
  obtain ⟨f1, p1, q1⟩ := canopy_leaf_totals K E m p s
    (leaf_next (canopy_leaf K E m p s (leaf_first X)).2) h1
  rw [i1] at q1
  rw [h2]
  refine ⟨?_, a1, ?_, ?_⟩
  · exact o1.2.1.trans a0
  · exact f1.trans f0
  · show (canopy_leaf K E m p s
      (leaf_next (canopy_leaf K E m p s (leaf_first X)).2)).2.L.total_apar = _
    rw [q1]
    show (canopy_leaf K E m p s (leaf_first X)).2.L.total_apar +
      (canopy_leaf K E m p s (leaf_first X)).2.L.apar 1 = _
    rw [q0, p0]
    rfl

/-- With the Penman-Monteith stub the new leaf temperature is the air
temperature. -/
theorem stub_new_tleaf (K : constants) (elev : ℚ) (ab : absorbed) (g A et : ℚ)
    (c : control) (f : fluxes) (m : met) (p : params) (s : state)
    (tleaf gsc anleaf apar : ℚ) :
    (solve_leaf_energy_balance K (stub_collaborators elev ab g A et) c f m p s tleaf gsc
      anleaf apar).new_tleaf = m.tair c.hrly_idx := by
  simp [solve_leaf_energy_balance, stub_collaborators]

/-- With the stub collaborators and positive assimilation every turn of the
leaf loop entered below the cap converges on its first pass. -/
theorem stub_canopy_leaf (K : constants) (elev : ℚ) (ab : absorbed) (g A et : ℚ)
    (hA : 0 < A) (m : met) (p : params) (s : state) (X : world Unit)
    (hps : X.c.ps_pathway = K.C3) (hit : X.L.iter < X.L.itermax) :
    canopy_leaf K (stub_collaborators elev ab g A et) m p s X =
      (status.ok, leaf_totals (pass_energy_balance K (stub_collaborators elev ab g A et)
        m p s (pass_photosynthesis (stub_collaborators elev ab g A et) p s
          (leaf_air_space K m X)))) := by
  have h := stability_loop_pass_converges K (stub_collaborators elev ab g A et) m p s
    (leaf_air_space K m X) hps hit (by simpa [stub_collaborators] using hA)
    (by
      rw [stub_new_tleaf]
      simp [leaf_air_space])
  unfold canopy_leaf
  rw [h]
  simp

/-- The slot of the scenario is sunlit. -/
theorem sample_slot_sunlit :
    sunlit_slot sample_collaborators sample_met sample_params sample_world := by
  simp [sunlit_slot, slot_radiation, sample_collaborators, stub_collaborators, sample_met]
  norm_num

/-- With the stub collaborators and positive assimilation a sunlit slot entered
with `iter` below the cap completes. -/
theorem stub_leaves_ok (K : constants) (elev : ℚ) (ab : absorbed) (g A et : ℚ)
    (hA : 0 < A) (m : met) (p : params) (s : state) (X : world Unit)
    (hps : X.c.ps_pathway = K.C3) (hit : X.L.iter < X.L.itermax) :
    (canopy_leaves K (stub_collaborators elev ab g A et) m p s X).1 = status.ok := by
  unfold canopy_leaves
  rw [stub_canopy_leaf K elev ab g A et hA m p s (leaf_first X) hps hit]
  simp only [if_true]
  rw [stub_canopy_leaf K elev ab g A et hA m p s
    (leaf_next (leaf_totals (pass_energy_balance K (stub_collaborators elev ab g A et)
      m p s (pass_photosynthesis (stub_collaborators elev ab g A et) p s
        (leaf_air_space K m (leaf_first X)))))) hps hit]
  simp only [if_true]

/-- The slot of the scenario completes. -/
theorem sample_slot_ok :
    (canopy_slot sample_constants sample_collaborators sample_met sample_params
      sample_state sample_world).1 = status.ok := by
  have h := stub_leaves_ok sample_constants (1 / 2) sample_absorbed (2 / 10) 15 (1 / 1000)
    (by norm_num) sample_met sample_params sample_state
    (slot_sunlit_setup sample_constants sample_collaborators sample_params sample_state
      (slot_radiation sample_collaborators sample_met sample_params sample_world))
    (by
      unfold slot_sunlit_setup slot_ncontent
      split_ifs <;> rfl)
    (by
      unfold slot_sunlit_setup slot_ncontent
      split_ifs <;> decide)
  exact (canopy_slot_sunlit_ok sample_constants sample_collaborators sample_met
    sample_params sample_state sample_world sample_slot_sunlit).mpr h

/-- After a sequence of updates the accumulators hold their start values plus
the converted sum of the assimilation values and the sum of the APAR values. -/
theorem daily_updates_sums (K : constants) (p : params) (l : List (ℚ × ℚ)) :
    ∀ f : fluxes,
      (daily_updates K p f l).gpp_gCm2 =
          f.gpp_gCm2 + 1 / 1000000 * 12 * 1800 * (l.map Prod.fst).sum ∧
        (daily_updates K p f l).apar = f.apar + (l.map Prod.snd).sum := by
  induction l with
  | nil =>
    intro f
    simp [daily_updates]
  | cons x t ih =>
    intro f
    have h := ih (update_daily_carbon_fluxes K f p x.1 x.2)
    simp only [daily_updates, List.foldl_cons, List.map_cons, List.sum_cons] at h ⊢
    rw [h.1, h.2]
    simp only [update_daily_carbon_fluxes, UMOL_TO_MOL, MOL_C_TO_GRAMS_C, SEC_2_HLFHR]
    constructor <;> ring

/-! ## Lemmas on runs of passes -/

theorem pass_assimilates_iff {W : Type} (E : collaborators W) (p : params) (s : state)
    (X : world W) :
    pass_assimilates E p s X ↔ 0 < (pass_photosynthesis E p s X).L.anleaf X.L.ileaf := by
  simp [pass_assimilates, pass_photosynthesis, assign]

theorem pass_converged_iff {W : Type} (K : constants) (E : collaborators W) (m : met)
    (p : params) (s : state) (X : world W) :
    pass_converged K E m p s X ↔
      |(pass_energy_balance K E m p s (pass_photosynthesis E p s X)).L.tleaf -
        (pass_energy_balance K E m p s (pass_photosynthesis E p s X)).L.new_tleaf| <
          2 / 100 := by
  simp [pass_converged, pass_new_tleaf, pass_energy_balance, pass_photosynthesis, assign]

/-- What a whole pass leaves alone, and what it counts. -/
theorem full_pass_frame {W : Type} (K : constants) (E : collaborators W) (m : met)
    (p : params) (s : state) (X : world W) :
    (full_pass K E m p s X).c = X.c ∧ (full_pass K E m p s X).f = X.f ∧
      (full_pass K E m p s X).L.ileaf = X.L.ileaf ∧
      (full_pass K E m p s X).L.itermax = X.L.itermax ∧
      (full_pass K E m p s X).L.iter = X.L.iter + 1 ∧
      (full_pass K E m p s X).L.ncontent = X.L.ncontent ∧
      (full_pass K E m p s X).L.apar = X.L.apar ∧
      (full_pass K E m p s X).L.tleaf = pass_new_tleaf K E m p s X ∧
      photosynthesis_calls (full_pass K E m p s X).trace =
        photosynthesis_calls X.trace + 1 ∧
      energy_balance_calls (full_pass K E m p s X).trace =
        energy_balance_calls X.trace + 1 := by
  simp [full_pass, pass_update, pass_energy_balance, pass_photosynthesis, pass_new_tleaf,
    assign, photosynthesis_calls, energy_balance_calls, List.countP_append,
    List.countP_cons, event.isPhotosynthesis, event.isEnergyBalance]

/-- What `r` whole passes leave alone, and what they count. -/
theorem full_pass_iterate_frame {W : Type} (K : constants) (E : collaborators W)
    (m : met) (p : params) (s : state) (r : Nat) :
    ∀ X : world W,
      ((full_pass K E m p s)^[r] X).c = X.c ∧ ((full_pass K E m p s)^[r] X).f = X.f ∧
        ((full_pass K E m p s)^[r] X).L.ileaf = X.L.ileaf ∧
        ((full_pass K E m p s)^[r] X).L.itermax = X.L.itermax ∧
        ((full_pass K E m p s)^[r] X).L.iter = X.L.iter + r ∧
        ((full_pass K E m p s)^[r] X).L.ncontent = X.L.ncontent ∧
        ((full_pass K E m p s)^[r] X).L.apar = X.L.apar ∧
        photosynthesis_calls ((full_pass K E m p s)^[r] X).trace =
          photosynthesis_calls X.trace + r ∧
        energy_balance_calls ((full_pass K E m p s)^[r] X).trace =
          energy_balance_calls X.trace + r := by
  induction r with
  | zero =>
    intro X
    simp
  | succ k ih =>
    intro X
    obtain ⟨h1, h2, h3, h4, h5, h6, h7, _, h8, h9⟩ := full_pass_frame K E m p s X
    obtain ⟨g1, g2, g3, g4, g5, g6, g7, g8, g9⟩ := ih (full_pass K E m p s X)
    rw [Function.iterate_succ_apply]
    refine ⟨g1.trans h1, g2.trans h2, g3.trans h3, g4.trans h4, ?_, g6.trans h6,
      g7.trans h7, ?_, ?_⟩
    · rw [g5, h5]
      omega
    · rw [g8, h8]
      omega
    · rw [g9, h9]
      omega

/-- While the passes assimilate and do not converge, and `iter` stays below
`itermax`, the loop goes on. -/
theorem stability_loop_after {W : Type} (K : constants) (E : collaborators W) (m : met)
    (p : params) (s : state) (r : Nat) :
    ∀ X : world W, X.c.ps_pathway = K.C3 → X.L.iter + r ≤ X.L.itermax →
      (∀ j, j < r → pass_assimilates E p s ((full_pass K E m p s)^[j] X) ∧
        ¬ pass_converged K E m p s ((full_pass K E m p s)^[j] X)) →
      stability_loop K E m p s X = stability_loop K E m p s ((full_pass K E m p s)^[r] X) := by
  induction r with
  | zero =>
    intro X _ _ _
    rfl
  | succ k ih =>
    intro X hps hit hj
    obtain ⟨ha, hc⟩ := hj 0 (Nat.succ_pos k)
    obtain ⟨h1, _, _, h4, h5, _⟩ := full_pass_frame K E m p s X
    have hcont := stability_loop_continue K E m p s X hps
      ((pass_assimilates_iff E p s X).mp ha)
      (by
        simp only [pass_energy_balance, pass_photosynthesis, not_le]
        omega)
      (fun h => hc ((pass_converged_iff K E m p s X).mpr h))
    rw [Function.iterate_succ_apply, hcont]
    apply ih (full_pass K E m p s X)
    · rw [h1]
      exact hps
    · rw [h4, h5]
      omega
    · intro j hjk
      have := hj (j + 1) (Nat.succ_lt_succ hjk)
      rwa [Function.iterate_succ_apply] at this

/-- After `r` passes that assimilate without converging, a pass that
assimilates with `iter` at `itermax` raises the fatal error. -/
theorem stability_loop_forced {W : Type} (K : constants) (E : collaborators W) (m : met)
    (p : params) (s : state) (r : Nat) (X : world W) (hps : X.c.ps_pathway = K.C3)
    (hit : X.L.iter + r = X.L.itermax)
    (hj : ∀ j, j < r → pass_assimilates E p s ((full_pass K E m p s)^[j] X) ∧
      ¬ pass_converged K E m p s ((full_pass K E m p s)^[j] X))
    (hr : pass_assimilates E p s ((full_pass K E m p s)^[r] X)) :
    stability_loop K E m p s X =
      (status.no_convergence,
        pass_energy_balance K E m p s
          (pass_photosynthesis E p s ((full_pass K E m p s)^[r] X))) := by
  obtain ⟨g1, _, _, g4, g5, _⟩ := full_pass_iterate_frame K E m p s r X
  rw [stability_loop_after K E m p s r X hps (le_of_eq hit) hj]
  apply stability_loop_cap K E m p s _ (by rw [g1]; exact hps)
    ((pass_assimilates_iff E p s _).mp hr)
  simp only [pass_energy_balance, pass_photosynthesis]
  rw [g4, g5]
  omega

/-- After `r` passes that assimilate without converging, a pass below the cap
that assimilates and converges ends the loop. -/
theorem stability_loop_converges_after {W : Type} (K : constants) (E : collaborators W)
    (m : met) (p : params) (s : state) (r : Nat) (X : world W)
    (hps : X.c.ps_pathway = K.C3) (hit : X.L.iter + r < X.L.itermax)
    (hj : ∀ j, j < r → pass_assimilates E p s ((full_pass K E m p s)^[j] X) ∧
      ¬ pass_converged K E m p s ((full_pass K E m p s)^[j] X))
    (hr : pass_assimilates E p s ((full_pass K E m p s)^[r] X))
    (hc : pass_converged K E m p s ((full_pass K E m p s)^[r] X)) :
    stability_loop K E m p s X =
      (status.ok,
        pass_energy_balance K E m p s
          (pass_photosynthesis E p s ((full_pass K E m p s)^[r] X))) := by
  obtain ⟨g1, _, _, g4, g5, _⟩ := full_pass_iterate_frame K E m p s r X
  rw [stability_loop_after K E m p s r X hps (le_of_lt hit) hj]
  apply stability_loop_converged K E m p s _ (by rw [g1]; exact hps)
    ((pass_assimilates_iff E p s _).mp hr) _ ((pass_converged_iff K E m p s _).mp hc)
  simp only [pass_energy_balance, pass_photosynthesis]
  rw [g4, g5]
  omega

/-- The calls recorded by the last, unfinished pass. -/
theorem last_pass_calls {W : Type} (K : constants) (E : collaborators W) (m : met)
    (p : params) (s : state) (X : world W) :
    photosynthesis_calls
        (pass_energy_balance K E m p s (pass_photosynthesis E p s X)).trace =
        photosynthesis_calls X.trace + 1 ∧
      energy_balance_calls
        (pass_energy_balance K E m p s (pass_photosynthesis E p s X)).trace =
        energy_balance_calls X.trace + 1 ∧
      (pass_energy_balance K E m p s (pass_photosynthesis E p s X)).L.iter = X.L.iter ∧
      (pass_energy_balance K E m p s (pass_photosynthesis E p s X)).L.itermax =
        X.L.itermax := by
  simp [pass_energy_balance, pass_photosynthesis, photosynthesis_calls,
    energy_balance_calls, List.countP_append, List.countP_cons, event.isPhotosynthesis,
    event.isEnergyBalance]

/-! ## Lemmas on the loop over the half-hour slots -/

theorem sunlit_slot_iff_at {W : Type} (E : collaborators W) (m : met) (p : params)
    (X : world W) : sunlit_slot E m p X ↔ sunlit_at E m p X.c.hrly_idx X.L.hod :=
  Iff.rfl

/-- Running `a + b` slots is running `a` slots and, if they complete, `b` more. -/
theorem canopy_hod_loop_add {W : Type} (K : constants) (E : collaborators W) (m : met)
    (p : params) (s : state) (a b : Nat) :
    ∀ X : world W,
      canopy_hod_loop K E m p s (a + b) X =
        if (canopy_hod_loop K E m p s a X).1 = status.ok then
          canopy_hod_loop K E m p s b (canopy_hod_loop K E m p s a X).2
        else
          canopy_hod_loop K E m p s a X := by
  induction a with
  | zero =>
    intro X
    simp [canopy_hod_loop]
  | succ k ih =>
    intro X
    rw [Nat.succ_add]
    simp only [canopy_hod_loop]
    by_cases h : (canopy_slot K E m p s X).1 = status.ok
    · rw [if_pos h, if_pos h]
      exact ih _
    · rw [if_neg h, if_neg h, if_neg h]

/-- What a dark slot followed by the advance of the cursor leaves alone. -/
theorem dark_slot_frame {W : Type} (K : constants) (E : collaborators W) (m : met)
    (p : params) (s : state) (X : world W) :
    (next_slot (slot_dark K E m p s (slot_radiation E m p X))).c.ps_pathway =
        X.c.ps_pathway ∧
      (next_slot (slot_dark K E m p s (slot_radiation E m p X))).c.hrly_idx =
        X.c.hrly_idx + 1 ∧
      (next_slot (slot_dark K E m p s (slot_radiation E m p X))).L.hod = X.L.hod + 1 ∧
      (next_slot (slot_dark K E m p s (slot_radiation E m p X))).L.iter = X.L.iter ∧
      (next_slot (slot_dark K E m p s (slot_radiation E m p X))).L.itermax =
        X.L.itermax ∧
      (next_slot (slot_dark K E m p s (slot_radiation E m p X))).L.anleaf = X.L.anleaf ∧
      (next_slot (slot_dark K E m p s (slot_radiation E m p X))).L.gsc = X.L.gsc ∧
      (next_slot (slot_dark K E m p s (slot_radiation E m p X))).L.leaf_trans =
        X.L.leaf_trans ∧
      photosynthesis_calls
        (next_slot (slot_dark K E m p s (slot_radiation E m p X))).trace =
        photosynthesis_calls X.trace ∧
      energy_balance_calls
        (next_slot (slot_dark K E m p s (slot_radiation E m p X))).trace =
        energy_balance_calls X.trace := by
  simp [next_slot, slot_dark, slot_radiation, photosynthesis_calls, energy_balance_calls,
    List.countP_append, List.countP_cons, event.isPhotosynthesis, event.isEnergyBalance]

/-- A run of dark slots completes, moves the cursor, and leaves the leaf state,
the iteration count and the two call counts alone. -/
theorem canopy_hod_loop_dark {W : Type} (K : constants) (E : collaborators W) (m : met)
    (p : params) (s : state) (k : Nat) :
    ∀ X : world W,
      (∀ j : Nat, j < k → ¬ sunlit_at E m p (X.c.hrly_idx + j) (X.L.hod + j)) →
      (canopy_hod_loop K E m p s k X).1 = status.ok ∧
        (canopy_hod_loop K E m p s k X).2.c.ps_pathway = X.c.ps_pathway ∧
        (canopy_hod_loop K E m p s k X).2.c.hrly_idx = X.c.hrly_idx + k ∧
        (canopy_hod_loop K E m p s k X).2.L.hod = X.L.hod + k ∧
        (canopy_hod_loop K E m p s k X).2.L.iter = X.L.iter ∧
        (canopy_hod_loop K E m p s k X).2.L.itermax = X.L.itermax ∧
        (canopy_hod_loop K E m p s k X).2.L.anleaf = X.L.anleaf ∧
        (canopy_hod_loop K E m p s k X).2.L.gsc = X.L.gsc ∧
        (canopy_hod_loop K E m p s k X).2.L.leaf_trans = X.L.leaf_trans ∧
        photosynthesis_calls (canopy_hod_loop K E m p s k X).2.trace =
          photosynthesis_calls X.trace ∧
        energy_balance_calls (canopy_hod_loop K E m p s k X).2.trace =
          energy_balance_calls X.trace := by
  induction k with
  | zero =>
    intro X _
    simp [canopy_hod_loop]
  | succ n ih =>
    intro X hd
    have h0 : ¬ sunlit_slot E m p X := by
      have := hd 0 (Nat.succ_pos n)
      simpa [sunlit_slot_iff_at] using this
    have hs := canopy_slot_of_dark K E m p s X h0
    obtain ⟨d1, d2, d3, d4, d5, d6, d7, d8, d9, d10⟩ := dark_slot_frame K E m p s X
    simp only [canopy_hod_loop]
    rw [hs]
    simp only [if_true]
    obtain ⟨i1, i2, i3, i4, i5, i6, i7, i8, i9, i10, i11⟩ :=
      ih (next_slot (slot_dark K E m p s (slot_radiation E m p X))) (by
        intro j hj
        rw [d2, d3]
        have := hd (j + 1) (Nat.succ_lt_succ hj)
        have e1 : X.c.hrly_idx + 1 + (j : Int) = X.c.hrly_idx + ((j + 1 : Nat) : Int) := by
          push_cast
          ring
        have e2 : X.L.hod + 1 + (j : Int) = X.L.hod + ((j + 1 : Nat) : Int) := by
          push_cast
          ring
        rw [e1, e2]
        exact this)
    refine ⟨i1, i2.trans d1, ?_, ?_, i5.trans d4, i6.trans d5, i7.trans d6, i8.trans d7,
      i9.trans d8, i10.trans d9, i11.trans d10⟩
    · rw [i3, d2]
      push_cast
      ring
    · rw [i4, d3]
      push_cast
      ring

/-- A slot that ends in a fatal error ends the loop over the slots. -/
theorem canopy_hod_loop_fatal {W : Type} (K : constants) (E : collaborators W) (m : met)
    (p : params) (s : state) (n : Nat) (X : world W)
    (h : (canopy_slot K E m p s X).1 ≠ status.ok) :
    canopy_hod_loop K E m p s (n + 1) X = canopy_slot K E m p s X := by
  simp only [canopy_hod_loop]
  rw [if_neg h]

/-- A sunlit slot whose first stability loop ends in a fatal error ends in that
error, in the world in which that loop ended. -/
theorem canopy_slot_first_loop_fatal {W : Type} (K : constants) (E : collaborators W)
    (m : met) (p : params) (s : state) (X : world W) (hsun : sunlit_slot E m p X)
    (h : (stability_loop K E m p s (first_loop_entry K E m p s X)).1 ≠ status.ok) :
    canopy_slot K E m p s X = stability_loop K E m p s (first_loop_entry K E m p s X) := by
  unfold first_loop_entry at h ⊢
  have h1 : canopy_leaf K E m p s
      (leaf_first (slot_sunlit_setup K E p s (slot_radiation E m p X))) =
      stability_loop K E m p s (leaf_air_space K m (leaf_first
        (slot_sunlit_setup K E p s (slot_radiation E m p X)))) := by
    unfold canopy_leaf
    rw [if_neg h]
  have h2 : canopy_leaves K E m p s (slot_sunlit_setup K E p s (slot_radiation E m p X)) =
      stability_loop K E m p s (leaf_air_space K m (leaf_first
        (slot_sunlit_setup K E p s (slot_radiation E m p X)))) := by
    unfold canopy_leaves
    rw [h1, if_neg h]
  rw [canopy_slot_of_sunlit K E m p s X hsun, h2, if_neg h]

/-- What lines 53-97 leave alone on the way to the first stability loop. -/
theorem first_loop_entry_frame {W : Type} (K : constants) (E : collaborators W) (m : met)
    (p : params) (s : state) (X : world W) :
    (first_loop_entry K E m p s X).c = X.c ∧
      (first_loop_entry K E m p s X).f = X.f ∧
      (first_loop_entry K E m p s X).trace = X.trace ∧
      (first_loop_entry K E m p s X).L.iter = X.L.iter ∧
      (first_loop_entry K E m p s X).L.itermax = X.L.itermax ∧
      (first_loop_entry K E m p s X).L.anleaf = X.L.anleaf ∧
      (first_loop_entry K E m p s X).L.gsc = X.L.gsc ∧
      (first_loop_entry K E m p s X).L.leaf_trans = X.L.leaf_trans ∧
      (first_loop_entry K E m p s X).L.ileaf = 0 ∧
      (first_loop_entry K E m p s X).L.tleaf = m.tair X.c.hrly_idx := by
  unfold first_loop_entry slot_sunlit_setup slot_ncontent
  split_ifs <;>
    simp [leaf_air_space, leaf_first, slot_absorbed_radiation, slot_radiation]

/-- A run that starts with `k` dark slots and has a `k + 1`-th slot does what
that slot does in the world the dark slots leave, if that slot is fatal. -/
theorem canopy_hod_loop_first_fatal {W : Type} (K : constants) (E : collaborators W)
    (m : met) (p : params) (s : state) (n k : Nat) (hk : k < n) (X : world W)
    (hd : ∀ j : Nat, j < k → ¬ sunlit_at E m p (X.c.hrly_idx + j) (X.L.hod + j))
    (hf : (canopy_slot K E m p s (canopy_hod_loop K E m p s k X).2).1 ≠ status.ok) :
    canopy_hod_loop K E m p s n X =
      canopy_slot K E m p s (canopy_hod_loop K E m p s k X).2 := by
  obtain ⟨b, rfl⟩ : ∃ b, n = k + (b + 1) := ⟨n - k - 1, by omega⟩
  rw [canopy_hod_loop_add, if_pos (canopy_hod_loop_dark K E m p s k X hd).1]
  exact canopy_hod_loop_fatal K E m p s b _ hf

/-! ## Lemmas on the conductances -/

theorem rat_sqrt_pos {q : ℚ} (h : 0 < q) : 0 < Rat.sqrt q := by
  unfold Rat.sqrt
  rw [Rat.mkRat_eq_div]
  apply div_pos
  · have h1 : 0 < q.num := Rat.num_pos.mpr h
    have h2 : 0 < Int.sqrt q.num := by
      unfold Int.sqrt
      exact_mod_cast Nat.sqrt_pos.mpr (by omega)
    exact_mod_cast h2
  · exact_mod_cast Nat.sqrt_pos.mpr q.den_pos

theorem sample_constants_positive : positive_constants sample_constants := by
  norm_num [positive_constants, sample_constants]

theorem calc_radiation_conductance_pos (K : constants) (hK : positive_constants K)
    (tair : ℚ) (hT : 0 < tair + DEG_TO_KELVIN) : 0 < calc_radiation_conductance K tair := by
  obtain ⟨_, h2, h3, h4, h5, _⟩ := hK
  unfold calc_radiation_conductance
  positivity

theorem calc_bdn_layer_forced_conduct_nonneg {W : Type} (K : constants)
    (E : collaborators W) (hK : positive_constants K) (tair press wind leaf_width : ℚ)
    (hs : 0 ≤ E.sqrt (wind / leaf_width)) (hp : 0 ≤ press)
    (hT : 0 < tair + DEG_TO_KELVIN) :
    0 ≤ calc_bdn_layer_forced_conduct K E tair press wind leaf_width := by
  obtain ⟨_, _, _, _, _, h6, _⟩ := hK
  unfold calc_bdn_layer_forced_conduct
  positivity

theorem calc_bdn_layer_free_conduct_nonneg {W : Type} (K : constants)
    (E : collaborators W) (hK : positive_constants K) (tair tleaf press leaf_width : ℚ)
    (hpow : ∀ x : ℚ, 0 ≤ E.pow x (1 / 4)) (hp : 0 ≤ press) (hw : 0 < leaf_width)
    (hT : 0 < tair + DEG_TO_KELVIN) :
    0 ≤ calc_bdn_layer_free_conduct K E tair tleaf press leaf_width := by
  obtain ⟨_, _, _, _, _, h6, h7, _⟩ := hK
  unfold calc_bdn_layer_free_conduct
  split_ifs
  · exact le_refl _
  · have := hpow (160000000 * |tleaf - tair| * (leaf_width * leaf_width * leaf_width))
    positivity

theorem calc_bdn_layer_free_conduct_pos {W : Type} (K : constants)
    (E : collaborators W) (hK : positive_constants K) (tair tleaf press leaf_width : ℚ)
    (hpow : ∀ x : ℚ, 0 < x → 0 < E.pow x (1 / 4)) (hp : 0 < press) (hw : 0 < leaf_width)
    (hT : 0 < tair + DEG_TO_KELVIN) (hfe : E.float_eq (tleaf - tair) 0 = false)
    (hne : tleaf ≠ tair) :
    0 < calc_bdn_layer_free_conduct K E tair tleaf press leaf_width := by
  obtain ⟨_, _, _, _, _, h6, h7, _⟩ := hK
  unfold calc_bdn_layer_free_conduct
  rw [if_neg (by simp [hfe])]
  have hd : 0 < |tleaf - tair| := abs_pos.mpr (sub_ne_zero.mpr hne)
  have := hpow (160000000 * |tleaf - tair| * (leaf_width * leaf_width * leaf_width))
    (by positivity)
  positivity

/-- The two-sided heat conductance is positive for a maths library with
non-negative roots. -/
theorem leaf_conductances_gh_pos {W : Type} (K : constants) (E : collaborators W)
    (hK : positive_constants K) (c : control) (m : met) (p : params) (tleaf gsc : ℚ)
    (hsqrt : ∀ x : ℚ, 0 ≤ E.sqrt x) (hpow : ∀ x : ℚ, 0 ≤ E.pow x (1 / 4))
    (hp : 0 ≤ m.press c.hrly_idx) (hw : 0 < p.leaf_width)
    (hT : 0 < m.tair c.hrly_idx + DEG_TO_KELVIN) :
    0 < (leaf_conductances K E c m p tleaf gsc).gh := by
  have h1 := calc_radiation_conductance_pos K hK (m.tair c.hrly_idx) hT
  have hp2 : 0 ≤ m.press c.hrly_idx * K.KPA_2_PA := mul_nonneg hp (le_of_lt hK.1)
  have h2 := calc_bdn_layer_forced_conduct_nonneg K E hK (m.tair c.hrly_idx)
    (m.press c.hrly_idx * K.KPA_2_PA) (m.wind c.hrly_idx) p.leaf_width (hsqrt _) hp2 hT
  have h3 := calc_bdn_layer_free_conduct_nonneg K E hK (m.tair c.hrly_idx) tleaf
    (m.press c.hrly_idx * K.KPA_2_PA) p.leaf_width hpow hp2 hw hT
  simp only [leaf_conductances]
  linarith

/-! ## Lemmas on the warming stub -/

/-- When the latent heat returned by the Penman-Monteith collaborator leaves
`4 * CP * MASS_AIR * gh * d` of the net radiation, the new leaf temperature is
the air temperature plus `d`. -/
theorem solve_leaf_energy_balance_new_tleaf {W : Type} (K : constants)
    (E : collaborators W) (c : control) (f : fluxes) (m : met) (p : params) (s : state)
    (tleaf gsc anleaf apar d : ℚ)
    (hLE : (E.penman_leaf (m.press c.hrly_idx * K.KPA_2_PA) (leaf_rnet K E c m p s apar)
        (m.vpd c.hrly_idx * K.KPA_2_PA) (m.tair c.hrly_idx)
        (leaf_conductances K E c m p tleaf gsc).gh (leaf_conductances K E c m p tleaf gsc).gv
        (leaf_conductances K E c m p tleaf gsc).gbv
        (leaf_conductances K E c m p tleaf gsc).gsv).2 =
      leaf_rnet K E c m p s apar -
        4 * (K.CP * K.MASS_AIR * (leaf_conductances K E c m p tleaf gsc).gh) * d)
    (hne : K.CP * K.MASS_AIR * (leaf_conductances K E c m p tleaf gsc).gh ≠ 0) :
    (solve_leaf_energy_balance K E c f m p s tleaf gsc anleaf apar).new_tleaf =
      m.tair c.hrly_idx + d := by
  simp only [solve_leaf_energy_balance]
  rw [hLE]
  field_simp
  ring

/-- Under the warming stub the new leaf temperature of a pass is the air
temperature plus `min (tleaf - 24) N`. -/
theorem warming_new_tleaf (N : ℚ) (s : state) (X : world Unit) :
    pass_new_tleaf sample_constants (warming_collaborators N) sample_met sample_params s X =
      25 + min (X.L.tleaf - 24) N := by
  have hG := leaf_conductances_gh_pos sample_constants (warming_collaborators N)
    sample_constants_positive X.c sample_met sample_params X.L.tleaf (X.L.tleaf - 24)
    (fun x => Rat.sqrt_nonneg x)
    (fun x => by
      show 0 ≤ sample_pow x (1 / 4)
      unfold sample_pow
      rw [if_neg (by norm_num), if_pos rfl]
      exact Rat.sqrt_nonneg _)
    (by norm_num [sample_met]) (by norm_num [sample_params])
    (by norm_num [sample_met, DEG_TO_KELVIN])
  have hK : (0 : ℚ) < sample_constants.CP * sample_constants.MASS_AIR := by
    norm_num [sample_constants]
  have hgsv : (leaf_conductances sample_constants (warming_collaborators N) X.c sample_met
      sample_params X.L.tleaf (X.L.tleaf - 24)).gsv / (157 / 100) = X.L.tleaf - 24 := by
    show 157 / 100 * (X.L.tleaf - 24) / (157 / 100) = X.L.tleaf - 24
    field_simp
  have h := solve_leaf_energy_balance_new_tleaf sample_constants (warming_collaborators N)
    X.c X.f sample_met sample_params s X.L.tleaf (X.L.tleaf - 24) 15 (X.L.apar X.L.ileaf)
    (min ((leaf_conductances sample_constants (warming_collaborators N) X.c sample_met
      sample_params X.L.tleaf (X.L.tleaf - 24)).gsv / (157 / 100)) N) rfl
    (ne_of_gt (mul_pos hK hG))
  rw [hgsv] at h
  exact h

/-- Under the warming stub a leaf that enters its loop at air temperature is
`j` degrees warmer after `j` passes, up to `N`. -/
theorem warming_tleaf (N : Nat) (s : state) (X : world Unit) (h0 : X.L.tleaf = 25) :
    ∀ j : Nat, j ≤ N →
      (nth_pass sample_constants (warming_collaborators N) sample_met sample_params s X
        j).L.tleaf = 25 + j := by
  intro j
  induction j with
  | zero =>
    intro _
    simp [nth_pass, h0]
  | succ k ih =>
    intro hk
    have h1 := ih (Nat.le_of_succ_le hk)
    unfold nth_pass at h1 ⊢
    rw [Function.iterate_succ_apply', (full_pass_frame _ _ _ _ _ _).2.2.2.2.2.2.2.1,
      warming_new_tleaf, h1]
    have h2 : ((k : ℚ) + 1) ≤ N := by exact_mod_cast hk
    rw [show (25 + (k : ℚ) - 24) = (k : ℚ) + 1 by ring, min_eq_left h2]
    push_cast
    ring

/-- Under the warming stub every pass assimilates. -/
theorem warming_assimilates (N : ℚ) (s : state) (X : world Unit) :
    pass_assimilates (warming_collaborators N) sample_params s X := by
  simp [pass_assimilates, warming_collaborators]

/-- Under the warming stub the passes before the `N + 1`-th do not converge. -/
theorem warming_not_converged (N : Nat) (s : state) (X : world Unit)
    (h0 : X.L.tleaf = 25) (j : Nat) (hj : j < N) :
    ¬ pass_converged sample_constants (warming_collaborators N) sample_met sample_params s
      (nth_pass sample_constants (warming_collaborators N) sample_met sample_params s X j) := by
  have h1 := warming_tleaf N s X h0 j (le_of_lt hj)
  have h2 : ((j : ℚ) + 1) ≤ N := by exact_mod_cast hj
  unfold pass_converged
  rw [warming_new_tleaf, h1, show (25 + (j : ℚ) - 24) = (j : ℚ) + 1 by ring, min_eq_left h2,
    show (25 + (j : ℚ) - (25 + ((j : ℚ) + 1))) = -1 by ring]
  norm_num

/-- Under the warming stub the `N + 1`-th pass converges. -/
theorem warming_converged (N : Nat) (s : state) (X : world Unit) (h0 : X.L.tleaf = 25) :
    pass_converged sample_constants (warming_collaborators N) sample_met sample_params s
      (nth_pass sample_constants (warming_collaborators N) sample_met sample_params s X N) := by
  have h1 := warming_tleaf N s X h0 N (le_refl N)
  unfold pass_converged
  rw [warming_new_tleaf, h1, show (25 + (N : ℚ) - 24) = (N : ℚ) + 1 by ring,
    min_eq_right (by linarith), sub_self]
  norm_num

/-! ## Lemmas on whole runs -/

/-- The world in which a slot starts after `k` dark slots of a fresh call. -/
theorem slot_start_dark {W : Type} (K : constants) (E : collaborators W) (c : control)
    (f : fluxes) (m : met) (p : params) (s : state) (water : W) (u : locals) (k : Nat)
    (hd : ∀ j : Nat, j < k → ¬ sunlit_at E m p (c.hrly_idx + j) j) :
    (∀ j : Nat, j < k →
        ¬ sunlit_at E m p ((canopy_entry E c f water u).c.hrly_idx + j)
          ((canopy_entry E c f water u).L.hod + j)) ∧
      (slot_start K E c f m p s water u k).c.ps_pathway = c.ps_pathway ∧
      (slot_start K E c f m p s water u k).c.hrly_idx = c.hrly_idx + k ∧
      (slot_start K E c f m p s water u k).L.hod = k ∧
      (slot_start K E c f m p s water u k).L.iter = 0 ∧
      (slot_start K E c f m p s water u k).L.itermax = 100 ∧
      photosynthesis_calls (slot_start K E c f m p s water u k).trace = 0 ∧
      energy_balance_calls (slot_start K E c f m p s water u k).trace = 0 := by
  have hz : ∀ j : Nat, (canopy_entry E c f water u).L.hod + (j : Int) = (j : Int) := by
    intro j
    simp [canopy_entry]
  have hd2 : ∀ j : Nat, j < k →
      ¬ sunlit_at E m p ((canopy_entry E c f water u).c.hrly_idx + j)
        ((canopy_entry E c f water u).L.hod + j) := by
    intro j hj
    rw [hz j]
    exact hd j hj
  obtain ⟨_, i2, i3, i4, i5, i6, _, _, _, i10, i11⟩ :=
    canopy_hod_loop_dark K E m p s k (canopy_entry E c f water u) hd2
  refine ⟨hd2, i2, i3, ?_, i5, i6, i10, i11⟩
  rw [← hz k]
  exact i4

/-- A fresh call whose first sunlit slot is slot `k`, and in which the first
100 passes of the sunlit leaf's loop assimilate without converging and the
101st assimilates, ends in the fatal error on that 101st pass. -/
theorem canopy_first_loop_forced {W : Type} (K : constants) (E : collaborators W)
    (c : control) (f : fluxes) (m : met) (p : params) (s : state) (water : W)
    (u : locals) (k : Nat) (hps : c.ps_pathway = K.C3) (hk : k < c.num_hlf_hrs.toNat)
    (hd : ∀ j : Nat, j < k → ¬ sunlit_at E m p (c.hrly_idx + j) j)
    (hs : sunlit_at E m p (c.hrly_idx + k) k)
    (hj : ∀ j : Nat, j < 100 →
      pass_assimilates E p s (nth_pass K E m p s
        (first_loop_entry K E m p s (slot_start K E c f m p s water u k)) j) ∧
      ¬ pass_converged K E m p s (nth_pass K E m p s
        (first_loop_entry K E m p s (slot_start K E c f m p s water u k)) j))
    (hr : pass_assimilates E p s (nth_pass K E m p s
      (first_loop_entry K E m p s (slot_start K E c f m p s water u k)) 100)) :
    (canopy K E c f m p s water u).1 = status.no_convergence ∧
      photosynthesis_calls (canopy K E c f m p s water u).2.trace = 101 ∧
      energy_balance_calls (canopy K E c f m p s water u).2.trace = 101 ∧
      (canopy K E c f m p s water u).2.L.iter = 100 ∧
      (canopy K E c f m p s water u).2.L.itermax = 100 := by
  obtain ⟨hd2, i2, i3, i4, i5, i6, i10, i11⟩ := slot_start_dark K E c f m p s water u k hd
  obtain ⟨e1, _, e3, e4, e5, _⟩ := first_loop_entry_frame K E m p s
    (slot_start K E c f m p s water u k)
  have hsun : sunlit_slot E m p (slot_start K E c f m p s water u k) := by
    rw [sunlit_slot_iff_at, i3, i4]
    exact hs
  have hl := stability_loop_forced K E m p s 100
    (first_loop_entry K E m p s (slot_start K E c f m p s water u k))
    (by rw [e1, i2]; exact hps) (by rw [e4, e5, i5, i6]) hj hr
  have hne : (stability_loop K E m p s
      (first_loop_entry K E m p s (slot_start K E c f m p s water u k))).1 ≠ status.ok := by
    rw [hl]
    exact fun h => status.noConfusion h
  have hslot := canopy_slot_first_loop_fatal K E m p s _ hsun hne
  have hrun : canopy K E c f m p s water u =
      stability_loop K E m p s
        (first_loop_entry K E m p s (slot_start K E c f m p s water u k)) := by
    unfold canopy
    rw [canopy_hod_loop_first_fatal K E m p s _ k hk _ hd2 (by
      show (canopy_slot K E m p s (slot_start K E c f m p s water u k)).1 ≠ status.ok
      rw [hslot]
      exact hne)]
    exact hslot
  obtain ⟨_, _, _, g4, g5, _, _, g8, g9⟩ := full_pass_iterate_frame K E m p s 100
    (first_loop_entry K E m p s (slot_start K E c f m p s water u k))
  obtain ⟨l1, l2, l3, l4⟩ := last_pass_calls K E m p s ((full_pass K E m p s)^[100]
    (first_loop_entry K E m p s (slot_start K E c f m p s water u k)))
  rw [hrun, hl]
  dsimp only
  refine ⟨rfl, ?_, ?_, ?_, ?_⟩
  · rw [l1, g8, e3, i10]
  · rw [l2, g9, e3, i11]
  · rw [l3, g5, e4, i5]
  · rw [l4, g4, e5, i6]

/-- The scenario's slot is sunlit under the warming stub. -/
theorem warming_sunlit (N : ℚ) (idx hod : Int) :
    sunlit_at (warming_collaborators N) sample_met sample_params idx hod := by
  simp [sunlit_at, warming_collaborators, sample_collaborators, stub_collaborators,
    sample_met]
  norm_num

/-- Under the warming stub every stability loop is entered at 25 degrees. -/
theorem warming_entry_tleaf (N : ℚ) (s : state) (X : world Unit) :
    (first_loop_entry sample_constants (warming_collaborators N) sample_met sample_params s
      X).L.tleaf = 25 ∧
    (second_loop_entry sample_constants (warming_collaborators N) sample_met sample_params s
      X).L.tleaf = 25 :=
  ⟨(first_loop_entry_frame _ _ _ _ _ _).2.2.2.2.2.2.2.2.2, rfl⟩

/-- A sunlit slot whose first stability loop ends normally and whose second
ends in a fatal error ends in that error, in the world in which the second
loop ended. -/
theorem canopy_slot_second_loop_fatal {W : Type} (K : constants) (E : collaborators W)
    (m : met) (p : params) (s : state) (X : world W) (hsun : sunlit_slot E m p X)
    (h1 : (stability_loop K E m p s (first_loop_entry K E m p s X)).1 = status.ok)
    (h2 : (stability_loop K E m p s (second_loop_entry K E m p s X)).1 ≠ status.ok) :
    canopy_slot K E m p s X = stability_loop K E m p s (second_loop_entry K E m p s X) := by
  unfold second_loop_entry first_loop_entry at *
  have e1 : canopy_leaf K E m p s
      (leaf_first (slot_sunlit_setup K E p s (slot_radiation E m p X))) =
      (status.ok, leaf_totals (stability_loop K E m p s (leaf_air_space K m (leaf_first
        (slot_sunlit_setup K E p s (slot_radiation E m p X))))).2) := by
    unfold canopy_leaf
    rw [if_pos h1]
  have e2 : canopy_leaf K E m p s (leaf_next (leaf_totals (stability_loop K E m p s
      (leaf_air_space K m (leaf_first
        (slot_sunlit_setup K E p s (slot_radiation E m p X))))).2)) =
      stability_loop K E m p s (leaf_air_space K m (leaf_next (leaf_totals
        (stability_loop K E m p s (leaf_air_space K m (leaf_first
          (slot_sunlit_setup K E p s (slot_radiation E m p X))))).2))) := by
    unfold canopy_leaf
    rw [if_neg h2]
  have e3 : canopy_leaves K E m p s (slot_sunlit_setup K E p s (slot_radiation E m p X)) =
      stability_loop K E m p s (leaf_air_space K m (leaf_next (leaf_totals
        (stability_loop K E m p s (leaf_air_space K m (leaf_first
          (slot_sunlit_setup K E p s (slot_radiation E m p X))))).2))) := by
    unfold canopy_leaves
    rw [e1]
    simp only [if_true]
    rw [e2, if_neg h2]
  rw [canopy_slot_of_sunlit K E m p s X hsun, e3, if_neg h2]

/-- What the way from the end of the first stability loop to the second leaves
alone. -/
theorem second_loop_entry_frame {W : Type} (K : constants) (E : collaborators W)
    (m : met) (p : params) (s : state) (X : world W) :
    (second_loop_entry K E m p s X).c =
        (stability_loop K E m p s (first_loop_entry K E m p s X)).2.c ∧
      (second_loop_entry K E m p s X).trace =
        (stability_loop K E m p s (first_loop_entry K E m p s X)).2.trace ∧
      (second_loop_entry K E m p s X).L.iter =
        (stability_loop K E m p s (first_loop_entry K E m p s X)).2.L.iter ∧
      (second_loop_entry K E m p s X).L.itermax =
        (stability_loop K E m p s (first_loop_entry K E m p s X)).2.L.itermax :=
  ⟨rfl, rfl, rfl, rfl⟩

/-- What the last, unfinished pass leaves of the world it starts in. -/
theorem last_pass_state {W : Type} (K : constants) (E : collaborators W) (m : met)
    (p : params) (s : state) (X : world W) :
    (pass_energy_balance K E m p s (pass_photosynthesis E p s X)).c = X.c ∧
      (pass_energy_balance K E m p s (pass_photosynthesis E p s X)).L.ileaf = X.L.ileaf ∧
      (pass_energy_balance K E m p s (pass_photosynthesis E p s X)).L.tleaf = X.L.tleaf ∧
      (pass_energy_balance K E m p s (pass_photosynthesis E p s X)).L.new_tleaf =
        pass_new_tleaf K E m p s X ∧
      (pass_energy_balance K E m p s (pass_photosynthesis E p s X)).L.anleaf X.L.ileaf =
        (E.photosynthesis_C3 X.c p s (X.L.ncontent X.L.ileaf) X.L.tleaf
          (X.L.apar X.L.ileaf) X.L.Cs X.L.dleaf).2 := by
  simp [pass_energy_balance, pass_photosynthesis, pass_new_tleaf, assign]

/-- The fresh call of the scenario under the warming stub with `N = 50`, up to
the first stability loop: the loop of the sunlit leaf ends normally on its
51st pass with `iter = 50`. -/
theorem warming_50_first_loop :
    stability_loop sample_constants (warming_collaborators 50) sample_met sample_params
        sample_state
        (first_loop_entry sample_constants (warming_collaborators 50) sample_met
          sample_params sample_state
          (slot_start sample_constants (warming_collaborators 50) sample_control
            sample_fluxes sample_met sample_params sample_state () sample_locals 0)) =
      (status.ok,
        pass_energy_balance sample_constants (warming_collaborators 50) sample_met
          sample_params sample_state
          (pass_photosynthesis (warming_collaborators 50) sample_params sample_state
            (nth_pass sample_constants (warming_collaborators 50) sample_met sample_params
              sample_state
              (first_loop_entry sample_constants (warming_collaborators 50) sample_met
                sample_params sample_state
                (slot_start sample_constants (warming_collaborators 50) sample_control
                  sample_fluxes sample_met sample_params sample_state () sample_locals 0))
              50))) := by
  obtain ⟨e1, _, _, e4, e5, _⟩ := first_loop_entry_frame sample_constants
    (warming_collaborators 50) sample_met sample_params sample_state
    (slot_start sample_constants (warming_collaborators 50) sample_control sample_fluxes
      sample_met sample_params sample_state () sample_locals 0)
  exact stability_loop_converges_after sample_constants (warming_collaborators 50)
    sample_met sample_params sample_state 50 _ (by rw [e1]; rfl)
    (by
      rw [e4, e5]
      show 0 + 50 < 100
      decide)
    (fun j hj => ⟨warming_assimilates _ _ _,
      warming_not_converged 50 sample_state _ (warming_entry_tleaf _ _ _).1 j hj⟩)
    (warming_assimilates _ _ _)
    (warming_converged 50 sample_state _ (warming_entry_tleaf _ _ _).1)

/-- The second stability loop of the scenario under the warming stub with
`N = 50` is entered at 25 degrees with `iter = 50` on the C3 pathway. -/
theorem warming_50_second_entry :
    (second_loop_entry sample_constants (warming_collaborators 50) sample_met
        sample_params sample_state
        (slot_start sample_constants (warming_collaborators 50) sample_control
          sample_fluxes sample_met sample_params sample_state () sample_locals
          0)).c.ps_pathway = sample_constants.C3 ∧
      (second_loop_entry sample_constants (warming_collaborators 50) sample_met
        sample_params sample_state
        (slot_start sample_constants (warming_collaborators 50) sample_control
          sample_fluxes sample_met sample_params sample_state () sample_locals
          0)).L.iter = 50 ∧
      (second_loop_entry sample_constants (warming_collaborators 50) sample_met
        sample_params sample_state
        (slot_start sample_constants (warming_collaborators 50) sample_control
          sample_fluxes sample_met sample_params sample_state () sample_locals
          0)).L.itermax = 100 ∧
      photosynthesis_calls (second_loop_entry sample_constants (warming_collaborators 50)
        sample_met sample_params sample_state
        (slot_start sample_constants (warming_collaborators 50) sample_control
          sample_fluxes sample_met sample_params sample_state () sample_locals
          0)).trace = 51 := by
  obtain ⟨s1, s2, s3, s4⟩ := second_loop_entry_frame sample_constants
    (warming_collaborators 50) sample_met sample_params sample_state
    (slot_start sample_constants (warming_collaborators 50) sample_control sample_fluxes
      sample_met sample_params sample_state () sample_locals 0)
  obtain ⟨e1, _, e3, e4, e5, _⟩ := first_loop_entry_frame sample_constants
    (warming_collaborators 50) sample_met sample_params sample_state
    (slot_start sample_constants (warming_collaborators 50) sample_control sample_fluxes
      sample_met sample_params sample_state () sample_locals 0)
  obtain ⟨g1, _, _, g4, g5, _, _, g8, _⟩ := full_pass_iterate_frame sample_constants
    (warming_collaborators 50) sample_met sample_params sample_state 50
    (first_loop_entry sample_constants (warming_collaborators 50) sample_met
      sample_params sample_state
      (slot_start sample_constants (warming_collaborators 50) sample_control sample_fluxes
        sample_met sample_params sample_state () sample_locals 0))
  obtain ⟨l1, _, l3, l4⟩ := last_pass_calls sample_constants (warming_collaborators 50)
    sample_met sample_params sample_state
    ((full_pass sample_constants (warming_collaborators 50) sample_met sample_params
      sample_state)^[50]
      (first_loop_entry sample_constants (warming_collaborators 50) sample_met
        sample_params sample_state
        (slot_start sample_constants (warming_collaborators 50) sample_control
          sample_fluxes sample_met sample_params sample_state () sample_locals 0)))
  obtain ⟨t1, _⟩ := last_pass_state sample_constants (warming_collaborators 50)
    sample_met sample_params sample_state
    ((full_pass sample_constants (warming_collaborators 50) sample_met sample_params
      sample_state)^[50]
      (first_loop_entry sample_constants (warming_collaborators 50) sample_met
        sample_params sample_state
        (slot_start sample_constants (warming_collaborators 50) sample_control
          sample_fluxes sample_met sample_params sample_state () sample_locals 0)))
  rw [s1, s2, s3, s4, warming_50_first_loop]
  dsimp only [nth_pass]
  rw [t1, g1, e1, l3, g5, e4, l4, g4, e5, l1, g8, e3]
  exact ⟨rfl, rfl, rfl, rfl⟩

/-- The fresh call of the scenario under the warming stub with `N = 50` ends
in the fatal error on the 51st pass of the shaded leaf's loop. -/
theorem warming_50_run :
    canopy sample_constants (warming_collaborators 50) sample_control sample_fluxes
        sample_met sample_params sample_state () sample_locals =
      (status.no_convergence,
        pass_energy_balance sample_constants (warming_collaborators 50) sample_met
          sample_params sample_state
          (pass_photosynthesis (warming_collaborators 50) sample_params sample_state
            (nth_pass sample_constants (warming_collaborators 50) sample_met sample_params
              sample_state
              (second_loop_entry sample_constants (warming_collaborators 50) sample_met
                sample_params sample_state
                (slot_start sample_constants (warming_collaborators 50) sample_control
                  sample_fluxes sample_met sample_params sample_state () sample_locals 0))
              50))) := by
  obtain ⟨p1, p2, p3, _⟩ := warming_50_second_entry
  have hl := stability_loop_forced sample_constants (warming_collaborators 50) sample_met
    sample_params sample_state 50 _ p1 (by rw [p2, p3])
    (fun j hj => ⟨warming_assimilates _ _ _,
      warming_not_converged 50 sample_state _ (warming_entry_tleaf _ _ _).2 j hj⟩)
    (warming_assimilates _ _ _)
  have h1 : (stability_loop sample_constants (warming_collaborators 50) sample_met
      sample_params sample_state
      (first_loop_entry sample_constants (warming_collaborators 50) sample_met
        sample_params sample_state
        (slot_start sample_constants (warming_collaborators 50) sample_control
          sample_fluxes sample_met sample_params sample_state () sample_locals 0))).1 =
      status.ok := by
    rw [warming_50_first_loop]
  have h2 : (stability_loop sample_constants (warming_collaborators 50) sample_met
      sample_params sample_state
      (second_loop_entry sample_constants (warming_collaborators 50) sample_met
        sample_params sample_state
        (slot_start sample_constants (warming_collaborators 50) sample_control
          sample_fluxes sample_met sample_params sample_state () sample_locals 0))).1 ≠
      status.ok := by
    rw [hl]
    exact fun h => status.noConfusion h
  have hslot := canopy_slot_second_loop_fatal sample_constants (warming_collaborators 50)
    sample_met sample_params sample_state
    (slot_start sample_constants (warming_collaborators 50) sample_control sample_fluxes
      sample_met sample_params sample_state () sample_locals 0)
    ((sunlit_slot_iff_at _ _ _ _).mpr (warming_sunlit _ _ _)) h1 h2
  have hrun := canopy_hod_loop_first_fatal sample_constants (warming_collaborators 50)
    sample_met sample_params sample_state 1 0 (by decide)
    (canopy_entry (warming_collaborators 50) sample_control sample_fluxes ()
      sample_locals)
    (fun j hj => absurd hj (by omega))
    (by
      show (canopy_slot sample_constants (warming_collaborators 50) sample_met
        sample_params sample_state
        (slot_start sample_constants (warming_collaborators 50) sample_control
          sample_fluxes sample_met sample_params sample_state () sample_locals 0)).1 ≠
        status.ok
      rw [hslot]
      exact h2)
  have e : canopy sample_constants (warming_collaborators 50) sample_control sample_fluxes
      sample_met sample_params sample_state () sample_locals =
      canopy_hod_loop sample_constants (warming_collaborators 50) sample_met sample_params
        sample_state 1
        (canopy_entry (warming_collaborators 50) sample_control sample_fluxes ()
          sample_locals) := rfl
  rw [e, hrun]
  show canopy_slot sample_constants (warming_collaborators 50) sample_met sample_params
    sample_state
    (slot_start sample_constants (warming_collaborators 50) sample_control sample_fluxes
      sample_met sample_params sample_state () sample_locals 0) = _
  rw [hslot, hl]
  rfl

/-- What resetting the iteration count leaves alone. -/
theorem reset_iter_frame {W : Type} (X : world W) :
    (reset_iter X).c = X.c ∧ (reset_iter X).trace = X.trace ∧
      (reset_iter X).L.tleaf = X.L.tleaf ∧ (reset_iter X).L.iter = 0 ∧
      (reset_iter X).L.itermax = X.L.itermax :=
  ⟨rfl, rfl, rfl, rfl, rfl⟩

/-! ## Invariants of a run -/

/-- A run invariant holds where a stability loop ends. -/
theorem stability_loop_invariant {W : Type} (K : constants) (E : collaborators W)
    (m : met) (p : params) (s : state) (I : world W → Prop)
    (F : status → world W → Prop)
    (h : run_invariant K E m p s I F) (X : world W) :
    I X →
      ((stability_loop K E m p s X).1 = status.ok → I (stability_loop K E m p s X).2) ∧
        ((stability_loop K E m p s X).1 ≠ status.ok →
        F (stability_loop K E m p s X).1 (stability_loop K E m p s X).2) := by
  induction X using stability_loop_induct K E m p s with
  | case1 x hps ha hi =>
    intro hI
    rw [stability_loop_cap K E m p s x hps ha hi]
    refine ⟨fun h0 => status.noConfusion h0, fun _ => ?_⟩
    exact h.cap x hI hps ((pass_assimilates_iff E p s x).mpr ha) hi
  | case2 x hps ha hi hc =>
    intro hI
    rw [stability_loop_converged K E m p s x hps ha hi hc]
    refine ⟨fun _ => ?_, fun h0 => absurd rfl h0⟩
    exact h.converged x hI hps ((pass_assimilates_iff E p s x).mpr ha) (not_le.mp hi)
      ((pass_converged_iff K E m p s x).mpr hc)
  | case3 x hps ha hi hc ih =>
    intro hI
    rw [stability_loop_continue K E m p s x hps ha hi hc]
    exact ih (h.update x hI hps ((pass_assimilates_iff E p s x).mpr ha) (not_le.mp hi)
      (fun h1 => hc ((pass_converged_iff K E m p s x).mp h1)))
  | case4 x hps ha =>
    intro hI
    rw [stability_loop_stop K E m p s x hps ha]
    refine ⟨fun _ => ?_, fun h0 => absurd rfl h0⟩
    exact h.no_assimilation x hI hps (fun h1 => ha ((pass_assimilates_iff E p s x).mp h1))
  | case5 x hps =>
    intro hI
    rw [stability_loop_C4 K E m p s x hps]
    exact ⟨fun h0 => status.noConfusion h0, fun _ => h.C4_exit x hI hps⟩

/-- A run invariant holds where a turn of the leaf loop ends. -/
theorem canopy_leaf_invariant {W : Type} (K : constants) (E : collaborators W)
    (m : met) (p : params) (s : state) (I : world W → Prop)
    (F : status → world W → Prop)
    (h : run_invariant K E m p s I F) (X : world W) (hI : I X) :
    ((canopy_leaf K E m p s X).1 = status.ok → I (canopy_leaf K E m p s X).2) ∧
      ((canopy_leaf K E m p s X).1 ≠ status.ok →
        F (canopy_leaf K E m p s X).1 (canopy_leaf K E m p s X).2) := by
  obtain ⟨h1, h2⟩ := stability_loop_invariant K E m p s I F h (leaf_air_space K m X)
    (h.air_space X hI)
  unfold canopy_leaf
  by_cases h0 : (stability_loop K E m p s (leaf_air_space K m X)).1 = status.ok
  · rw [if_pos h0]
    exact ⟨fun _ => h.totals _ (h1 h0), fun hn => absurd rfl hn⟩
  · rw [if_neg h0]
    exact ⟨fun hn => absurd hn h0, fun _ => h2 h0⟩

/-- A run invariant holds where the leaf loop ends. -/
theorem canopy_leaves_invariant {W : Type} (K : constants) (E : collaborators W)
    (m : met) (p : params) (s : state) (I : world W → Prop)
    (F : status → world W → Prop)
    (h : run_invariant K E m p s I F) (X : world W) (hI : I X) :
    ((canopy_leaves K E m p s X).1 = status.ok → I (canopy_leaves K E m p s X).2) ∧
      ((canopy_leaves K E m p s X).1 ≠ status.ok →
        F (canopy_leaves K E m p s X).1 (canopy_leaves K E m p s X).2) := by
  obtain ⟨a1, a2⟩ := canopy_leaf_invariant K E m p s I F h (leaf_first X) (h.first X hI)
  unfold canopy_leaves
  by_cases h0 : (canopy_leaf K E m p s (leaf_first X)).1 = status.ok
  · rw [if_pos h0]
    obtain ⟨b1, b2⟩ := canopy_leaf_invariant K E m p s I F h
      (leaf_next (canopy_leaf K E m p s (leaf_first X)).2) (h.next _ (a1 h0))
    by_cases h1 : (canopy_leaf K E m p s
        (leaf_next (canopy_leaf K E m p s (leaf_first X)).2)).1 = status.ok
    · rw [if_pos h1]
      exact ⟨fun _ => h.next _ (b1 h1), fun hn => absurd rfl hn⟩
    · rw [if_neg h1]
      exact ⟨fun hn => absurd hn h1, fun _ => b2 h1⟩
  · rw [if_neg h0]
    exact ⟨fun hn => absurd hn h0, fun _ => a2 h0⟩

/-- A run invariant holds where a slot ends. -/
theorem canopy_slot_invariant {W : Type} (K : constants) (E : collaborators W)
    (m : met) (p : params) (s : state) (I : world W → Prop)
    (F : status → world W → Prop)
    (h : run_invariant K E m p s I F) (X : world W) (hI : I X) :
    ((canopy_slot K E m p s X).1 = status.ok → I (canopy_slot K E m p s X).2) ∧
      ((canopy_slot K E m p s X).1 ≠ status.ok →
        F (canopy_slot K E m p s X).1 (canopy_slot K E m p s X).2) := by
  by_cases hs : sunlit_slot E m p X
  · obtain ⟨a1, a2⟩ := canopy_leaves_invariant K E m p s I F h
      (slot_sunlit_setup K E p s (slot_radiation E m p X))
      (h.setup _ (h.radiation X hI))
    rw [canopy_slot_of_sunlit K E m p s X hs]
    by_cases h0 : (canopy_leaves K E m p s
        (slot_sunlit_setup K E p s (slot_radiation E m p X))).1 = status.ok
    · rw [if_pos h0]
      exact ⟨fun _ => h.finish _ (a1 h0), fun hn => absurd rfl hn⟩
    · rw [if_neg h0]
      exact ⟨fun hn => absurd hn h0, fun _ => a2 h0⟩
  · rw [canopy_slot_of_dark K E m p s X hs]
    exact ⟨fun _ => h.dark _ (h.radiation X hI), fun hn => absurd rfl hn⟩

/-- A run invariant holds where the loop over the slots ends. -/
theorem canopy_hod_loop_invariant {W : Type} (K : constants) (E : collaborators W)
    (m : met) (p : params) (s : state) (I : world W → Prop)
    (F : status → world W → Prop)
    (h : run_invariant K E m p s I F) (n : Nat) :
    ∀ X : world W, I X →
      ((canopy_hod_loop K E m p s n X).1 = status.ok →
          I (canopy_hod_loop K E m p s n X).2) ∧
        ((canopy_hod_loop K E m p s n X).1 ≠ status.ok →
          F (canopy_hod_loop K E m p s n X).1 (canopy_hod_loop K E m p s n X).2) := by
  induction n with
  | zero =>
    intro X hI
    simp only [canopy_hod_loop]
    exact ⟨fun _ => hI, fun hn => absurd rfl hn⟩
  | succ k ih =>
    intro X hI
    obtain ⟨a1, a2⟩ := canopy_slot_invariant K E m p s I F h X hI
    simp only [canopy_hod_loop]
    by_cases h0 : (canopy_slot K E m p s X).1 = status.ok
    · rw [if_pos h0]
      exact ih _ (h.advance _ (a1 h0))
    · rw [if_neg h0]
      exact ⟨fun hn => absurd hn h0, fun _ => a2 h0⟩

/-! ## The net radiation handed to the water balance -/

/-- No step of a run assigns `rnet`, and `total_rnet` only has `rnet` added. -/
theorem rnet_untouched_invariant {W : Type} (K : constants) (E : collaborators W)
    (m : met) (p : params) (s : state) (r : ℚ) :
    run_invariant K E m p s (rnet_untouched r) (fun _ X => rnet_untouched r X) := by
  constructor
  case C4_exit => exact fun X h _ => h
  all_goals
    intro X h
    intros
    obtain ⟨h1, h2, h3⟩ := h
    simp only [rnet_untouched, pass_no_transpiration, pass_photosynthesis,
      pass_energy_balance, full_pass, pass_update, leaf_air_space, leaf_totals, leaf_first,
      leaf_next, slot_radiation, slot_sunlit_setup, slot_ncontent, slot_absorbed_radiation,
      slot_sunlit_finish, slot_dark, next_slot, List.mem_append, List.mem_cons,
      List.mem_singleton, List.not_mem_nil, or_false, reduceCtorEq, false_or,
      event.calculate_sub_daily_water_balance.injEq]
    try split_ifs
    all_goals
      refine ⟨by simp [h1], by simp [h1, h2], ?_⟩
      intro a t ha
      first
        | exact h3 a t ha
        | (rcases ha with ha | ha
           · exact h3 a t ha
           · exact ha.1.trans h2)

/-! ## The run-wide iteration count -/

theorem non_converged_passes_append (a b : List event) :
    non_converged_passes (a ++ b) = non_converged_passes a + non_converged_passes b := by
  simp [non_converged_passes, List.countP_append]

/-- A trace with one more event reaches the cap if it did before, or if the new
event is a pass with positive assimilation starting at the cap. -/
theorem reaches_cap_append_one (n : Nat) (tr : List event) (x : event) :
    reaches_cap n (tr ++ [x]) ↔
      reaches_cap n tr ∨ (x.isAssimilating = true ∧ non_converged_passes tr = n) := by
  constructor
  · rintro ⟨pre, e, post, h1, h2, h3⟩
    rcases List.eq_nil_or_concat post with hp | ⟨q, y, hp⟩
    · subst hp
      have h4 : tr ++ [x] = pre ++ [e] := h1
      obtain ⟨h5, h6⟩ := List.append_inj' h4 rfl
      have h7 : x = e := by simpa using h6
      right
      rw [h5, h7]
      exact ⟨h2, h3⟩
    · subst hp
      have h4 : tr ++ [x] = (pre ++ e :: q) ++ [y] := by
        rw [h1]
        simp
      obtain ⟨h5, _⟩ := List.append_inj' h4 rfl
      left
      exact ⟨pre, e, q, h5, h2, h3⟩
  · rintro (⟨pre, e, post, h1, h2, h3⟩ | ⟨h2, h3⟩)
    · refine ⟨pre, e, post ++ [x], ?_, h2, h3⟩
      rw [h1]
      simp
    · exact ⟨tr, x, [], rfl, h2, h3⟩

/-- The event a photosynthesis call records. -/
theorem pass_photosynthesis_event {W : Type} (E : collaborators W) (p : params)
    (s : state) (X : world W) :
    ∃ e : event, (pass_photosynthesis E p s X).trace = X.trace ++ [e] ∧
      (e.isAssimilating = true ↔ pass_assimilates E p s X) ∧
      e.isNonConverged = false ∧ e.isPhotosynthesis = true := by
  refine ⟨_, rfl, ?_, rfl, rfl⟩
  simp [event.isAssimilating, pass_assimilates]

/-- The event the energy-balance call of a pass records. -/
theorem pass_energy_balance_event {W : Type} (K : constants) (E : collaborators W)
    (m : met) (p : params) (s : state) (X : world W) :
    ∃ e : event, (pass_energy_balance K E m p s (pass_photosynthesis E p s X)).trace =
        (pass_photosynthesis E p s X).trace ++ [e] ∧
      e.isAssimilating = false ∧
      (e.isNonConverged = true ↔ ¬ pass_converged K E m p s X) ∧
      e.isPhotosynthesis = false := by
  refine ⟨_, rfl, rfl, ?_, rfl⟩
  simp [event.isNonConverged, pass_converged, pass_new_tleaf, pass_photosynthesis, assign]

/-- The iteration count is the run-wide count of non-converged passes. -/
theorem iter_counts_invariant {W : Type} (K : constants) (E : collaborators W)
    (m : met) (p : params) (s : state) (ps : Int) :
    run_invariant K E m p s (iter_counts ps) (iter_at_exit K ps) := by
  constructor
  case C4_exit =>
    intro X h hps
    exact Or.inl ⟨rfl, fun h0 => hps (h.1.trans h0), h⟩
  case no_assimilation =>
    intro X ⟨h1, h2, h3, h4, h5⟩ hps ha
    obtain ⟨e, t, a, b, _⟩ := pass_photosynthesis_event E p s X
    have t2 : (pass_no_transpiration (pass_photosynthesis E p s X)).trace =
        X.trace ++ [e] := t
    refine ⟨h1, h2, ?_, h4, ?_⟩
    · rw [t2, non_converged_passes_append]
      simp only [non_converged_passes, List.countP_cons, List.countP_nil, b]
      exact h3
    · rw [t2, reaches_cap_append_one]
      rintro (h | ⟨h, _⟩)
      · exact h5 h
      · exact ha (a.mp h)
  case cap =>
    intro X ⟨h1, h2, h3, h4, h5⟩ hps ha hi
    obtain ⟨e, t, a, b, _⟩ := pass_photosynthesis_event E p s X
    obtain ⟨e2, t2, a2, b2, _⟩ := pass_energy_balance_event K E m p s X
    have hi2 : X.L.iter = 100 := by omega
    refine Or.inr ⟨rfl, h1.symm.trans hps, h2, hi2, ?_⟩
    rw [t2, t, reaches_cap_append_one, reaches_cap_append_one]
    exact Or.inl (Or.inr ⟨a.mpr ha, by rw [← h3, hi2]⟩)
  case converged =>
    intro X ⟨h1, h2, h3, h4, h5⟩ hps ha hi hc
    obtain ⟨e, t, a, b, _⟩ := pass_photosynthesis_event E p s X
    obtain ⟨e2, t2, a2, b2, _⟩ := pass_energy_balance_event K E m p s X
    have b3 : e2.isNonConverged = false := by
      cases h : e2.isNonConverged
      · rfl
      · exact absurd hc (b2.mp h)
    refine ⟨h1, h2, ?_, h4, ?_⟩
    · rw [t2, t, non_converged_passes_append, non_converged_passes_append]
      simp only [non_converged_passes, List.countP_cons, List.countP_nil, b, b3]
      exact h3
    · rw [t2, t, reaches_cap_append_one, reaches_cap_append_one]
      rintro ((h | ⟨_, h⟩) | ⟨h, _⟩)
      · exact h5 h
      · rw [← h3] at h
        omega
      · rw [a2] at h
        exact Bool.noConfusion h
  case update =>
    intro X ⟨h1, h2, h3, h4, h5⟩ hps ha hi hc
    obtain ⟨e, t, a, b, _⟩ := pass_photosynthesis_event E p s X
    obtain ⟨e2, t2, a2, b2, _⟩ := pass_energy_balance_event K E m p s X
    have b3 : e2.isNonConverged = true := b2.mpr hc
    have t3 : (full_pass K E m p s X).trace = X.trace ++ [e] ++ [e2] := by
      rw [← t, ← t2]
      rfl
    have i3 : (full_pass K E m p s X).L.iter = X.L.iter + 1 := rfl
    refine ⟨h1, h2, ?_, ?_, ?_⟩
    · rw [t3, i3, non_converged_passes_append, non_converged_passes_append]
      simp only [non_converged_passes, List.countP_cons, List.countP_nil, b, b3]
      simp only [non_converged_passes] at h3
      rw [h3]
      simp
    · rw [i3]
      omega
    · rw [t3, reaches_cap_append_one, reaches_cap_append_one]
      rintro ((h | ⟨_, h⟩) | ⟨h, _⟩)
      · exact h5 h
      · rw [← h3] at h
        omega
      · rw [a2] at h
        exact Bool.noConfusion h
  case finish =>
    intro X ⟨h1, h2, h3, h4, h5⟩
    refine ⟨h1, h2, ?_, h4, ?_⟩
    · simp only [slot_sunlit_finish]
      rw [non_converged_passes_append]
      simp only [non_converged_passes, List.countP_cons, List.countP_nil,
        event.isNonConverged]
      exact h3
    · have t : (slot_sunlit_finish K E m p s X).trace =
          X.trace ++ [event.update_daily_carbon_fluxes
            (X.L.sunlit_lai * X.L.anleaf SUNLIT + X.L.shaded_lai * X.L.anleaf SHADED)
            X.L.total_apar] ++
          [event.calculate_sub_daily_water_balance X.L.total_rnet
            (X.L.sunlit_lai * X.L.leaf_trans SUNLIT +
              X.L.shaded_lai * X.L.leaf_trans SHADED)] := by
        simp [slot_sunlit_finish]
      rw [t, reaches_cap_append_one, reaches_cap_append_one]
      rintro ((h | ⟨h, _⟩) | ⟨h, _⟩)
      · exact h5 h
      · exact Bool.noConfusion h
      · exact Bool.noConfusion h
  case dark =>
    intro X ⟨h1, h2, h3, h4, h5⟩
    refine ⟨h1, h2, ?_, h4, ?_⟩
    · simp only [slot_dark]
      rw [non_converged_passes_append]
      simp only [non_converged_passes, List.countP_cons, List.countP_nil,
        event.isNonConverged]
      exact h3
    · have t : (slot_dark K E m p s X).trace =
          X.trace ++ [event.update_daily_carbon_fluxes 0
            (X.L.apar SUNLIT + X.L.apar SHADED)] ++
          [event.calculate_sub_daily_water_balance X.L.total_rnet 0] := by
        simp [slot_dark]
      rw [t, reaches_cap_append_one, reaches_cap_append_one]
      rintro ((h | ⟨h, _⟩) | ⟨h, _⟩)
      · exact h5 h
      · exact Bool.noConfusion h
      · exact Bool.noConfusion h
  case setup =>
    intro X h
    unfold slot_sunlit_setup slot_ncontent
    split_ifs <;> exact h
  all_goals exact fun X h => h

/-! ## Counting the passes of a run -/

theorem passes_bounded_of_frame {W : Type} (X Y : world W)
    (h1 : Y.L.itermax = X.L.itermax) (h2 : Y.L.iter = X.L.iter)
    (h3 : photosynthesis_calls Y.trace = photosynthesis_calls X.trace) :
    passes_bounded 0 X Y := by
  refine ⟨h1, le_of_eq h2.symm, fun h => ?_, ?_⟩
  · rw [h1, h2]
    exact h
  · rw [h2, h3]
    omega

theorem passes_bounded_trans {W : Type} (a b : Nat) (X Y Z : world W)
    (h : passes_bounded a X Y) (g : passes_bounded b Y Z) : passes_bounded (a + b) X Z := by
  obtain ⟨h1, h2, h3, h4⟩ := h
  obtain ⟨g1, g2, g3, g4⟩ := g
  refine ⟨g1.trans h1, le_trans h2 g2, fun h0 => g3 (h3 h0), ?_⟩
  omega

theorem passes_bounded_mono {W : Type} (a b : Nat) (X Y : world W) (hab : a ≤ b)
    (h : passes_bounded a X Y) : passes_bounded b X Y := by
  obtain ⟨h1, h2, h3, h4⟩ := h
  exact ⟨h1, h2, h3, by omega⟩

/-- A pass that ends a stability loop: one photosynthesis call, `iter` kept. -/
theorem terminal_pass_bounded {W : Type} (X Y : world W)
    (h1 : Y.L.itermax = X.L.itermax) (h2 : Y.L.iter = X.L.iter)
    (h3 : photosynthesis_calls Y.trace = photosynthesis_calls X.trace + 1) :
    passes_bounded 1 X Y := by
  refine ⟨h1, le_of_eq h2.symm, fun h => ?_, ?_⟩
  · rw [h1, h2]
    exact h
  · rw [h2, h3]
    omega

/-- A stability loop makes one pass more than it increments `iter`, and does
not take `iter` beyond `itermax`. -/
theorem stability_loop_passes_bounded {W : Type} (K : constants) (E : collaborators W)
    (m : met) (p : params) (s : state) (X : world W) :
    passes_bounded 1 X (stability_loop K E m p s X).2 := by
  induction X using stability_loop_induct K E m p s with
  | case1 x h ha hi =>
    rw [stability_loop_cap K E m p s x h ha hi]
    apply terminal_pass_bounded <;>
      simp [pass_energy_balance, pass_photosynthesis, photosynthesis_calls,
        List.countP_append, List.countP_cons, event.isPhotosynthesis]
  | case2 x h ha hi hc =>
    rw [stability_loop_converged K E m p s x h ha hi hc]
    apply terminal_pass_bounded <;>
      simp [pass_energy_balance, pass_photosynthesis, photosynthesis_calls,
        List.countP_append, List.countP_cons, event.isPhotosynthesis]
  | case3 x h ha hi hc ih =>
    rw [stability_loop_continue K E m p s x h ha hi hc]
    obtain ⟨f1, f2, f3, f4, f5, f6, f7, f8, f9, f10⟩ := full_pass_frame K E m p s x
    have hi2 : x.L.iter < x.L.itermax := not_le.mp hi
    obtain ⟨g1, g2, g3, g4⟩ := ih
    change (stability_loop K E m p s (full_pass K E m p s x)).2.L.itermax =
      (full_pass K E m p s x).L.itermax at g1
    change (full_pass K E m p s x).L.iter ≤
      (stability_loop K E m p s (full_pass K E m p s x)).2.L.iter at g2
    change (full_pass K E m p s x).L.iter ≤ (full_pass K E m p s x).L.itermax →
      (stability_loop K E m p s (full_pass K E m p s x)).2.L.iter ≤
        (stability_loop K E m p s (full_pass K E m p s x)).2.L.itermax at g3
    change photosynthesis_calls (stability_loop K E m p s (full_pass K E m p s x)).2.trace +
        (full_pass K E m p s x).L.iter ≤
      photosynthesis_calls (full_pass K E m p s x).trace +
        (stability_loop K E m p s (full_pass K E m p s x)).2.L.iter + 1 at g4
    rw [f4] at g1
    rw [f5] at g2 g4
    rw [f4, f5] at g3
    rw [f9] at g4
    change passes_bounded 1 x (stability_loop K E m p s (full_pass K E m p s x)).2
    exact ⟨g1, by omega, fun _ => g3 (by omega), by omega⟩
  | case4 x h ha =>
    rw [stability_loop_stop K E m p s x h ha]
    apply terminal_pass_bounded <;>
      simp [pass_no_transpiration, pass_photosynthesis, photosynthesis_calls,
        List.countP_append, List.countP_cons, event.isPhotosynthesis]
  | case5 x h =>
    rw [stability_loop_C4 K E m p s x h]
    exact passes_bounded_mono 0 1 _ _ (Nat.zero_le _) (passes_bounded_of_frame _ _ rfl rfl rfl)

theorem canopy_leaf_passes_bounded {W : Type} (K : constants) (E : collaborators W)
    (m : met) (p : params) (s : state) (X : world W) :
    passes_bounded 1 X (canopy_leaf K E m p s X).2 := by
  have h0 : passes_bounded 0 X (leaf_air_space K m X) :=
    passes_bounded_of_frame _ _ rfl rfl rfl
  have h1 := passes_bounded_trans 0 1 _ _ _ h0
    (stability_loop_passes_bounded K E m p s (leaf_air_space K m X))
  unfold canopy_leaf
  split_ifs with hs
  · have h2 := passes_bounded_trans _ 0 _ _ _ h1
      (passes_bounded_of_frame (stability_loop K E m p s (leaf_air_space K m X)).2
        (leaf_totals (stability_loop K E m p s (leaf_air_space K m X)).2) rfl rfl rfl)
    exact passes_bounded_mono _ _ _ _ (by omega) h2
  · exact passes_bounded_mono _ _ _ _ (by omega) h1

theorem canopy_leaves_passes_bounded {W : Type} (K : constants) (E : collaborators W)
    (m : met) (p : params) (s : state) (X : world W) :
    passes_bounded 2 X (canopy_leaves K E m p s X).2 := by
  have h0 : passes_bounded 0 X (leaf_first X) := passes_bounded_of_frame _ _ rfl rfl rfl
  have h1 := passes_bounded_trans 0 1 _ _ _ h0
    (canopy_leaf_passes_bounded K E m p s (leaf_first X))
  have h2 := passes_bounded_trans _ 0 _ _ _ h1
    (passes_bounded_of_frame (canopy_leaf K E m p s (leaf_first X)).2
      (leaf_next (canopy_leaf K E m p s (leaf_first X)).2) rfl rfl rfl)
  have h3 := passes_bounded_trans _ 1 _ _ _ h2
    (canopy_leaf_passes_bounded K E m p s
      (leaf_next (canopy_leaf K E m p s (leaf_first X)).2))
  have h4 := passes_bounded_trans _ 0 _ _ _ h3
    (passes_bounded_of_frame
      (canopy_leaf K E m p s (leaf_next (canopy_leaf K E m p s (leaf_first X)).2)).2
      (leaf_next (canopy_leaf K E m p s
        (leaf_next (canopy_leaf K E m p s (leaf_first X)).2)).2) rfl rfl rfl)
  unfold canopy_leaves
  split_ifs with hs ht
  · exact passes_bounded_mono _ _ _ _ (by omega) h4
  · exact passes_bounded_mono _ _ _ _ (by omega) h3
  · exact passes_bounded_mono _ _ _ _ (by omega) h1

theorem canopy_slot_passes_bounded {W : Type} (K : constants) (E : collaborators W)
    (m : met) (p : params) (s : state) (X : world W) :
    passes_bounded 2 X (canopy_slot K E m p s X).2 := by
  have h0 : passes_bounded 0 X (slot_radiation E m p X) :=
    passes_bounded_of_frame _ _ rfl rfl rfl
  obtain ⟨_, _, _, _, _, _, _, e1, e2, e3⟩ := slot_sunlit_setup_absorbed K E p s
    (slot_radiation E m p X)
  have h1 := passes_bounded_trans 0 0 _ _ _ h0
    (passes_bounded_of_frame (slot_radiation E m p X)
      (slot_sunlit_setup K E p s (slot_radiation E m p X)) e3 e2 (by rw [e1]))
  have h2 := passes_bounded_trans _ 2 _ _ _ h1
    (canopy_leaves_passes_bounded K E m p s
      (slot_sunlit_setup K E p s (slot_radiation E m p X)))
  have fin : ∀ Y : world W, passes_bounded 0 Y (slot_sunlit_finish K E m p s Y) := by
    intro Y
    refine passes_bounded_of_frame Y (slot_sunlit_finish K E m p s Y) rfl rfl ?_
    simp [slot_sunlit_finish, photosynthesis_calls, List.countP_append, List.countP_cons,
      event.isPhotosynthesis]
  have drk : ∀ Y : world W, passes_bounded 0 Y (slot_dark K E m p s Y) := by
    intro Y
    refine passes_bounded_of_frame Y (slot_dark K E m p s Y) rfl rfl ?_
    simp [slot_dark, photosynthesis_calls, List.countP_append, List.countP_cons,
      event.isPhotosynthesis]
  unfold canopy_slot
  split_ifs with hs hl
  · exact passes_bounded_mono _ _ _ _ (by omega) (passes_bounded_trans _ 0 _ _ _ h2 (fin _))
  · exact passes_bounded_mono _ _ _ _ (by omega) h2
  · exact passes_bounded_mono _ _ _ _ (by omega) (passes_bounded_trans _ 0 _ _ _ h0 (drk _))

theorem canopy_hod_loop_passes_bounded {W : Type} (K : constants) (E : collaborators W)
    (m : met) (p : params) (s : state) (n : Nat) :
    ∀ X : world W, passes_bounded (2 * n) X (canopy_hod_loop K E m p s n X).2 := by
  induction n with
  | zero =>
    intro X
    exact passes_bounded_of_frame _ _ rfl rfl rfl
  | succ k ih =>
    intro X
    have h1 := canopy_slot_passes_bounded K E m p s X
    simp only [canopy_hod_loop]
    split_ifs with hs
    · have h2 := passes_bounded_trans _ 0 _ _ _ h1
        (passes_bounded_of_frame (canopy_slot K E m p s X).2
          (next_slot (canopy_slot K E m p s X).2) rfl rfl rfl)
      exact passes_bounded_mono _ _ _ _ (by omega)
        (passes_bounded_trans _ _ _ _ _ h2 (ih _))
    · exact passes_bounded_mono _ _ _ _ (by omega) h1

/-! ## What a slot leaves alone, and its absorbed PAR -/

/-- A turn of the leaf loop does not touch the cursor, `hod`, the fluxes, the
water state or `apar`. -/
theorem canopy_leaf_frame {W : Type} (K : constants) (E : collaborators W) (m : met)
    (p : params) (s : state) (X : world W) :
    (canopy_leaf K E m p s X).2.c = X.c ∧ (canopy_leaf K E m p s X).2.L.hod = X.L.hod ∧
      (canopy_leaf K E m p s X).2.f = X.f ∧
      (canopy_leaf K E m p s X).2.L.apar = X.L.apar ∧
      (canopy_leaf K E m p s X).2.water = X.water := by
  have h := canopy_leaf_outside K E m p s X
  have h1 := congrArg (fun Z : world W => Z.c) h
  have h2 := congrArg (fun Z : world W => Z.L.hod) h
  have h3 := congrArg (fun Z : world W => Z.f) h
  have h4 := congrArg (fun Z : world W => Z.L.apar) h
  have h5 := congrArg (fun Z : world W => Z.water) h
  simp only [outside_leaf, outside_loop] at h1 h2 h3 h4 h5
  exact ⟨h1, h2, h3, h4, h5⟩

/-- The leaf loop does not touch the cursor, `hod`, the fluxes, the water state
or `apar`. -/
theorem canopy_leaves_frame {W : Type} (K : constants) (E : collaborators W) (m : met)
    (p : params) (s : state) (X : world W) :
    (canopy_leaves K E m p s X).2.c = X.c ∧ (canopy_leaves K E m p s X).2.L.hod = X.L.hod ∧
      (canopy_leaves K E m p s X).2.f = X.f ∧
      (canopy_leaves K E m p s X).2.L.apar = X.L.apar ∧
      (canopy_leaves K E m p s X).2.water = X.water := by
  obtain ⟨a1, a2, a3, a4, a5⟩ := canopy_leaf_frame K E m p s (leaf_first X)
  obtain ⟨b1, b2, b3, b4, b5⟩ := canopy_leaf_frame K E m p s
    (leaf_next (canopy_leaf K E m p s (leaf_first X)).2)
  have c1 : (leaf_first X).c = X.c := rfl
  have c2 : (leaf_first X).L.hod = X.L.hod := rfl
  have c3 : (leaf_first X).f = X.f := rfl
  have c4 : (leaf_first X).L.apar = X.L.apar := rfl
  have c5 : (leaf_first X).water = X.water := rfl
  have d1 : (leaf_next (canopy_leaf K E m p s (leaf_first X)).2).c =
      (canopy_leaf K E m p s (leaf_first X)).2.c := rfl
  have d2 : (leaf_next (canopy_leaf K E m p s (leaf_first X)).2).L.hod =
      (canopy_leaf K E m p s (leaf_first X)).2.L.hod := rfl
  have d3 : (leaf_next (canopy_leaf K E m p s (leaf_first X)).2).f =
      (canopy_leaf K E m p s (leaf_first X)).2.f := rfl
  have d4 : (leaf_next (canopy_leaf K E m p s (leaf_first X)).2).L.apar =
      (canopy_leaf K E m p s (leaf_first X)).2.L.apar := rfl
  have d5 : (leaf_next (canopy_leaf K E m p s (leaf_first X)).2).water =
      (canopy_leaf K E m p s (leaf_first X)).2.water := rfl
  have e1 := a1.trans c1
  have e2 := a2.trans c2
  have e3 := a3.trans c3
  have e4 := a4.trans c4
  have e5 := a5.trans c5
  have g1 := b1.trans (d1.trans e1)
  have g2 := b2.trans (d2.trans e2)
  have g3 := b3.trans (d3.trans e3)
  have g4 := b4.trans (d4.trans e4)
  have g5 := b5.trans (d5.trans e5)
  unfold canopy_leaves
  split_ifs with h0 h1
  · exact ⟨g1, g2, g3, g4, g5⟩
  · exact ⟨g1, g2, g3, g4, g5⟩
  · exact ⟨e1, e2, e3, e4, e5⟩

/-- What lines 53-86 leave alone and what they read. -/
theorem slot_sunlit_setup_frame {W : Type} (K : constants) (E : collaborators W)
    (m : met) (p : params) (s : state) (X : world W) :
    (slot_sunlit_setup K E p s (slot_radiation E m p X)).c = X.c ∧
      (slot_sunlit_setup K E p s (slot_radiation E m p X)).L.hod = X.L.hod ∧
      (slot_sunlit_setup K E p s (slot_radiation E m p X)).f = X.f ∧
      (slot_sunlit_setup K E p s (slot_radiation E m p X)).water = X.water ∧
      (slot_sunlit_setup K E p s (slot_radiation E m p X)).trace = X.trace ∧
      (slot_sunlit_setup K E p s (slot_radiation E m p X)).L.total_apar = 0 ∧
      (slot_sunlit_setup K E p s (slot_radiation E m p X)).L.apar 0 =
        (absorbed_at E m p s X.c.hrly_idx X.L.hod).apar_sunlit ∧
      (slot_sunlit_setup K E p s (slot_radiation E m p X)).L.apar 1 =
        (absorbed_at E m p s X.c.hrly_idx X.L.hod).apar_shaded ∧
      (slot_sunlit_setup K E p s (slot_radiation E m p X)).L.sunlit_lai =
        (absorbed_at E m p s X.c.hrly_idx X.L.hod).sunlit_lai ∧
      (slot_sunlit_setup K E p s (slot_radiation E m p X)).L.shaded_lai =
        (absorbed_at E m p s X.c.hrly_idx X.L.hod).shaded_lai := by
  unfold slot_sunlit_setup slot_ncontent
  split_ifs <;> simp [slot_absorbed_radiation, slot_radiation, absorbed_at, assign]

/-- A slot does not move the cursor or `hod`, however it ends. -/
theorem canopy_slot_frame {W : Type} (K : constants) (E : collaborators W) (m : met)
    (p : params) (s : state) (X : world W) :
    (canopy_slot K E m p s X).2.c = X.c ∧ (canopy_slot K E m p s X).2.L.hod = X.L.hod := by
  obtain ⟨a1, a2, _⟩ := canopy_leaves_frame K E m p s
    (slot_sunlit_setup K E p s (slot_radiation E m p X))
  obtain ⟨b1, b2, _⟩ := slot_sunlit_setup_frame K E m p s X
  unfold canopy_slot
  split_ifs with h0 h1
  · exact ⟨a1.trans b1, a2.trans b2⟩
  · exact ⟨a1.trans b1, a2.trans b2⟩
  · exact ⟨rfl, rfl⟩

/-- A dark slot: `apar` is left as it was, and the sum of its two entries is
handed to the daily-carbon-flux update and added to the daily accumulator. -/
theorem canopy_slot_dark_apar {W : Type} (K : constants) (E : collaborators W)
    (m : met) (p : params) (s : state) (X : world W) (hdark : ¬ sunlit_slot E m p X) :
    (canopy_slot K E m p s X).1 = status.ok ∧
      (canopy_slot K E m p s X).2.L.apar = X.L.apar ∧
      (canopy_slot K E m p s X).2.L.total_apar = X.L.apar SUNLIT + X.L.apar SHADED ∧
      (canopy_slot K E m p s X).2.f.apar =
        X.f.apar + (X.L.apar SUNLIT + X.L.apar SHADED) ∧
      (canopy_slot K E m p s X).2.trace =
        X.trace ++ [event.update_daily_carbon_fluxes 0 (X.L.apar SUNLIT + X.L.apar SHADED),
          event.calculate_sub_daily_water_balance X.L.total_rnet 0] := by
  rw [canopy_slot_of_dark K E m p s X hdark]
  simp [slot_dark, slot_radiation, update_daily_carbon_fluxes]

/-! ## Lemmas on completed runs -/

/-- When a run of `a + b` slots completes, so do its first `a` slots. -/
theorem canopy_hod_loop_prefix_ok {W : Type} (K : constants) (E : collaborators W)
    (m : met) (p : params) (s : state) (a b : Nat) (X : world W)
    (h : (canopy_hod_loop K E m p s (a + b) X).1 = status.ok) :
    (canopy_hod_loop K E m p s a X).1 = status.ok := by
  rw [canopy_hod_loop_add] at h
  by_cases h0 : (canopy_hod_loop K E m p s a X).1 = status.ok
  · exact h0
  · rw [if_neg h0] at h
    exact h

/-- When a run of `k + 1` slots completes, its last slot completes and is
followed by one step of the cursor. -/
theorem canopy_hod_loop_succ_ok {W : Type} (K : constants) (E : collaborators W)
    (m : met) (p : params) (s : state) (k : Nat) (X : world W)
    (h : (canopy_hod_loop K E m p s (k + 1) X).1 = status.ok) :
    (canopy_hod_loop K E m p s k X).1 = status.ok ∧
      (canopy_slot K E m p s (canopy_hod_loop K E m p s k X).2).1 = status.ok ∧
      (canopy_hod_loop K E m p s (k + 1) X).2 =
        next_slot (canopy_slot K E m p s (canopy_hod_loop K E m p s k X).2).2 := by
  have h0 := canopy_hod_loop_prefix_ok K E m p s k 1 X h
  rw [canopy_hod_loop_add, if_pos h0] at h ⊢
  simp only [canopy_hod_loop] at h ⊢
  by_cases h1 : (canopy_slot K E m p s (canopy_hod_loop K E m p s k X).2).1 = status.ok
  · rw [if_pos h1]
    exact ⟨h0, h1, rfl⟩
  · rw [if_neg h1] at h
    exact absurd h h1

/-- After `k` completed slots the cursor and `hod` have advanced by `k`. -/
theorem canopy_hod_loop_cursor {W : Type} (K : constants) (E : collaborators W)
    (m : met) (p : params) (s : state) (k : Nat) :
    ∀ X : world W, (canopy_hod_loop K E m p s k X).1 = status.ok →
      (canopy_hod_loop K E m p s k X).2.c.hrly_idx = X.c.hrly_idx + k ∧
        (canopy_hod_loop K E m p s k X).2.L.hod = X.L.hod + k ∧
        (canopy_hod_loop K E m p s k X).2.c.num_hlf_hrs = X.c.num_hlf_hrs ∧
        (canopy_hod_loop K E m p s k X).2.c.ps_pathway = X.c.ps_pathway := by
  induction k with
  | zero =>
    intro X _
    simp [canopy_hod_loop]
  | succ n ih =>
    intro X h
    obtain ⟨h0, h1, h2⟩ := canopy_hod_loop_succ_ok K E m p s n X h
    obtain ⟨a1, a2, a3, a4⟩ := ih X h0
    obtain ⟨b1, b2⟩ := canopy_slot_frame K E m p s (canopy_hod_loop K E m p s n X).2
    rw [h2]
    simp only [next_slot, b1, b2, a1, a2, a3, a4]
    push_cast
    refine ⟨by ring, by ring, trivial, trivial⟩

/-- The worlds of a slot that starts in `X` all have the cursor of `X`. -/
theorem slot_worlds_cursor {W : Type} (K : constants) (E : collaborators W) (m : met)
    (p : params) (s : state) (X : world W) :
    (slot_radiation E m p X).c = X.c ∧
      (first_loop_entry K E m p s X).c = X.c ∧
      (∀ j : Nat, (nth_pass K E m p s (first_loop_entry K E m p s X) j).c = X.c) ∧
      (second_loop_entry K E m p s X).c = X.c ∧
      (∀ j : Nat, (nth_pass K E m p s (second_loop_entry K E m p s X) j).c = X.c) ∧
      (canopy_slot K E m p s X).2.c = X.c := by
  have h1 := (first_loop_entry_frame K E m p s X).1
  have h2 : (second_loop_entry K E m p s X).c = X.c := by
    have o := stability_loop_outside K E m p s (first_loop_entry K E m p s X)
    have t := congrArg (fun Z : world W => Z.c) o
    have t2 : (stability_loop K E m p s (first_loop_entry K E m p s X)).2.c =
        (first_loop_entry K E m p s X).c := t
    exact (second_loop_entry_frame K E m p s X).1.trans (t2.trans h1)
  refine ⟨rfl, h1, fun j => ?_, h2, fun j => ?_, (canopy_slot_frame K E m p s X).1⟩
  · exact (full_pass_iterate_frame K E m p s j _).1.trans h1
  · exact (full_pass_iterate_frame K E m p s j _).1.trans h2

/-- The forcing is read at the cursor only. -/
theorem met_read_at_cursor {W : Type} (K : constants) (E : collaborators W) (m : met)
    (p : params) (s : state) (Y : world W) :
    (slot_radiation E m p Y).L.par = m.par Y.c.hrly_idx ∧
      (slot_radiation E m p Y).L.cos_zenith =
        (E.calculate_zenith_angle p (m.doy Y.c.hrly_idx) Y.L.hod).1 ∧
      (slot_radiation E m p Y).L.elevation =
        (E.calculate_zenith_angle p (m.doy Y.c.hrly_idx) Y.L.hod).2 ∧
      (slot_radiation E m p Y).L.diffuse_frac =
        E.get_diffuse_frac (m.doy Y.c.hrly_idx)
          (E.calculate_zenith_angle p (m.doy Y.c.hrly_idx) Y.L.hod).1
          (m.par Y.c.hrly_idx) ∧
      (leaf_air_space K m Y).L.tleaf = m.tair Y.c.hrly_idx ∧
      (leaf_air_space K m Y).L.dleaf = m.vpd Y.c.hrly_idx * K.KPA_2_PA ∧
      (leaf_air_space K m Y).L.Cs = m.co2 Y.c.hrly_idx ∧
      ∀ m2 : met, met_agree_at m m2 Y.c.hrly_idx →
        slot_radiation E m2 p Y = slot_radiation E m p Y ∧
          leaf_air_space K m2 Y = leaf_air_space K m Y ∧
          pass_energy_balance K E m2 p s Y = pass_energy_balance K E m p s Y := by
  refine ⟨rfl, rfl, rfl, rfl, rfl, rfl, rfl, ?_⟩
  rintro m2 ⟨h1, h2, h3, h4, h5, h6, h7⟩
  refine ⟨?_, ?_, ?_⟩
  · simp only [slot_radiation, h1, h2]
  · simp only [leaf_air_space, h3, h4, h5]
  · simp only [pass_energy_balance, solve_leaf_energy_balance, leaf_conductances, leaf_rnet,
      h3, h4, h5, h6, h7]

/-- The first slot of the dusk scenario is sunlit. -/
theorem dusk_first_slot_sunlit :
    sunlit_slot sample_collaborators dusk_met sample_params
      (canopy_entry sample_collaborators dusk_control sample_fluxes () sample_locals) := by
  simp [sunlit_slot, slot_radiation, sample_collaborators, stub_collaborators, dusk_met,
    canopy_entry, dusk_control, sample_control]
  norm_num

/-- The first slot of the dusk scenario completes. -/
theorem dusk_first_slot_ok :
    (canopy_slot sample_constants sample_collaborators dusk_met sample_params sample_state
      (canopy_entry sample_collaborators dusk_control sample_fluxes ()
        sample_locals)).1 = status.ok := by
  have h := stub_leaves_ok sample_constants (1 / 2) sample_absorbed (2 / 10) 15 (1 / 1000)
    (by norm_num) dusk_met sample_params sample_state
    (slot_sunlit_setup sample_constants sample_collaborators sample_params sample_state
      (slot_radiation sample_collaborators dusk_met sample_params
        (canopy_entry sample_collaborators dusk_control sample_fluxes () sample_locals)))
    (by
      unfold slot_sunlit_setup slot_ncontent
      split_ifs <;> rfl)
    (by
      unfold slot_sunlit_setup slot_ncontent
      split_ifs <;> decide)
  exact (canopy_slot_sunlit_ok sample_constants sample_collaborators dusk_met
    sample_params sample_state _ dusk_first_slot_sunlit).mpr h

/-- The second slot of the dusk scenario is dark. -/
theorem dusk_second_slot_dark :
    ¬ sunlit_slot sample_collaborators dusk_met sample_params
      (next_slot (canopy_slot sample_constants sample_collaborators dusk_met sample_params
        sample_state
        (canopy_entry sample_collaborators dusk_control sample_fluxes ()
          sample_locals)).2) := by
  obtain ⟨b1, _⟩ := canopy_slot_frame sample_constants sample_collaborators dusk_met
    sample_params sample_state
    (canopy_entry sample_collaborators dusk_control sample_fluxes () sample_locals)
  have hc : (next_slot (canopy_slot sample_constants sample_collaborators dusk_met
      sample_params sample_state
      (canopy_entry sample_collaborators dusk_control sample_fluxes ()
        sample_locals)).2).c.hrly_idx = 1 := by
    simp only [next_slot]
    rw [b1]
    rfl
  rw [sunlit_slot_iff_at, hc]
  rintro ⟨_, h⟩
  simp [dusk_met] at h
  norm_num at h

/-- The run of the dusk scenario completes. -/
theorem dusk_run_ok :
    (canopy sample_constants sample_collaborators dusk_control sample_fluxes dusk_met
      sample_params sample_state () sample_locals).1 = status.ok := by
  have e : canopy sample_constants sample_collaborators dusk_control sample_fluxes dusk_met
      sample_params sample_state () sample_locals =
      canopy_hod_loop sample_constants sample_collaborators dusk_met sample_params
        sample_state 2
        (canopy_entry sample_collaborators dusk_control sample_fluxes () sample_locals) :=
    rfl
  rw [e]
  simp only [canopy_hod_loop]
  rw [if_pos dusk_first_slot_ok,
    if_pos (canopy_slot_dark_apar sample_constants sample_collaborators dusk_met
      sample_params sample_state _ dusk_second_slot_dark).1]

/-! ## Lemmas on the arithmetic of `double` -/

/-- A rational within less than a half of an integer rounds to it. -/
theorem round_half_even_near (x : ℚ) (n : ℤ) (h : |x - n| < 1 / 2) :
    round_half_even x = n := by
  obtain ⟨h1, h2⟩ := abs_lt.mp h
  have f1 : (⌊x⌋ : ℚ) ≤ x := Int.floor_le x
  have f2 : x < ⌊x⌋ + 1 := Int.lt_floor_add_one x
  by_cases hx : (n : ℚ) ≤ x
  · have hfl : ⌊x⌋ = n := by
      rw [Int.floor_eq_iff]
      constructor
      · exact hx
      · linarith
    unfold round_half_even
    rw [hfl, if_pos (by linarith)]
  · have hfl : ⌊x⌋ = n - 1 := by
      rw [Int.floor_eq_iff]
      push_cast
      constructor <;> linarith
    unfold round_half_even
    rw [hfl]
    push_cast
    rw [if_neg (by linarith), if_pos (by linarith)]
    ring

/-- The binade of a rational. -/
theorem int_log_two_binade (q : ℚ) (e : ℤ) (h1 : (2 : ℚ) ^ e ≤ |q|)
    (h2 : |q| < (2 : ℚ) ^ (e + 1)) : Int.log 2 |q| = e := by
  have hpos : (0 : ℚ) < |q| := lt_of_lt_of_le (by positivity) h1
  apply le_antisymm
  · have := (Int.lt_zpow_iff_log_lt (R := ℚ) (b := 2) (by norm_num) (x := e + 1) hpos).mp
      (by exact_mod_cast h2)
    omega
  · exact (Int.zpow_le_iff_le_log (R := ℚ) (b := 2) (by norm_num) hpos).mp
      (by exact_mod_cast h1)

/-- The nearest `double` of a rational `q` in the binade `2^e <= |q| < 2^(e+1)`
of the normal range, when `q` is within less than half a unit in the last
place of `n * 2^(e-52)`. -/
theorem round_double_near (q : ℚ) (e n : ℤ) (he : -1022 ≤ e) (h1 : (2 : ℚ) ^ e ≤ |q|)
    (h2 : |q| < (2 : ℚ) ^ (e + 1)) (hn : |q / 2 ^ (e - 52) - n| < 1 / 2) :
    round_double q = n * 2 ^ (e - 52) := by
  unfold round_double
  rw [int_log_two_binade q e h1 h2, max_eq_left he, round_half_even_near _ n hn]

theorem round_double_zero : round_double 0 = 0 := by
  simp [round_double, round_half_even]

/-- In exact arithmetic the generic update is the update of the embedding. -/
theorem update_daily_carbon_fluxes_in_exact (K : constants) (f : fluxes) (p : params)
    (acanopy total_apar : ℚ) :
    update_daily_carbon_fluxes_in exact_arith K f p acanopy total_apar =
      update_daily_carbon_fluxes K f p acanopy total_apar :=
  rfl

theorem daily_updates_in_exact (K : constants) (p : params) (f : fluxes)
    (l : List (ℚ × ℚ)) :
    daily_updates_in exact_arith K p f l = daily_updates K p f l :=
  rfl

/-- A rational halfway between two integers rounds to the even one. -/
theorem round_half_even_tie (x : ℚ) (n : ℤ) (h : |x - n| = 1 / 2) (hev : n % 2 = 0) :
    round_half_even x = n := by
  rcases abs_eq (by norm_num : (0 : ℚ) ≤ 1 / 2) |>.mp h with h1 | h1
  · have hfl : ⌊x⌋ = n := by
      rw [Int.floor_eq_iff]
      constructor <;> linarith
    unfold round_half_even
    rw [hfl, if_neg (by linarith), if_neg (by linarith), if_pos hev]
  · have hfl : ⌊x⌋ = n - 1 := by
      rw [Int.floor_eq_iff]
      push_cast
      constructor <;> linarith
    have hodd : ¬ (n - 1) % 2 = 0 := by omega
    unfold round_half_even
    rw [hfl]
    push_cast
    rw [if_neg (by linarith), if_neg (by linarith), if_neg hodd]
    ring

/-- The nearest `double` of a rational `q` in the binade `2^e <= |q| < 2^(e+1)`
of the normal range that lies halfway between two `double`s, the one with the
even significand being `n * 2^(e-52)`. -/
theorem round_double_tie (q : ℚ) (e n : ℤ) (he : -1022 ≤ e) (h1 : (2 : ℚ) ^ e ≤ |q|)
    (h2 : |q| < (2 : ℚ) ^ (e + 1)) (hn : |q / 2 ^ (e - 52) - n| = 1 / 2)
    (hev : n % 2 = 0) :
    round_double q = n * 2 ^ (e - 52) := by
  unfold round_double
  rw [int_log_two_binade q e h1 h2, max_eq_left he, round_half_even_tie _ n hn hev]

/-- In exact arithmetic the fluxes of lines 150-158 are those of the embedding. -/
theorem slot_sunlit_fluxes_in_exact {W : Type} (K : constants) (E : collaborators W)
    (m : met) (p : params) (s : state) (Y : world W) :
    slot_sunlit_fluxes_in exact_arith K p Y = (slot_sunlit_finish K E m p s Y).f :=
  rfl

/-- The scenario's slot with the LAI pair as `double`s: the leaf loop completes
and leaves assimilation 15 for both leaves, the LAI pair of the collaborator
and the zeroed accumulator. -/
theorem double_scenario_leaves_spec :
    sunlit_slot double_collaborators sample_met sample_params
        (canopy_entry double_collaborators sample_control sample_fluxes ()
          sample_locals) ∧
      (canopy_slot sample_constants double_collaborators sample_met sample_params
        sample_state
        (canopy_entry double_collaborators sample_control sample_fluxes ()
          sample_locals)).1 = status.ok ∧
      double_scenario_leaves.L.anleaf SUNLIT = 15 ∧
      double_scenario_leaves.L.anleaf SHADED = 15 ∧
      double_scenario_leaves.L.sunlit_lai = round_double (12 / 10) ∧
      double_scenario_leaves.L.shaded_lai = round_double (8 / 10) ∧
      double_scenario_leaves.f.gpp_gCm2 = 0 := by
  have hsun : sunlit_slot double_collaborators sample_met sample_params
      (canopy_entry double_collaborators sample_control sample_fluxes ()
        sample_locals) := by
    simp [sunlit_slot, slot_radiation, double_collaborators, stub_collaborators, sample_met]
    norm_num
  have hl := stub_leaves_ok sample_constants (1 / 2) double_absorbed (2 / 10) 15 (1 / 1000)
    (by norm_num) sample_met sample_params sample_state
    (slot_sunlit_setup sample_constants double_collaborators sample_params sample_state
      (slot_radiation double_collaborators sample_met sample_params
        (canopy_entry double_collaborators sample_control sample_fluxes () sample_locals)))
    (by
      unfold slot_sunlit_setup slot_ncontent
      split_ifs <;> rfl)
    (by
      unfold slot_sunlit_setup slot_ncontent
      split_ifs <;> decide)
  have hl2 : (canopy_leaves sample_constants double_collaborators sample_met sample_params
      sample_state
      (slot_sunlit_setup sample_constants double_collaborators sample_params sample_state
        (slot_radiation double_collaborators sample_met sample_params
          (canopy_entry double_collaborators sample_control sample_fluxes ()
            sample_locals)))).1 = status.ok := hl
  obtain ⟨a0, a1, f0, _⟩ := canopy_leaves_constant_model sample_constants
    double_collaborators sample_met sample_params sample_state _ (2 / 10) 15
    (fun _ _ _ _ _ _ _ _ => rfl) hl2
  obtain ⟨_, _, l0, l1⟩ := canopy_leaves_last_pass sample_constants double_collaborators
    sample_met sample_params sample_state _ hl2
  obtain ⟨e0, e1, _, _, _, f1, _⟩ := slot_sunlit_setup_absorbed sample_constants
    double_collaborators sample_params sample_state
    (slot_radiation double_collaborators sample_met sample_params
      (canopy_entry double_collaborators sample_control sample_fluxes () sample_locals))
  refine ⟨hsun, (canopy_slot_sunlit_ok sample_constants double_collaborators sample_met
    sample_params sample_state _ hsun).mpr hl2, a0, a1, ?_, ?_, ?_⟩
  · exact l0.trans e0
  · exact l1.trans e1
  · have t := congrArg (fun g : fluxes => g.gpp_gCm2) (f0.trans f1)
    exact t

/-- A sequence of updates in the arithmetic `R` accumulates the converted
assimilation values and the APAR values in the order of the calls. -/
theorem daily_updates_in_folds (R : arith) (K : constants) (p : params)
    (l : List (ℚ × ℚ)) :
    ∀ f : fluxes,
      (daily_updates_in R K p f l).gpp_gCm2 =
          l.foldl (fun g x =>
            R.add g (R.mul (R.mul (R.mul x.1 (R.lit (1 / 1000000))) (R.lit 12))
              (R.lit 1800))) f.gpp_gCm2 ∧
        (daily_updates_in R K p f l).apar = l.foldl (fun a x => R.add a x.2) f.apar := by
  induction l with
  | nil =>
    intro f
    exact ⟨rfl, rfl⟩
  | cons x t ih =>
    intro f
    have h := ih (update_daily_carbon_fluxes_in R K f p x.1 x.2)
    simp only [daily_updates_in, List.foldl_cons] at h ⊢
    exact h

/-! ## C1: scaling of the leaf fluxes to the canopy -/

/-- C1: in a sunlit slot that completes without a fatal error, the sunlit and
shaded LAI are the pair returned by the absorbed-radiation collaborator, the
per-leaf `gsc`, `anleaf` and `leaf_trans` are the values left by the last pass
of each leaf's stability loop, `acanopy`, `gsc_canopy` and `trans_canopy` are
their LAI-weighted sums, and these `acanopy` and `trans_canopy` are what is
handed to the daily-carbon-flux update and to the water balance. -/
theorem canopy_slot_weighted_sums {W : Type} (K : constants) (E : collaborators W)
    (m : met) (p : params) (s : state) (X : world W) (hsun : sunlit_slot E m p X)
    (hok : (canopy_slot K E m p s X).1 = status.ok) :
    (canopy_slot K E m p s X).2.L.sunlit_lai =
        (E.calculate_absorbed_radiation p s (slot_radiation E m p X).L.par
          (slot_radiation E m p X).L.diffuse_frac (slot_radiation E m p X).L.elevation
          (slot_radiation E m p X).L.cos_zenith).sunlit_lai ∧
      (canopy_slot K E m p s X).2.L.shaded_lai =
        (E.calculate_absorbed_radiation p s (slot_radiation E m p X).L.par
          (slot_radiation E m p X).L.diffuse_frac (slot_radiation E m p X).L.elevation
          (slot_radiation E m p X).L.cos_zenith).shaded_lai ∧
      last_pass SUNLIT (canopy_slot K E m p s X).2.trace =
        some ((canopy_slot K E m p s X).2.L.gsc SUNLIT,
          (canopy_slot K E m p s X).2.L.anleaf SUNLIT,
          (canopy_slot K E m p s X).2.L.leaf_trans SUNLIT) ∧
      last_pass SHADED (canopy_slot K E m p s X).2.trace =
        some ((canopy_slot K E m p s X).2.L.gsc SHADED,
          (canopy_slot K E m p s X).2.L.anleaf SHADED,
          (canopy_slot K E m p s X).2.L.leaf_trans SHADED) ∧
      (canopy_slot K E m p s X).2.L.acanopy =
        (canopy_slot K E m p s X).2.L.sunlit_lai *
            (canopy_slot K E m p s X).2.L.anleaf SUNLIT +
          (canopy_slot K E m p s X).2.L.shaded_lai *
            (canopy_slot K E m p s X).2.L.anleaf SHADED ∧
      (canopy_slot K E m p s X).2.L.gsc_canopy =
        (canopy_slot K E m p s X).2.L.sunlit_lai *
            (canopy_slot K E m p s X).2.L.gsc SUNLIT +
          (canopy_slot K E m p s X).2.L.shaded_lai *
            (canopy_slot K E m p s X).2.L.gsc SHADED ∧
      (canopy_slot K E m p s X).2.L.trans_canopy =
        (canopy_slot K E m p s X).2.L.sunlit_lai *
            (canopy_slot K E m p s X).2.L.leaf_trans SUNLIT +
          (canopy_slot K E m p s X).2.L.shaded_lai *
            (canopy_slot K E m p s X).2.L.leaf_trans SHADED ∧
      ∃ tr : List event, (canopy_slot K E m p s X).2.trace =
        tr ++ [event.update_daily_carbon_fluxes (canopy_slot K E m p s X).2.L.acanopy
            (canopy_slot K E m p s X).2.L.total_apar,
          event.calculate_sub_daily_water_balance
            (canopy_slot K E m p s X).2.L.total_rnet
            (canopy_slot K E m p s X).2.L.trans_canopy] := by
  have hl := (canopy_slot_sunlit_ok K E m p s X hsun).mp hok
  obtain ⟨a0, a1, l0, l1⟩ := canopy_leaves_last_pass K E m p s _ hl
  obtain ⟨e0, e1, _⟩ := slot_sunlit_setup_absorbed K E p s (slot_radiation E m p X)
  rw [canopy_slot_sunlit_world K E m p s X hsun hok]
  refine ⟨l0.trans e0, l1.trans e1, ?_, ?_, rfl, rfl, rfl, _, rfl⟩
  · simpa only [slot_sunlit_finish, last_pass_append_updates, SUNLIT] using a0
  · simpa only [slot_sunlit_finish, last_pass_append_updates, SHADED] using a1

/-- C1 at the scenario: the slot is sunlit and completes, and the canopy
values are the LAI-weighted sums. -/
theorem canopy_slot_weighted_sums_witness :
    sunlit_slot sample_collaborators sample_met sample_params sample_world ∧
      (canopy_slot sample_constants sample_collaborators sample_met sample_params
        sample_state sample_world).1 = status.ok ∧
      (canopy_slot sample_constants sample_collaborators sample_met sample_params
        sample_state sample_world).2.L.acanopy =
        (canopy_slot sample_constants sample_collaborators sample_met sample_params
          sample_state sample_world).2.L.sunlit_lai *
            (canopy_slot sample_constants sample_collaborators sample_met sample_params
              sample_state sample_world).2.L.anleaf SUNLIT +
          (canopy_slot sample_constants sample_collaborators sample_met sample_params
            sample_state sample_world).2.L.shaded_lai *
            (canopy_slot sample_constants sample_collaborators sample_met sample_params
              sample_state sample_world).2.L.anleaf SHADED :=
  ⟨sample_slot_sunlit, sample_slot_ok,
    (canopy_slot_weighted_sums sample_constants sample_collaborators sample_met
      sample_params sample_state sample_world sample_slot_sunlit
      sample_slot_ok).2.2.2.2.1⟩

/-! ## C2: the cap and the two leaf classes -/

/-- C2 fails on the code: under the warming stub with `N = 50` each leaf's
stability loop, taken on its own, ends normally on its 51st pass, yet the
fresh call of `canopy()` on the scenario's single slot raises the
non-convergence fatal error, because `iter` is carried over from the sunlit
leaf's loop into the shaded leaf's. -/
theorem independent_loops_run_aborts :
    (stability_loop sample_constants (warming_collaborators 50) sample_met sample_params
        sample_state
        (first_loop_entry sample_constants (warming_collaborators 50) sample_met
          sample_params sample_state
          (slot_start sample_constants (warming_collaborators 50) sample_control
            sample_fluxes sample_met sample_params sample_state () sample_locals 0))).1 =
        status.ok ∧
      photosynthesis_calls
        (stability_loop sample_constants (warming_collaborators 50) sample_met
          sample_params sample_state
          (first_loop_entry sample_constants (warming_collaborators 50) sample_met
            sample_params sample_state
            (slot_start sample_constants (warming_collaborators 50) sample_control
              sample_fluxes sample_met sample_params sample_state () sample_locals
              0))).2.trace = 51 ∧
      (stability_loop sample_constants (warming_collaborators 50) sample_met sample_params
        sample_state
        (reset_iter (second_loop_entry sample_constants (warming_collaborators 50)
          sample_met sample_params sample_state
          (slot_start sample_constants (warming_collaborators 50) sample_control
            sample_fluxes sample_met sample_params sample_state () sample_locals 0)))).1 =
        status.ok ∧
      photosynthesis_calls
        (stability_loop sample_constants (warming_collaborators 50) sample_met
          sample_params sample_state
          (reset_iter (second_loop_entry sample_constants (warming_collaborators 50)
            sample_met sample_params sample_state
            (slot_start sample_constants (warming_collaborators 50) sample_control
              sample_fluxes sample_met sample_params sample_state () sample_locals
              0)))).2.trace =
        photosynthesis_calls
          (second_loop_entry sample_constants (warming_collaborators 50) sample_met
            sample_params sample_state
            (slot_start sample_constants (warming_collaborators 50) sample_control
              sample_fluxes sample_met sample_params sample_state () sample_locals
              0)).trace + 51 ∧
      (canopy sample_constants (warming_collaborators 50) sample_control sample_fluxes
        sample_met sample_params sample_state () sample_locals).1 =
        status.no_convergence := by
  obtain ⟨p1, _, p3, p4⟩ := warming_50_second_entry
  obtain ⟨r1, r2, r3, r4, r5⟩ := reset_iter_frame
    (second_loop_entry sample_constants (warming_collaborators 50) sample_met
      sample_params sample_state
      (slot_start sample_constants (warming_collaborators 50) sample_control
        sample_fluxes sample_met sample_params sample_state () sample_locals 0))
  have ht := r3.trans (warming_entry_tleaf 50 sample_state
    (slot_start sample_constants (warming_collaborators 50) sample_control
      sample_fluxes sample_met sample_params sample_state () sample_locals 0)).2
  have h2 := stability_loop_converges_after sample_constants (warming_collaborators 50)
    sample_met sample_params sample_state 50
    (reset_iter (second_loop_entry sample_constants (warming_collaborators 50)
      sample_met sample_params sample_state
      (slot_start sample_constants (warming_collaborators 50) sample_control
        sample_fluxes sample_met sample_params sample_state () sample_locals 0)))
    (by rw [r1]; exact p1)
    (by rw [r4, r5, p3]; decide)
    (fun j hj => ⟨warming_assimilates _ _ _,
      warming_not_converged 50 sample_state _ ht j hj⟩)
    (warming_assimilates _ _ _)
    (warming_converged 50 sample_state _ ht)
  obtain ⟨_, _, _, _, _, _, _, g8, _⟩ := full_pass_iterate_frame sample_constants
    (warming_collaborators 50) sample_met sample_params sample_state 50
    (reset_iter (second_loop_entry sample_constants (warming_collaborators 50)
      sample_met sample_params sample_state
      (slot_start sample_constants (warming_collaborators 50) sample_control
        sample_fluxes sample_met sample_params sample_state () sample_locals 0)))
  obtain ⟨l1, _⟩ := last_pass_calls sample_constants (warming_collaborators 50)
    sample_met sample_params sample_state
    ((full_pass sample_constants (warming_collaborators 50) sample_met sample_params
      sample_state)^[50]
      (reset_iter (second_loop_entry sample_constants (warming_collaborators 50)
        sample_met sample_params sample_state
        (slot_start sample_constants (warming_collaborators 50) sample_control
          sample_fluxes sample_met sample_params sample_state () sample_locals 0))))
  refine ⟨by rw [warming_50_first_loop], ?_, by rw [h2], ?_, by rw [warming_50_run]⟩
  · rw [← (second_loop_entry_frame sample_constants (warming_collaborators 50) sample_met
      sample_params sample_state
      (slot_start sample_constants (warming_collaborators 50) sample_control
        sample_fluxes sample_met sample_params sample_state () sample_locals 0)).2.1]
    exact p4
  · have hadd : ∀ a b : Nat, a = b → a + 50 + 1 = b + 51 := fun a b h => by omega
    rw [h2]
    dsimp only [nth_pass]
    rw [l1, g8]
    exact hadd _ _ (congrArg photosynthesis_calls r2)

/-! ## C3: the abort at the cap -/

/-- C3 fails as stated: under the warming stub with `N = 1000` every pass of
the sunlit leaf's loop assimilates and moves the leaf temperature by one
degree, and the fresh call aborts after 101 calls of the photosynthesis model
and 101 calls of the energy-balance solver, not 100. -/
theorem forced_run_takes_101_passes :
    (∀ j : Nat, j ≤ 100 →
      pass_assimilates (warming_collaborators 1000) sample_params sample_state
        (nth_pass sample_constants (warming_collaborators 1000) sample_met sample_params
          sample_state
          (first_loop_entry sample_constants (warming_collaborators 1000) sample_met
            sample_params sample_state
            (slot_start sample_constants (warming_collaborators 1000) sample_control
              sample_fluxes sample_met sample_params sample_state () sample_locals 0)) j) ∧
      ¬ pass_converged sample_constants (warming_collaborators 1000) sample_met
        sample_params sample_state
        (nth_pass sample_constants (warming_collaborators 1000) sample_met sample_params
          sample_state
          (first_loop_entry sample_constants (warming_collaborators 1000) sample_met
            sample_params sample_state
            (slot_start sample_constants (warming_collaborators 1000) sample_control
              sample_fluxes sample_met sample_params sample_state () sample_locals 0)) j)) ∧
      (canopy sample_constants (warming_collaborators 1000) sample_control sample_fluxes
        sample_met sample_params sample_state () sample_locals).1 =
        status.no_convergence ∧
      photosynthesis_calls (canopy sample_constants (warming_collaborators 1000)
        sample_control sample_fluxes sample_met sample_params sample_state ()
        sample_locals).2.trace = 101 ∧
      energy_balance_calls (canopy sample_constants (warming_collaborators 1000)
        sample_control sample_fluxes sample_met sample_params sample_state ()
        sample_locals).2.trace = 101 := by
  have hf : ∀ j : Nat, j ≤ 100 →
      pass_assimilates (warming_collaborators 1000) sample_params sample_state
        (nth_pass sample_constants (warming_collaborators 1000) sample_met sample_params
          sample_state
          (first_loop_entry sample_constants (warming_collaborators 1000) sample_met
            sample_params sample_state
            (slot_start sample_constants (warming_collaborators 1000) sample_control
              sample_fluxes sample_met sample_params sample_state () sample_locals 0)) j) ∧
      ¬ pass_converged sample_constants (warming_collaborators 1000) sample_met
        sample_params sample_state
        (nth_pass sample_constants (warming_collaborators 1000) sample_met sample_params
          sample_state
          (first_loop_entry sample_constants (warming_collaborators 1000) sample_met
            sample_params sample_state
            (slot_start sample_constants (warming_collaborators 1000) sample_control
              sample_fluxes sample_met sample_params sample_state () sample_locals 0)) j) :=
    fun j hj => ⟨warming_assimilates _ _ _,
      warming_not_converged 1000 sample_state _ (warming_entry_tleaf _ _ _).1 j (by omega)⟩
  obtain ⟨h1, h2, h3, _⟩ := canopy_first_loop_forced sample_constants
    (warming_collaborators 1000) sample_control sample_fluxes sample_met sample_params
    sample_state () sample_locals 0 rfl (by decide) (fun j hj => absurd hj (by omega))
    (warming_sunlit _ _ _) (fun j hj => hf j (le_of_lt hj)) (hf 100 (le_refl _)).1
  exact ⟨hf, h1, h2, h3⟩

/-- C3, amended: in a fresh call of `canopy()` on the C3 pathway whose first
sunlit slot is slot `k`, if every pass of the sunlit leaf's stability loop in
that slot returns positive assimilation and a new leaf temperature with
`|tleaf - new_tleaf| >= 0.02`, the call aborts with the non-convergence fatal
error when `iter` has reached the cap of 100, which is on the 101st pass: the
photosynthesis model and the energy-balance solver have each been invoked
exactly 101 times. -/
theorem canopy_forced_non_convergence {W : Type} (K : constants) (E : collaborators W)
    (c : control) (f : fluxes) (m : met) (p : params) (s : state) (water : W)
    (u : locals) (k : Nat) (hps : c.ps_pathway = K.C3) (hk : k < c.num_hlf_hrs.toNat)
    (hdark : ∀ j : Nat, j < k → ¬ sunlit_at E m p (c.hrly_idx + j) j)
    (hsun : sunlit_at E m p (c.hrly_idx + k) k)
    (hforce : ∀ j : Nat, j ≤ 100 →
      pass_assimilates E p s (nth_pass K E m p s
        (first_loop_entry K E m p s (slot_start K E c f m p s water u k)) j) ∧
      ¬ pass_converged K E m p s (nth_pass K E m p s
        (first_loop_entry K E m p s (slot_start K E c f m p s water u k)) j)) :
    (canopy K E c f m p s water u).1 = status.no_convergence ∧
      photosynthesis_calls (canopy K E c f m p s water u).2.trace = 101 ∧
      energy_balance_calls (canopy K E c f m p s water u).2.trace = 101 ∧
      (canopy K E c f m p s water u).2.L.iter = 100 ∧
      (canopy K E c f m p s water u).2.L.itermax = 100 :=
  canopy_first_loop_forced K E c f m p s water u k hps hk hdark hsun
    (fun j hj => hforce j (le_of_lt hj)) (hforce 100 (le_refl _)).1

/-- C3, amended, under the warming stub with `N = 200`: the hypotheses hold
for the scenario's single slot and the call ends in the fatal error. -/
theorem canopy_forced_non_convergence_witness :
    sample_control.ps_pathway = sample_constants.C3 ∧
      0 < sample_control.num_hlf_hrs.toNat ∧
      sunlit_at (warming_collaborators 200) sample_met sample_params
        (sample_control.hrly_idx + (0 : Nat)) (0 : Nat) ∧
      (canopy sample_constants (warming_collaborators 200) sample_control sample_fluxes
        sample_met sample_params sample_state () sample_locals).1 =
        status.no_convergence :=
  ⟨rfl, by decide, warming_sunlit _ _ _,
    (canopy_forced_non_convergence sample_constants (warming_collaborators 200)
      sample_control sample_fluxes sample_met sample_params sample_state () sample_locals 0
      rfl (by decide) (fun j hj => absurd hj (by omega)) (warming_sunlit _ _ _)
      (fun j hj => ⟨warming_assimilates _ _ _,
        warming_not_converged 200 sample_state _ (warming_entry_tleaf _ _ _).1 j
          (by omega)⟩)).1⟩

/-! ## C4: convergence and the cap -/

/-- C4 fails as stated: in the fresh call of the scenario under the warming
stub with `N = 50` the run ends in the non-convergence fatal error on a pass
with positive assimilation that has converged (`|tleaf - new_tleaf| < 0.02`). -/
theorem converged_pass_raises_fatal_error :
    (canopy sample_constants (warming_collaborators 50) sample_control sample_fluxes
        sample_met sample_params sample_state () sample_locals).1 =
        status.no_convergence ∧
      0 < (canopy sample_constants (warming_collaborators 50) sample_control sample_fluxes
        sample_met sample_params sample_state () sample_locals).2.L.anleaf
          (canopy sample_constants (warming_collaborators 50) sample_control sample_fluxes
            sample_met sample_params sample_state () sample_locals).2.L.ileaf ∧
      |(canopy sample_constants (warming_collaborators 50) sample_control sample_fluxes
          sample_met sample_params sample_state () sample_locals).2.L.tleaf -
        (canopy sample_constants (warming_collaborators 50) sample_control sample_fluxes
          sample_met sample_params sample_state () sample_locals).2.L.new_tleaf| <
        2 / 100 := by
  obtain ⟨_, t2, t3, t4, t5⟩ := last_pass_state sample_constants
    (warming_collaborators 50) sample_met sample_params sample_state
    (nth_pass sample_constants (warming_collaborators 50) sample_met sample_params
      sample_state
      (second_loop_entry sample_constants (warming_collaborators 50) sample_met
        sample_params sample_state
        (slot_start sample_constants (warming_collaborators 50) sample_control
          sample_fluxes sample_met sample_params sample_state () sample_locals 0)) 50)
  have hc := warming_converged 50 sample_state
    (second_loop_entry sample_constants (warming_collaborators 50) sample_met
      sample_params sample_state
      (slot_start sample_constants (warming_collaborators 50) sample_control
        sample_fluxes sample_met sample_params sample_state () sample_locals 0))
    (warming_entry_tleaf _ _ _).2
  rw [warming_50_run]
  dsimp only
  rw [t2, t3, t4, t5]
  refine ⟨rfl, ?_, hc⟩
  show (0 : ℚ) < 15
  norm_num

/-- C4, amended: on a pass with positive assimilation, `iter >= itermax` raises
the non-convergence fatal error whether or not the pass has converged; with
`iter < itermax` and `|tleaf - new_tleaf| < 0.02` the loop stops as converged
and keeps the results of the pass; and whenever the loop ends in the fatal
error, `iter` has reached `itermax`. -/
theorem stability_loop_convergence {W : Type} (K : constants) (E : collaborators W)
    (m : met) (p : params) (s : state) (X : world W) (hps : X.c.ps_pathway = K.C3)
    (ha : 0 < (E.photosynthesis_C3 X.c p s (X.L.ncontent X.L.ileaf) X.L.tleaf
      (X.L.apar X.L.ileaf) X.L.Cs X.L.dleaf).2) :
    (X.L.itermax ≤ X.L.iter →
        stability_loop K E m p s X =
          (status.no_convergence,
            pass_energy_balance K E m p s (pass_photosynthesis E p s X))) ∧
      (X.L.iter < X.L.itermax →
        |X.L.tleaf - (solve_leaf_energy_balance K E X.c X.f m p s X.L.tleaf
          (E.photosynthesis_C3 X.c p s (X.L.ncontent X.L.ileaf) X.L.tleaf
            (X.L.apar X.L.ileaf) X.L.Cs X.L.dleaf).1
          (E.photosynthesis_C3 X.c p s (X.L.ncontent X.L.ileaf) X.L.tleaf
            (X.L.apar X.L.ileaf) X.L.Cs X.L.dleaf).2 (X.L.apar X.L.ileaf)).new_tleaf| <
            2 / 100 →
        stability_loop K E m p s X =
          (status.ok, pass_energy_balance K E m p s (pass_photosynthesis E p s X))) ∧
      ((stability_loop K E m p s X).1 = status.no_convergence →
        (stability_loop K E m p s X).2.L.itermax ≤ (stability_loop K E m p s X).2.L.iter) := by
  refine ⟨fun hi => ?_, fun hi hc => ?_, stability_loop_fatal_at_cap K E m p s X⟩
  · apply stability_loop_cap K E m p s X hps
    · simpa [pass_photosynthesis, assign] using ha
    · simpa [pass_energy_balance, pass_photosynthesis] using hi
  · exact stability_loop_pass_converges K E m p s X hps hi ha hc

/-- C4, amended, at the scenario with `iter` at the maximum. -/
theorem stability_loop_convergence_witness :
    sample_world_at_cap.c.ps_pathway = sample_constants.C3 ∧
      0 < (sample_collaborators.photosynthesis_C3 sample_world_at_cap.c sample_params
        sample_state (sample_world_at_cap.L.ncontent sample_world_at_cap.L.ileaf)
        sample_world_at_cap.L.tleaf
        (sample_world_at_cap.L.apar sample_world_at_cap.L.ileaf)
        sample_world_at_cap.L.Cs sample_world_at_cap.L.dleaf).2 ∧
      stability_loop sample_constants sample_collaborators sample_met sample_params
          sample_state sample_world_at_cap =
        (status.no_convergence,
          pass_energy_balance sample_constants sample_collaborators sample_met
            sample_params sample_state
            (pass_photosynthesis sample_collaborators sample_params sample_state
              sample_world_at_cap)) :=
  ⟨rfl, by simp [sample_collaborators, stub_collaborators],
    (stability_loop_convergence sample_constants sample_collaborators sample_met
      sample_params sample_state sample_world_at_cap rfl
      (by simp [sample_collaborators, stub_collaborators])).1 (le_refl _)⟩

/-! ## C5: the dark branch -/

/-- C6: a pass of the stability loop on which the photosynthesis model returns
assimilation `<= 0` ends the loop normally whatever `iter` and `itermax` are;
the leaf's transpiration is 0, its conductance and assimilation are the values
that call returned, and the pass records that call only (the energy-balance
solver is not invoked). -/
theorem stability_loop_no_assimilation {W : Type} (K : constants) (E : collaborators W)
    (m : met) (p : params) (s : state) (X : world W) (hps : X.c.ps_pathway = K.C3)
    (ha : (E.photosynthesis_C3 X.c p s (X.L.ncontent X.L.ileaf) X.L.tleaf
      (X.L.apar X.L.ileaf) X.L.Cs X.L.dleaf).2 ≤ 0) :
    (stability_loop K E m p s X).1 = status.ok ∧
      (stability_loop K E m p s X).2.L.leaf_trans X.L.ileaf = 0 ∧
      (stability_loop K E m p s X).2.L.gsc X.L.ileaf =
        (E.photosynthesis_C3 X.c p s (X.L.ncontent X.L.ileaf) X.L.tleaf
          (X.L.apar X.L.ileaf) X.L.Cs X.L.dleaf).1 ∧
      (stability_loop K E m p s X).2.L.anleaf X.L.ileaf =
        (E.photosynthesis_C3 X.c p s (X.L.ncontent X.L.ileaf) X.L.tleaf
          (X.L.apar X.L.ileaf) X.L.Cs X.L.dleaf).2 ∧
      (stability_loop K E m p s X).2.trace =
        X.trace ++ [event.photosynthesis_C3 X.L.ileaf (X.L.ncontent X.L.ileaf) X.L.tleaf
          (X.L.apar X.L.ileaf) X.L.Cs X.L.dleaf
          (E.photosynthesis_C3 X.c p s (X.L.ncontent X.L.ileaf) X.L.tleaf
            (X.L.apar X.L.ileaf) X.L.Cs X.L.dleaf).1
          (E.photosynthesis_C3 X.c p s (X.L.ncontent X.L.ileaf) X.L.tleaf
            (X.L.apar X.L.ileaf) X.L.Cs X.L.dleaf).2] ∧
      energy_balance_calls (stability_loop K E m p s X).2.trace =
        energy_balance_calls X.trace ∧
      (stability_loop K E m p s X).2.L.iter = X.L.iter := by
  have ha2 : ¬ 0 < (pass_photosynthesis E p s X).L.anleaf X.L.ileaf := by
    simpa [pass_photosynthesis, assign] using ha
  rw [stability_loop_stop K E m p s X hps ha2]
  simp [pass_no_transpiration, pass_photosynthesis, assign, energy_balance_calls,
    List.countP_append, List.countP_cons, event.isEnergyBalance]

/-- C6 with `iter` already at the maximum: a stub model without assimilation
ends the loop normally. -/
theorem stability_loop_no_assimilation_witness :
    sample_world_at_cap.L.iter = sample_world_at_cap.L.itermax ∧
      (stability_loop sample_constants
        (stub_collaborators (1 / 2) sample_absorbed (2 / 10) 0 (1 / 1000)) sample_met
        sample_params sample_state sample_world_at_cap).1 = status.ok :=
  ⟨rfl,
    (stability_loop_no_assimilation sample_constants
      (stub_collaborators (1 / 2) sample_absorbed (2 / 10) 0 (1 / 1000)) sample_met
      sample_params sample_state sample_world_at_cap rfl
      (by simp [stub_collaborators])).1⟩

/-! ## C7: the C4 pathway -/

/-- C7 fails as stated: with the C4 pathway requested and a single dark slot,
`canopy()` returns normally. -/
theorem canopy_C4_dark_run_returns :
    ({ sample_control with ps_pathway := 1 } : control).ps_pathway ≠ sample_constants.C3 ∧
      (canopy sample_constants
        (stub_collaborators (-1 / 10) sample_absorbed (2 / 10) 15 (1 / 1000))
        { sample_control with ps_pathway := 1 } sample_fluxes sample_met sample_params
        sample_state () sample_locals).1 = status.ok := by
  refine ⟨by decide, ?_⟩
  exact (canopy_hod_loop_dark sample_constants
    (stub_collaborators (-1 / 10) sample_absorbed (2 / 10) 15 (1 / 1000)) sample_met
    sample_params sample_state 1 _ (by
      intro j _
      simp [sunlit_at, stub_collaborators])).1

/-- C7, amended: with a pathway other than C3 the stability loop raises the
C4 fatal error at once and writes nothing; a run of `canopy()` with a sunlit
slot ends in that error, a run without one returns normally; and in either
case neither the photosynthesis model nor the energy-balance solver is invoked
and `anleaf`, `gsc` and `leaf_trans` are never written. -/
theorem canopy_C4_pathway {W : Type} (K : constants) (E : collaborators W) (c : control)
    (f : fluxes) (m : met) (p : params) (s : state) (water : W) (u : locals)
    (hps : c.ps_pathway ≠ K.C3) :
    (∀ X : world W, X.c.ps_pathway ≠ K.C3 →
        stability_loop K E m p s X = (status.C4_not_implemented, X)) ∧
      ((∃ k : Nat, k < c.num_hlf_hrs.toNat ∧ sunlit_at E m p (c.hrly_idx + k) k) →
        (canopy K E c f m p s water u).1 = status.C4_not_implemented) ∧
      ((∀ k : Nat, k < c.num_hlf_hrs.toNat → ¬ sunlit_at E m p (c.hrly_idx + k) k) →
        (canopy K E c f m p s water u).1 = status.ok) ∧
      photosynthesis_calls (canopy K E c f m p s water u).2.trace = 0 ∧
      energy_balance_calls (canopy K E c f m p s water u).2.trace = 0 ∧
      (canopy K E c f m p s water u).2.L.anleaf = u.anleaf ∧
      (canopy K E c f m p s water u).2.L.gsc = u.gsc ∧
      (canopy K E c f m p s water u).2.L.leaf_trans = u.leaf_trans := by
  classical
  have hz : ∀ j : Nat, (canopy_entry E c f water u).L.hod + (j : Int) = (j : Int) := by
    intro j
    simp [canopy_entry]
  have key : ∀ k : Nat, k < c.num_hlf_hrs.toNat →
      (∀ j : Nat, j < k → ¬ sunlit_at E m p (c.hrly_idx + j) j) →
      sunlit_at E m p (c.hrly_idx + k) k →
      canopy K E c f m p s water u =
        (status.C4_not_implemented,
          first_loop_entry K E m p s
            (canopy_hod_loop K E m p s k (canopy_entry E c f water u)).2) := by
    intro k hk hd hs
    have hd2 : ∀ j : Nat, j < k →
        ¬ sunlit_at E m p ((canopy_entry E c f water u).c.hrly_idx + j)
          ((canopy_entry E c f water u).L.hod + j) := by
      intro j hj
      rw [hz j]
      exact hd j hj
    obtain ⟨_, i2, i3, i4, _⟩ := canopy_hod_loop_dark K E m p s k _ hd2
    have hsun : sunlit_slot E m p
        (canopy_hod_loop K E m p s k (canopy_entry E c f water u)).2 := by
      rw [sunlit_slot_iff_at, i3, i4, hz k]
      exact hs
    have hl := stability_loop_C4 K E m p s
      (first_loop_entry K E m p s
        (canopy_hod_loop K E m p s k (canopy_entry E c f water u)).2) (by
        rw [(first_loop_entry_frame K E m p s _).1, i2]
        exact hps)
    have hslot := canopy_slot_first_loop_fatal K E m p s _ hsun (by
      rw [hl]
      exact fun h => status.noConfusion h)
    unfold canopy
    rw [canopy_hod_loop_first_fatal K E m p s _ k hk _ hd2 (by
      rw [hslot, hl]
      exact fun h => status.noConfusion h), hslot, hl]
  have dark : (∀ k : Nat, k < c.num_hlf_hrs.toNat → ¬ sunlit_at E m p (c.hrly_idx + k) k) →
      (canopy K E c f m p s water u).1 = status.ok ∧
        photosynthesis_calls (canopy K E c f m p s water u).2.trace = 0 ∧
        energy_balance_calls (canopy K E c f m p s water u).2.trace = 0 ∧
        (canopy K E c f m p s water u).2.L.anleaf = u.anleaf ∧
        (canopy K E c f m p s water u).2.L.gsc = u.gsc ∧
        (canopy K E c f m p s water u).2.L.leaf_trans = u.leaf_trans := by
    intro hd
    obtain ⟨i1, _, _, _, _, _, i7, i8, i9, i10, i11⟩ :=
      canopy_hod_loop_dark K E m p s c.num_hlf_hrs.toNat (canopy_entry E c f water u) (by
        intro j hj
        rw [hz j]
        exact hd j hj)
    exact ⟨i1, i10, i11, i7, i8, i9⟩
  have sun : (∃ k : Nat, k < c.num_hlf_hrs.toNat ∧ sunlit_at E m p (c.hrly_idx + k) k) →
      (canopy K E c f m p s water u).1 = status.C4_not_implemented ∧
        photosynthesis_calls (canopy K E c f m p s water u).2.trace = 0 ∧
        energy_balance_calls (canopy K E c f m p s water u).2.trace = 0 ∧
        (canopy K E c f m p s water u).2.L.anleaf = u.anleaf ∧
        (canopy K E c f m p s water u).2.L.gsc = u.gsc ∧
        (canopy K E c f m p s water u).2.L.leaf_trans = u.leaf_trans := by
    intro hex
    have hk := Nat.find_spec hex
    have hmin : ∀ j : Nat, j < Nat.find hex → ¬ sunlit_at E m p (c.hrly_idx + j) j := by
      intro j hj hs
      exact Nat.find_min hex hj ⟨lt_trans hj hk.1, hs⟩
    have hd2 : ∀ j : Nat, j < Nat.find hex →
        ¬ sunlit_at E m p ((canopy_entry E c f water u).c.hrly_idx + j)
          ((canopy_entry E c f water u).L.hod + j) := by
      intro j hj
      rw [hz j]
      exact hmin j hj
    obtain ⟨_, _, _, _, _, _, i7, i8, i9, i10, i11⟩ :=
      canopy_hod_loop_dark K E m p s (Nat.find hex) (canopy_entry E c f water u) hd2
    obtain ⟨_, _, e3, _, _, e6, e7, e8, _⟩ := first_loop_entry_frame K E m p s
      (canopy_hod_loop K E m p s (Nat.find hex) (canopy_entry E c f water u)).2
    rw [key (Nat.find hex) hk.1 hmin hk.2]
    refine ⟨rfl, ?_, ?_, ?_, ?_, ?_⟩
    · show photosynthesis_calls (first_loop_entry K E m p s _).trace = 0
      rw [e3, i10]
      rfl
    · show energy_balance_calls (first_loop_entry K E m p s _).trace = 0
      rw [e3, i11]
      rfl
    · exact e6.trans i7
    · exact e7.trans i8
    · exact e8.trans i9
  refine ⟨fun X hX => stability_loop_C4 K E m p s X hX, fun h => (sun h).1,
    fun h => (dark h).1, ?_, ?_, ?_, ?_, ?_⟩
  all_goals
    by_cases hex : ∃ k : Nat, k < c.num_hlf_hrs.toNat ∧ sunlit_at E m p (c.hrly_idx + k) k
    · first
        | exact (sun hex).2.1
        | exact (sun hex).2.2.1
        | exact (sun hex).2.2.2.1
        | exact (sun hex).2.2.2.2.1
        | exact (sun hex).2.2.2.2.2
    · have hd : ∀ k : Nat, k < c.num_hlf_hrs.toNat →
          ¬ sunlit_at E m p (c.hrly_idx + k) k := by
        intro k hk hs
        exact hex ⟨k, hk, hs⟩
      first
        | exact (dark hd).2.1
        | exact (dark hd).2.2.1
        | exact (dark hd).2.2.2.1
        | exact (dark hd).2.2.2.2.1
        | exact (dark hd).2.2.2.2.2

/-- C7, amended, at the scenario with the C4 pathway requested: the slot is
sunlit and the run ends in the C4 fatal error. -/
theorem canopy_C4_pathway_witness :
    ({ sample_control with ps_pathway := 1 } : control).ps_pathway ≠ sample_constants.C3 ∧
      (canopy sample_constants sample_collaborators
        { sample_control with ps_pathway := 1 } sample_fluxes sample_met sample_params
        sample_state () sample_locals).1 = status.C4_not_implemented :=
  ⟨by decide,
    (canopy_C4_pathway sample_constants sample_collaborators
      { sample_control with ps_pathway := 1 } sample_fluxes sample_met sample_params
      sample_state () sample_locals (by decide)).2.1
      ⟨0, by decide, by
        simp [sunlit_at, sample_collaborators, stub_collaborators, sample_met]
        norm_num⟩⟩

/-! ## C8: the daily carbon fluxes -/

/-- C8 fails in the arithmetic of `double`: with `gpp_gCm2 = 0.1`, `cue = 0.45`
and the factor `0.01`, an update with zero assimilation leaves
`auto_resp = gpp - npp = 0.0005499999999999999`, while `gpp * (1 - cue)` is
`0.00055`; and after zeroing, updates with assimilation 3 and 5 leave
`gpp_gCm2 = 0.17279999999999998`, while one update with `3 + 5 = 8`, and the
conversion factor times the sum, give `0.1728`. -/
theorem daily_carbon_fluxes_in_double_arithmetic :
    (update_daily_carbon_fluxes_in double_arith double_constants double_fluxes
        double_params 0 0).auto_resp = 2536427310135063 / 4611686018427387904 ∧
      double_arith.mul
          (update_daily_carbon_fluxes_in double_arith double_constants double_fluxes
            double_params 0 0).gpp
          (double_arith.sub 1 double_params.cue) =
        5072854620270127 / 9223372036854775808 ∧
      (update_daily_carbon_fluxes_in double_arith double_constants double_fluxes
          double_params 0 0).auto_resp ≠
        double_arith.mul
          (update_daily_carbon_fluxes_in double_arith double_constants double_fluxes
            double_params 0 0).gpp
          (double_arith.sub 1 double_params.cue) ∧
      (daily_updates_in double_arith sample_constants sample_params
        (zero_carbon_day_fluxes sample_fluxes) [(3, 0), (5, 0)]).gpp_gCm2 =
        6225776124876973 / 36028797018963968 ∧
      (daily_updates_in double_arith sample_constants sample_params
        (zero_carbon_day_fluxes sample_fluxes) [(8, 0)]).gpp_gCm2 =
        3112888062438487 / 18014398509481984 ∧
      double_arith.mul
          (double_arith.mul
            (double_arith.mul (double_arith.lit (1 / 1000000)) (double_arith.lit 12))
            (double_arith.lit 1800))
          (double_arith.add 3 5) =
        3112888062438487 / 18014398509481984 := by
  have a1 : round_double (1 / 10) =
      3602879701896397 / 36028797018963968 := by
    rw [round_double_near (1 / 10)
      (-4) 7205759403792794 (by norm_num) (by norm_num [abs_of_pos])
      (by norm_num [abs_of_pos]) (by norm_num [abs_lt])]
    norm_num
  have a2 : round_double (45 / 100) =
      8106479329266893 / 18014398509481984 := by
    rw [round_double_near (45 / 100)
      (-2) 8106479329266893 (by norm_num) (by norm_num [abs_of_pos])
      (by norm_num [abs_of_pos]) (by norm_num [abs_lt])]
    norm_num
  have a3 : round_double (1 / 100) =
      5764607523034235 / 576460752303423488 := by
    rw [round_double_near (1 / 100)
      (-7) 5764607523034235 (by norm_num) (by norm_num [abs_of_pos])
      (by norm_num [abs_of_pos]) (by norm_num [abs_lt])]
    norm_num
  have a4 : round_double (3602879701896397 / 36028797018963968) =
      3602879701896397 / 36028797018963968 := by
    rw [round_double_near (3602879701896397 / 36028797018963968)
      (-4) 7205759403792794 (by norm_num) (by norm_num [abs_of_pos])
      (by norm_num [abs_of_pos]) (by norm_num [abs_lt])]
    norm_num
  have a5 : round_double ((3602879701896397 / 36028797018963968) *
        (8106479329266893 / 18014398509481984)) =
      6485183463413515 / 144115188075855872 := by
    rw [round_double_near ((3602879701896397 / 36028797018963968) *
        (8106479329266893 / 18014398509481984))
      (-5) 6485183463413515 (by norm_num) (by norm_num [abs_of_pos])
      (by norm_num [abs_of_pos]) (by norm_num [abs_lt])]
    norm_num
  have a6 : round_double ((3602879701896397 / 36028797018963968) *
        (5764607523034235 / 576460752303423488)) =
      1152921504606847 / 1152921504606846976 := by
    rw [round_double_near ((3602879701896397 / 36028797018963968) *
        (5764607523034235 / 576460752303423488))
      (-10) 4611686018427388 (by norm_num) (by norm_num [abs_of_pos])
      (by norm_num [abs_of_pos]) (by norm_num [abs_lt])]
    norm_num
  have a7 : round_double ((6485183463413515 / 144115188075855872) *
        (5764607523034235 / 576460752303423488)) =
      8301034833169299 / 18446744073709551616 := by
    rw [round_double_near ((6485183463413515 / 144115188075855872) *
        (5764607523034235 / 576460752303423488))
      (-12) 8301034833169299 (by norm_num) (by norm_num [abs_of_pos])
      (by norm_num [abs_of_pos]) (by norm_num [abs_lt])]
    norm_num
  have a8 : round_double ((1152921504606847 / 1152921504606846976) -
        (8301034833169299 / 18446744073709551616)) =
      2536427310135063 / 4611686018427387904 := by
    rw [round_double_tie ((1152921504606847 / 1152921504606846976) -
        (8301034833169299 / 18446744073709551616))
      (-11) 5072854620270126 (by norm_num) (by norm_num [abs_of_pos])
      (by norm_num [abs_of_pos]) (by norm_num [abs_of_pos, abs_of_neg]) (by norm_num)]
    norm_num
  have a9 : round_double (1 - (8106479329266893 / 18014398509481984)) =
      2476979795053773 / 4503599627370496 := by
    rw [round_double_tie (1 - (8106479329266893 / 18014398509481984))
      (-1) 4953959590107546 (by norm_num) (by norm_num [abs_of_pos])
      (by norm_num [abs_of_pos]) (by norm_num [abs_of_pos, abs_of_neg]) (by norm_num)]
    norm_num
  have a10 : round_double ((1152921504606847 / 1152921504606846976) *
        (2476979795053773 / 4503599627370496)) =
      5072854620270127 / 9223372036854775808 := by
    rw [round_double_near ((1152921504606847 / 1152921504606846976) *
        (2476979795053773 / 4503599627370496))
      (-11) 5072854620270127 (by norm_num) (by norm_num [abs_of_pos])
      (by norm_num [abs_of_pos]) (by norm_num [abs_lt])]
    norm_num
  have b1 : round_double (1 / 1000000) =
      4722366482869645 / 4722366482869645213696 := by
    rw [round_double_near (1 / 1000000)
      (-20) 4722366482869645 (by norm_num) (by norm_num [abs_of_pos])
      (by norm_num [abs_of_pos]) (by norm_num [abs_lt])]
    norm_num
  have b2 : round_double (12) =
      12 := by
    rw [round_double_near (12)
      3 6755399441055744 (by norm_num) (by norm_num [abs_of_pos])
      (by norm_num [abs_of_pos]) (by norm_num [abs_lt])]
    norm_num
  have b3 : round_double (1800) =
      1800 := by
    rw [round_double_near (1800)
      10 7916483719987200 (by norm_num) (by norm_num [abs_of_pos])
      (by norm_num [abs_of_pos]) (by norm_num [abs_lt])]
    norm_num
  have b4 : round_double (3 * (4722366482869645 / 4722366482869645213696)) =
      1770887431076117 / 590295810358705651712 := by
    rw [round_double_tie (3 * (4722366482869645 / 4722366482869645213696))
      (-19) 7083549724304468 (by norm_num) (by norm_num [abs_of_pos])
      (by norm_num [abs_of_pos]) (by norm_num [abs_of_pos, abs_of_neg]) (by norm_num)]
    norm_num
  have b5 : round_double ((1770887431076117 / 590295810358705651712) * 12) =
      5312662293228351 / 147573952589676412928 := by
    rw [round_double_near ((1770887431076117 / 590295810358705651712) * 12)
      (-15) 5312662293228351 (by norm_num) (by norm_num [abs_of_pos])
      (by norm_num [abs_of_pos]) (by norm_num [abs_lt])]
    norm_num
  have b6 : round_double ((5312662293228351 / 147573952589676412928) * 1800) =
      2334666046828865 / 36028797018963968 := by
    rw [round_double_near ((5312662293228351 / 147573952589676412928) * 1800)
      (-4) 4669332093657730 (by norm_num) (by norm_num [abs_of_pos])
      (by norm_num [abs_of_pos]) (by norm_num [abs_lt])]
    norm_num
  have b7 : round_double (0 + (2334666046828865 / 36028797018963968)) =
      2334666046828865 / 36028797018963968 := by
    rw [round_double_near (0 + (2334666046828865 / 36028797018963968))
      (-4) 4669332093657730 (by norm_num) (by norm_num [abs_of_pos])
      (by norm_num [abs_of_pos]) (by norm_num [abs_lt])]
    norm_num
  have b8 : round_double (5 * (4722366482869645 / 4722366482869645213696)) =
      368934881474191 / 73786976294838206464 := by
    rw [round_double_near (5 * (4722366482869645 / 4722366482869645213696))
      (-18) 5902958103587056 (by norm_num) (by norm_num [abs_of_pos])
      (by norm_num [abs_of_pos]) (by norm_num [abs_lt])]
    norm_num
  have b9 : round_double ((368934881474191 / 73786976294838206464) * 12) =
      1106804644422573 / 18446744073709551616 := by
    rw [round_double_near ((368934881474191 / 73786976294838206464) * 12)
      (-15) 8854437155380584 (by norm_num) (by norm_num [abs_of_pos])
      (by norm_num [abs_of_pos]) (by norm_num [abs_lt])]
    norm_num
  have b10 : round_double ((1106804644422573 / 18446744073709551616) * 1800) =
      972777519512027 / 9007199254740992 := by
    rw [round_double_near ((1106804644422573 / 18446744073709551616) * 1800)
      (-4) 7782220156096216 (by norm_num) (by norm_num [abs_of_pos])
      (by norm_num [abs_of_pos]) (by norm_num [abs_lt])]
    norm_num
  have b11 : round_double ((2334666046828865 / 36028797018963968) +
        (972777519512027 / 9007199254740992)) =
      6225776124876973 / 36028797018963968 := by
    rw [round_double_near ((2334666046828865 / 36028797018963968) +
        (972777519512027 / 9007199254740992))
      (-3) 6225776124876973 (by norm_num) (by norm_num [abs_of_pos])
      (by norm_num [abs_of_pos]) (by norm_num [abs_lt])]
    norm_num
  have b12 : round_double (8 * (4722366482869645 / 4722366482869645213696)) =
      4722366482869645 / 590295810358705651712 := by
    rw [round_double_near (8 * (4722366482869645 / 4722366482869645213696))
      (-17) 4722366482869645 (by norm_num) (by norm_num [abs_of_pos])
      (by norm_num [abs_of_pos]) (by norm_num [abs_lt])]
    norm_num
  have b13 : round_double ((4722366482869645 / 590295810358705651712) * 12) =
      1770887431076117 / 18446744073709551616 := by
    rw [round_double_tie ((4722366482869645 / 590295810358705651712) * 12)
      (-14) 7083549724304468 (by norm_num) (by norm_num [abs_of_pos])
      (by norm_num [abs_of_pos]) (by norm_num [abs_of_pos, abs_of_neg]) (by norm_num)]
    norm_num
  have b14 : round_double ((1770887431076117 / 18446744073709551616) * 1800) =
      3112888062438487 / 18014398509481984 := by
    rw [round_double_near ((1770887431076117 / 18446744073709551616) * 1800)
      (-3) 6225776124876974 (by norm_num) (by norm_num [abs_of_pos])
      (by norm_num [abs_of_pos]) (by norm_num [abs_lt])]
    norm_num
  have b15 : round_double (0 + (3112888062438487 / 18014398509481984)) =
      3112888062438487 / 18014398509481984 := by
    rw [round_double_near (0 + (3112888062438487 / 18014398509481984))
      (-3) 6225776124876974 (by norm_num) (by norm_num [abs_of_pos])
      (by norm_num [abs_of_pos]) (by norm_num [abs_lt])]
    norm_num
  have b16 : round_double ((4722366482869645 / 4722366482869645213696) * 12) =
      1770887431076117 / 147573952589676412928 := by
    rw [round_double_tie ((4722366482869645 / 4722366482869645213696) * 12)
      (-17) 7083549724304468 (by norm_num) (by norm_num [abs_of_pos])
      (by norm_num [abs_of_pos]) (by norm_num [abs_of_pos, abs_of_neg]) (by norm_num)]
    norm_num
  have b17 : round_double ((1770887431076117 / 147573952589676412928) * 1800) =
      3112888062438487 / 144115188075855872 := by
    rw [round_double_near ((1770887431076117 / 147573952589676412928) * 1800)
      (-6) 6225776124876974 (by norm_num) (by norm_num [abs_of_pos])
      (by norm_num [abs_of_pos]) (by norm_num [abs_lt])]
    norm_num
  have b18 : round_double (3 + 5) =
      8 := by
    rw [round_double_near (3 + 5)
      3 4503599627370496 (by norm_num) (by norm_num [abs_of_pos])
      (by norm_num [abs_of_pos]) (by norm_num [abs_lt])]
    norm_num
  have b19 : round_double ((3112888062438487 / 144115188075855872) * 8) =
      3112888062438487 / 18014398509481984 := by
    rw [round_double_near ((3112888062438487 / 144115188075855872) * 8)
      (-3) 6225776124876974 (by norm_num) (by norm_num [abs_of_pos])
      (by norm_num [abs_of_pos]) (by norm_num [abs_lt])]
    norm_num
  have hz : round_double (round_double (round_double (0 * round_double (1 / 1000000)) *
      round_double 12) * round_double 1800) = 0 := by
    rw [zero_mul, round_double_zero, zero_mul, round_double_zero, zero_mul,
      round_double_zero]
  have h1 : (update_daily_carbon_fluxes_in double_arith double_constants double_fluxes
      double_params 0 0).auto_resp = 2536427310135063 / 4611686018427387904 := by
    simp only [update_daily_carbon_fluxes_in, double_arith, double_constants,
      double_fluxes, double_params, UMOL_TO_MOL, MOL_C_TO_GRAMS_C, SEC_2_HLFHR]
    rw [hz, add_zero, a1, a2, a3, a4, a5, a6, a7, a8]
  have h2 : double_arith.mul
      (update_daily_carbon_fluxes_in double_arith double_constants double_fluxes
        double_params 0 0).gpp
      (double_arith.sub 1 double_params.cue) =
      5072854620270127 / 9223372036854775808 := by
    simp only [update_daily_carbon_fluxes_in, double_arith, double_constants,
      double_fluxes, double_params, UMOL_TO_MOL, MOL_C_TO_GRAMS_C, SEC_2_HLFHR]
    rw [hz, add_zero, a1, a2, a3, a4, a6, a9, a10]
  refine ⟨h1, h2, ?_, ?_, ?_, ?_⟩
  · rw [h1, h2]
    norm_num
  · simp only [daily_updates_in, List.foldl, update_daily_carbon_fluxes_in, double_arith,
      zero_carbon_day_fluxes, UMOL_TO_MOL, MOL_C_TO_GRAMS_C, SEC_2_HLFHR]
    rw [b1, b2, b3, b4, b5, b6, b7, b8, b9, b10, b11]
  · simp only [daily_updates_in, List.foldl, update_daily_carbon_fluxes_in, double_arith,
      zero_carbon_day_fluxes, UMOL_TO_MOL, MOL_C_TO_GRAMS_C, SEC_2_HLFHR]
    rw [b1, b2, b3, b12, b13, b14, b15]
  · simp only [double_arith]
    rw [b1, b2, b3, b16, b17, b18, b19]

/-- C8, amended: in every arithmetic `R`, one update leaves
`gpp_gCm2 + acanopy * 1e-6 * 12 * 1800` in `gpp_gCm2` (the products taken from
the left), `gpp_gCm2 * cue` in `npp_gCm2`, these two times
`GRAM_C_2_TONNES_HA` in `gpp` and `npp`, `gpp - npp` in `auto_resp` and
`apar + total_apar` in `apar`; after zeroing, a sequence of updates leaves in
`gpp_gCm2` the converted assimilation values and in `apar` the `total_apar`
values, each accumulated from 0 in the order of the calls, whatever the
accumulator held before.  In exact arithmetic, which is the update of the
embedding, `auto_resp = gpp * (1 - cue)`, `gpp_gCm2` is the conversion factor
times the sum of the assimilation values and `apar` the sum of the
`total_apar` values. -/
theorem update_daily_carbon_fluxes_spec (R : arith) (K : constants) (p : params)
    (f : fluxes) (acanopy total_apar : ℚ) (l : List (ℚ × ℚ)) :
    (update_daily_carbon_fluxes_in R K f p acanopy total_apar).gpp_gCm2 =
        R.add f.gpp_gCm2
          (R.mul (R.mul (R.mul acanopy (R.lit (1 / 1000000))) (R.lit 12)) (R.lit 1800)) ∧
      (update_daily_carbon_fluxes_in R K f p acanopy total_apar).npp_gCm2 =
        R.mul (update_daily_carbon_fluxes_in R K f p acanopy total_apar).gpp_gCm2 p.cue ∧
      (update_daily_carbon_fluxes_in R K f p acanopy total_apar).gpp =
        R.mul (update_daily_carbon_fluxes_in R K f p acanopy total_apar).gpp_gCm2
          K.GRAM_C_2_TONNES_HA ∧
      (update_daily_carbon_fluxes_in R K f p acanopy total_apar).npp =
        R.mul (update_daily_carbon_fluxes_in R K f p acanopy total_apar).npp_gCm2
          K.GRAM_C_2_TONNES_HA ∧
      (update_daily_carbon_fluxes_in R K f p acanopy total_apar).auto_resp =
        R.sub (update_daily_carbon_fluxes_in R K f p acanopy total_apar).gpp
          (update_daily_carbon_fluxes_in R K f p acanopy total_apar).npp ∧
      (update_daily_carbon_fluxes_in R K f p acanopy total_apar).apar =
        R.add f.apar total_apar ∧
      (daily_updates_in R K p (zero_carbon_day_fluxes f) l).gpp_gCm2 =
        l.foldl (fun g x =>
          R.add g (R.mul (R.mul (R.mul x.1 (R.lit (1 / 1000000))) (R.lit 12))
            (R.lit 1800))) 0 ∧
      (daily_updates_in R K p (zero_carbon_day_fluxes f) l).apar =
        l.foldl (fun a x => R.add a x.2) 0 ∧
      update_daily_carbon_fluxes_in exact_arith K f p acanopy total_apar =
        update_daily_carbon_fluxes K f p acanopy total_apar ∧
      daily_updates_in exact_arith K p f l = daily_updates K p f l ∧
      (update_daily_carbon_fluxes K f p acanopy total_apar).gpp_gCm2 =
        f.gpp_gCm2 + acanopy * UMOL_TO_MOL * MOL_C_TO_GRAMS_C * SEC_2_HLFHR ∧
      (update_daily_carbon_fluxes K f p acanopy total_apar).gpp_gCm2 =
        f.gpp_gCm2 + acanopy * (1 / 1000000) * 12 * 1800 ∧
      (update_daily_carbon_fluxes K f p acanopy total_apar).npp_gCm2 =
        (update_daily_carbon_fluxes K f p acanopy total_apar).gpp_gCm2 * p.cue ∧
      (update_daily_carbon_fluxes K f p acanopy total_apar).gpp =
        (update_daily_carbon_fluxes K f p acanopy total_apar).gpp_gCm2 *
          K.GRAM_C_2_TONNES_HA ∧
      (update_daily_carbon_fluxes K f p acanopy total_apar).npp =
        (update_daily_carbon_fluxes K f p acanopy total_apar).npp_gCm2 *
          K.GRAM_C_2_TONNES_HA ∧
      (update_daily_carbon_fluxes K f p acanopy total_apar).auto_resp =
        (update_daily_carbon_fluxes K f p acanopy total_apar).gpp -
          (update_daily_carbon_fluxes K f p acanopy total_apar).npp ∧
      (update_daily_carbon_fluxes K f p acanopy total_apar).auto_resp =
        (update_daily_carbon_fluxes K f p acanopy total_apar).gpp * (1 - p.cue) ∧
      (update_daily_carbon_fluxes K f p acanopy total_apar).apar = f.apar + total_apar ∧
      (daily_updates K p (zero_carbon_day_fluxes f) l).gpp_gCm2 =
        1 / 1000000 * 12 * 1800 * (l.map Prod.fst).sum ∧
      (daily_updates K p (zero_carbon_day_fluxes f) l).apar = (l.map Prod.snd).sum := by
  have h := daily_updates_sums K p l (zero_carbon_day_fluxes f)
  have hf := daily_updates_in_folds R K p l (zero_carbon_day_fluxes f)
  refine ⟨rfl, rfl, rfl, rfl, rfl, rfl, hf.1, hf.2, rfl, rfl, rfl, ?_, rfl, rfl, rfl, rfl, ?_,
    rfl, ?_, ?_⟩
  · simp only [update_daily_carbon_fluxes, UMOL_TO_MOL, MOL_C_TO_GRAMS_C, SEC_2_HLFHR]
  · simp only [update_daily_carbon_fluxes]
    ring
  · rw [h.1]
    simp [zero_carbon_day_fluxes]
  · rw [h.2]
    simp [zero_carbon_day_fluxes]

/-! ## C9: gross primary production of one sunlit slot -/

/-- C9 fails in the arithmetic of `double`: in the spec's scenario (`par = 500`,
elevation `0.5`, `A = 15`, sunlit LAI `1.2`, shaded LAI `0.8` as `double`s) the
slot is sunlit and completes, and lines 150-158 leave
`gpp_gCm2 = 0.6479999999999999`, the `double` just below the one nearest to
`0.648`; and the increase is not `A * (sunlit_lai + shaded_lai)` converted:
with LAI `0.1` and `0.2` the code's `sunlit_lai * A + shaded_lai * A` is `4.5`
and gives `0.0972`, while `A * (sunlit_lai + shaded_lai)` is
`4.500000000000001` and gives `0.09720000000000002`. -/
theorem scenario_gpp_in_double_arithmetic :
    sunlit_slot double_collaborators sample_met sample_params
        (canopy_entry double_collaborators sample_control sample_fluxes ()
          sample_locals) ∧
      (canopy_slot sample_constants double_collaborators sample_met sample_params
        sample_state
        (canopy_entry double_collaborators sample_control sample_fluxes ()
          sample_locals)).1 = status.ok ∧
      (slot_sunlit_fluxes_in double_arith sample_constants sample_params
        double_scenario_leaves).gpp_gCm2 = 2918332558536081 / 4503599627370496 ∧
      round_double (648 / 1000) = 5836665117072163 / 9007199254740992 ∧
      (slot_sunlit_fluxes_in double_arith sample_constants sample_params
        double_scenario_leaves).gpp_gCm2 ≠ round_double (648 / 1000) ∧
      (slot_sunlit_fluxes_in double_arith sample_constants sample_params
        double_scenario_leaves).gpp_gCm2 < 648 / 1000 ∧
      (update_daily_carbon_fluxes_in double_arith sample_constants
        (zero_carbon_day_fluxes sample_fluxes) sample_params
        (scale_to_canopy_in double_arith (round_double (1 / 10)) (round_double (2 / 10))
          15 15) 0).gpp_gCm2 = 7003998140486595 / 72057594037927936 ∧
      (update_daily_carbon_fluxes_in double_arith sample_constants
        (zero_carbon_day_fluxes sample_fluxes) sample_params
        (double_arith.mul 15
          (double_arith.add (round_double (1 / 10)) (round_double (2 / 10)))) 0).gpp_gCm2 =
        7003998140486597 / 72057594037927936 := by
  obtain ⟨hsun, hok, a0, a1, l0, l1, g0⟩ := double_scenario_leaves_spec
  have c1 : round_double (12 / 10) =
      5404319552844595 / 4503599627370496 := by
    rw [round_double_near (12 / 10)
      0 5404319552844595 (by norm_num) (by norm_num [abs_of_pos])
      (by norm_num [abs_of_pos]) (by norm_num [abs_lt])]
    norm_num
  have c2 : round_double (8 / 10) =
      3602879701896397 / 4503599627370496 := by
    rw [round_double_near (8 / 10)
      (-1) 7205759403792794 (by norm_num) (by norm_num [abs_of_pos])
      (by norm_num [abs_of_pos]) (by norm_num [abs_lt])]
    norm_num
  have c3 : round_double (1 / 1000000) =
      4722366482869645 / 4722366482869645213696 := by
    rw [round_double_near (1 / 1000000)
      (-20) 4722366482869645 (by norm_num) (by norm_num [abs_of_pos])
      (by norm_num [abs_of_pos]) (by norm_num [abs_lt])]
    norm_num
  have c4 : round_double (12) =
      12 := by
    rw [round_double_near (12)
      3 6755399441055744 (by norm_num) (by norm_num [abs_of_pos])
      (by norm_num [abs_of_pos]) (by norm_num [abs_lt])]
    norm_num
  have c5 : round_double (1800) =
      1800 := by
    rw [round_double_near (1800)
      10 7916483719987200 (by norm_num) (by norm_num [abs_of_pos])
      (by norm_num [abs_of_pos]) (by norm_num [abs_lt])]
    norm_num
  have c6 : round_double ((5404319552844595 / 4503599627370496) * 15) =
      18 := by
    rw [round_double_near ((5404319552844595 / 4503599627370496) * 15)
      4 5066549580791808 (by norm_num) (by norm_num [abs_of_pos])
      (by norm_num [abs_of_pos]) (by norm_num [abs_lt])]
    norm_num
  have c7 : round_double ((3602879701896397 / 4503599627370496) * 15) =
      12 := by
    rw [round_double_near ((3602879701896397 / 4503599627370496) * 15)
      3 6755399441055744 (by norm_num) (by norm_num [abs_of_pos])
      (by norm_num [abs_of_pos]) (by norm_num [abs_lt])]
    norm_num
  have c8 : round_double (18 + 12) =
      30 := by
    rw [round_double_near (18 + 12)
      4 8444249301319680 (by norm_num) (by norm_num [abs_of_pos])
      (by norm_num [abs_of_pos]) (by norm_num [abs_lt])]
    norm_num
  have c9 : round_double (30 * (4722366482869645 / 4722366482869645213696)) =
      1106804644422573 / 36893488147419103232 := by
    rw [round_double_near (30 * (4722366482869645 / 4722366482869645213696))
      (-16) 8854437155380584 (by norm_num) (by norm_num [abs_of_pos])
      (by norm_num [abs_of_pos]) (by norm_num [abs_lt])]
    norm_num
  have c10 : round_double ((1106804644422573 / 36893488147419103232) * 12) =
      3320413933267719 / 9223372036854775808 := by
    rw [round_double_near ((1106804644422573 / 36893488147419103232) * 12)
      (-12) 6640827866535438 (by norm_num) (by norm_num [abs_of_pos])
      (by norm_num [abs_of_pos]) (by norm_num [abs_lt])]
    norm_num
  have c11 : round_double ((3320413933267719 / 9223372036854775808) * 1800) =
      2918332558536081 / 4503599627370496 := by
    rw [round_double_near ((3320413933267719 / 9223372036854775808) * 1800)
      (-1) 5836665117072162 (by norm_num) (by norm_num [abs_of_pos])
      (by norm_num [abs_of_pos]) (by norm_num [abs_lt])]
    norm_num
  have c12 : round_double (0 + (2918332558536081 / 4503599627370496)) =
      2918332558536081 / 4503599627370496 := by
    rw [round_double_near (0 + (2918332558536081 / 4503599627370496))
      (-1) 5836665117072162 (by norm_num) (by norm_num [abs_of_pos])
      (by norm_num [abs_of_pos]) (by norm_num [abs_lt])]
    norm_num
  have c13 : round_double (648 / 1000) =
      5836665117072163 / 9007199254740992 := by
    rw [round_double_near (648 / 1000)
      (-1) 5836665117072163 (by norm_num) (by norm_num [abs_of_pos])
      (by norm_num [abs_of_pos]) (by norm_num [abs_lt])]
    norm_num
  have d1 : round_double (1 / 10) =
      3602879701896397 / 36028797018963968 := by
    rw [round_double_near (1 / 10)
      (-4) 7205759403792794 (by norm_num) (by norm_num [abs_of_pos])
      (by norm_num [abs_of_pos]) (by norm_num [abs_lt])]
    norm_num
  have d2 : round_double (2 / 10) =
      3602879701896397 / 18014398509481984 := by
    rw [round_double_near (2 / 10)
      (-3) 7205759403792794 (by norm_num) (by norm_num [abs_of_pos])
      (by norm_num [abs_of_pos]) (by norm_num [abs_lt])]
    norm_num
  have d3 : round_double (1 / 1000000) =
      4722366482869645 / 4722366482869645213696 := by
    rw [round_double_near (1 / 1000000)
      (-20) 4722366482869645 (by norm_num) (by norm_num [abs_of_pos])
      (by norm_num [abs_of_pos]) (by norm_num [abs_lt])]
    norm_num
  have d4 : round_double (12) =
      12 := by
    rw [round_double_near (12)
      3 6755399441055744 (by norm_num) (by norm_num [abs_of_pos])
      (by norm_num [abs_of_pos]) (by norm_num [abs_lt])]
    norm_num
  have d5 : round_double (1800) =
      1800 := by
    rw [round_double_near (1800)
      10 7916483719987200 (by norm_num) (by norm_num [abs_of_pos])
      (by norm_num [abs_of_pos]) (by norm_num [abs_lt])]
    norm_num
  have d6 : round_double ((3602879701896397 / 36028797018963968) * 15) =
      3 / 2 := by
    rw [round_double_near ((3602879701896397 / 36028797018963968) * 15)
      0 6755399441055744 (by norm_num) (by norm_num [abs_of_pos])
      (by norm_num [abs_of_pos]) (by norm_num [abs_lt])]
    norm_num
  have d7 : round_double ((3602879701896397 / 18014398509481984) * 15) =
      3 := by
    rw [round_double_near ((3602879701896397 / 18014398509481984) * 15)
      1 6755399441055744 (by norm_num) (by norm_num [abs_of_pos])
      (by norm_num [abs_of_pos]) (by norm_num [abs_lt])]
    norm_num
  have d8 : round_double ((3 / 2) + 3) =
      9 / 2 := by
    rw [round_double_near ((3 / 2) + 3)
      2 5066549580791808 (by norm_num) (by norm_num [abs_of_pos])
      (by norm_num [abs_of_pos]) (by norm_num [abs_lt])]
    norm_num
  have d9 : round_double ((9 / 2) * (4722366482869645 / 4722366482869645213696)) =
      5312662293228351 / 1180591620717411303424 := by
    rw [round_double_near ((9 / 2) * (4722366482869645 / 4722366482869645213696))
      (-18) 5312662293228351 (by norm_num) (by norm_num [abs_of_pos])
      (by norm_num [abs_of_pos]) (by norm_num [abs_lt])]
    norm_num
  have d10 : round_double ((5312662293228351 / 1180591620717411303424) * 12) =
      3984496719921263 / 73786976294838206464 := by
    rw [round_double_tie ((5312662293228351 / 1180591620717411303424) * 12)
      (-15) 7968993439842526 (by norm_num) (by norm_num [abs_of_pos])
      (by norm_num [abs_of_pos]) (by norm_num [abs_of_pos, abs_of_neg]) (by norm_num)]
    norm_num
  have d11 : round_double ((3984496719921263 / 73786976294838206464) * 1800) =
      7003998140486595 / 72057594037927936 := by
    rw [round_double_near ((3984496719921263 / 73786976294838206464) * 1800)
      (-4) 7003998140486595 (by norm_num) (by norm_num [abs_of_pos])
      (by norm_num [abs_of_pos]) (by norm_num [abs_lt])]
    norm_num
  have d12 : round_double (0 + (7003998140486595 / 72057594037927936)) =
      7003998140486595 / 72057594037927936 := by
    rw [round_double_near (0 + (7003998140486595 / 72057594037927936))
      (-4) 7003998140486595 (by norm_num) (by norm_num [abs_of_pos])
      (by norm_num [abs_of_pos]) (by norm_num [abs_lt])]
    norm_num
  have d13 : round_double ((3602879701896397 / 36028797018963968) +
        (3602879701896397 / 18014398509481984)) =
      1351079888211149 / 4503599627370496 := by
    rw [round_double_tie ((3602879701896397 / 36028797018963968) +
        (3602879701896397 / 18014398509481984))
      (-2) 5404319552844596 (by norm_num) (by norm_num [abs_of_pos])
      (by norm_num [abs_of_pos]) (by norm_num [abs_of_pos, abs_of_neg]) (by norm_num)]
    norm_num
  have d14 : round_double (15 * (1351079888211149 / 4503599627370496)) =
      5066549580791809 / 1125899906842624 := by
    rw [round_double_near (15 * (1351079888211149 / 4503599627370496))
      2 5066549580791809 (by norm_num) (by norm_num [abs_of_pos])
      (by norm_num [abs_of_pos]) (by norm_num [abs_lt])]
    norm_num
  have d15 : round_double ((5066549580791809 / 1125899906842624) *
        (4722366482869645 / 4722366482869645213696)) =
      83010348331693 / 18446744073709551616 := by
    rw [round_double_near ((5066549580791809 / 1125899906842624) *
        (4722366482869645 / 4722366482869645213696))
      (-18) 5312662293228352 (by norm_num) (by norm_num [abs_of_pos])
      (by norm_num [abs_of_pos]) (by norm_num [abs_lt])]
    norm_num
  have d16 : round_double ((83010348331693 / 18446744073709551616) * 12) =
      249031044995079 / 4611686018427387904 := by
    rw [round_double_near ((83010348331693 / 18446744073709551616) * 12)
      (-15) 7968993439842528 (by norm_num) (by norm_num [abs_of_pos])
      (by norm_num [abs_of_pos]) (by norm_num [abs_lt])]
    norm_num
  have d17 : round_double ((249031044995079 / 4611686018427387904) * 1800) =
      7003998140486597 / 72057594037927936 := by
    rw [round_double_near ((249031044995079 / 4611686018427387904) * 1800)
      (-4) 7003998140486597 (by norm_num) (by norm_num [abs_of_pos])
      (by norm_num [abs_of_pos]) (by norm_num [abs_lt])]
    norm_num
  have d18 : round_double (0 + (7003998140486597 / 72057594037927936)) =
      7003998140486597 / 72057594037927936 := by
    rw [round_double_near (0 + (7003998140486597 / 72057594037927936))
      (-4) 7003998140486597 (by norm_num) (by norm_num [abs_of_pos])
      (by norm_num [abs_of_pos]) (by norm_num [abs_lt])]
    norm_num
  have hscen : (slot_sunlit_fluxes_in double_arith sample_constants sample_params
      double_scenario_leaves).gpp_gCm2 = 2918332558536081 / 4503599627370496 := by
    simp only [slot_sunlit_fluxes_in, scale_to_canopy_in, update_daily_carbon_fluxes_in,
      double_arith, UMOL_TO_MOL, MOL_C_TO_GRAMS_C, SEC_2_HLFHR]
    rw [a0, a1, l0, l1, g0, c1, c2, c3, c4, c5, c6, c7, c8, c9, c10, c11, c12]
  refine ⟨hsun, hok, hscen, c13, ?_, ?_, ?_, ?_⟩
  · rw [hscen, c13]
    norm_num
  · rw [hscen]
    norm_num
  · simp only [scale_to_canopy_in, update_daily_carbon_fluxes_in, double_arith,
      zero_carbon_day_fluxes, UMOL_TO_MOL, MOL_C_TO_GRAMS_C, SEC_2_HLFHR]
    rw [d1, d2, d3, d4, d5, d6, d7, d8, d9, d10, d11, d12]
  · simp only [update_daily_carbon_fluxes_in, double_arith, zero_carbon_day_fluxes,
      UMOL_TO_MOL, MOL_C_TO_GRAMS_C, SEC_2_HLFHR]
    rw [d1, d2, d3, d4, d5, d13, d14, d15, d16, d17, d18]

/-- C9, amended: in a sunlit slot that completes without a fatal error, with a
photosynthesis model returning the same fixed conductance `g` and assimilation
`A` for both leaf classes, the leaf loop leaves `anleaf = A` for both leaves,
the LAI pair of the absorbed-radiation collaborator and the accumulators
untouched, so that in every arithmetic `R` lines 150-158 leave
`gpp_gCm2 + (sunlit_lai * A + shaded_lai * A) * 1e-6 * 12 * 1800`, the
operations taken in this order.  In exact arithmetic this is what the slot of
the embedding computes, an increase by exactly
`A * (sunlit_lai + shaded_lai) * 1e-6 * 12 * 1800`. -/
theorem canopy_slot_gpp_constant_model {W : Type} (K : constants) (E : collaborators W)
    (m : met) (p : params) (s : state) (X : world W) (g A : ℚ) (R : arith)
    (hsun : sunlit_slot E m p X)
    (hE : ∀ c p s n t a cs d, E.photosynthesis_C3 c p s n t a cs d = (g, A))
    (hok : (canopy_slot K E m p s X).1 = status.ok) :
    (canopy_leaves K E m p s
        (slot_sunlit_setup K E p s (slot_radiation E m p X))).2.L.anleaf SUNLIT = A ∧
      (canopy_leaves K E m p s
        (slot_sunlit_setup K E p s (slot_radiation E m p X))).2.L.anleaf SHADED = A ∧
      (canopy_leaves K E m p s
        (slot_sunlit_setup K E p s (slot_radiation E m p X))).2.L.sunlit_lai =
        (absorbed_at E m p s X.c.hrly_idx X.L.hod).sunlit_lai ∧
      (canopy_leaves K E m p s
        (slot_sunlit_setup K E p s (slot_radiation E m p X))).2.L.shaded_lai =
        (absorbed_at E m p s X.c.hrly_idx X.L.hod).shaded_lai ∧
      (canopy_leaves K E m p s
        (slot_sunlit_setup K E p s (slot_radiation E m p X))).2.f = X.f ∧
      (slot_sunlit_fluxes_in R K p
        (canopy_leaves K E m p s
          (slot_sunlit_setup K E p s (slot_radiation E m p X))).2).gpp_gCm2 =
        R.add X.f.gpp_gCm2
          (R.mul
            (R.mul
              (R.mul
                (R.add (R.mul (absorbed_at E m p s X.c.hrly_idx X.L.hod).sunlit_lai A)
                  (R.mul (absorbed_at E m p s X.c.hrly_idx X.L.hod).shaded_lai A))
                (R.lit (1 / 1000000)))
              (R.lit 12))
            (R.lit 1800)) ∧
      (canopy_slot K E m p s X).2.f =
        slot_sunlit_fluxes_in exact_arith K p
          (canopy_leaves K E m p s
            (slot_sunlit_setup K E p s (slot_radiation E m p X))).2 ∧
      (canopy_slot K E m p s X).2.f.gpp_gCm2 =
        X.f.gpp_gCm2 +
          ((absorbed_at E m p s X.c.hrly_idx X.L.hod).sunlit_lai * A +
            (absorbed_at E m p s X.c.hrly_idx X.L.hod).shaded_lai * A) *
            (1 / 1000000) * 12 * 1800 ∧
      (canopy_slot K E m p s X).2.f.gpp_gCm2 =
        X.f.gpp_gCm2 +
          A * ((absorbed_at E m p s X.c.hrly_idx X.L.hod).sunlit_lai +
            (absorbed_at E m p s X.c.hrly_idx X.L.hod).shaded_lai) *
            (1 / 1000000) * 12 * 1800 := by
  have hl := (canopy_slot_sunlit_ok K E m p s X hsun).mp hok
  obtain ⟨a0, a1, f0, _⟩ := canopy_leaves_constant_model K E m p s _ g A hE hl
  obtain ⟨_, _, l0, l1⟩ := canopy_leaves_last_pass K E m p s _ hl
  obtain ⟨_, _, b3, _, _, _, _, _, b9, b10⟩ := slot_sunlit_setup_frame K E m p s X
  have l0b := l0.trans b9
  have l1b := l1.trans b10
  have f0b := f0.trans b3
  have hw := canopy_slot_sunlit_world K E m p s X hsun hok
  have a0s : (canopy_leaves K E m p s
      (slot_sunlit_setup K E p s (slot_radiation E m p X))).2.L.anleaf SUNLIT = A := a0
  have a1s : (canopy_leaves K E m p s
      (slot_sunlit_setup K E p s (slot_radiation E m p X))).2.L.anleaf SHADED = A := a1
  have hR : ∀ R : arith,
      (slot_sunlit_fluxes_in R K p
        (canopy_leaves K E m p s
          (slot_sunlit_setup K E p s (slot_radiation E m p X))).2).gpp_gCm2 =
        R.add X.f.gpp_gCm2
          (R.mul
            (R.mul
              (R.mul
                (R.add (R.mul (absorbed_at E m p s X.c.hrly_idx X.L.hod).sunlit_lai A)
                  (R.mul (absorbed_at E m p s X.c.hrly_idx X.L.hod).shaded_lai A))
                (R.lit (1 / 1000000)))
              (R.lit 12))
            (R.lit 1800)) := by
    intro R
    simp only [slot_sunlit_fluxes_in, scale_to_canopy_in, update_daily_carbon_fluxes_in,
      UMOL_TO_MOL, MOL_C_TO_GRAMS_C, SEC_2_HLFHR]
    rw [a0s, a1s, l0b, l1b, f0b]
  have hx : (canopy_slot K E m p s X).2.f =
      slot_sunlit_fluxes_in exact_arith K p
        (canopy_leaves K E m p s
          (slot_sunlit_setup K E p s (slot_radiation E m p X))).2 := by
    rw [hw]
    rfl
  have hq : (canopy_slot K E m p s X).2.f.gpp_gCm2 =
      X.f.gpp_gCm2 +
        ((absorbed_at E m p s X.c.hrly_idx X.L.hod).sunlit_lai * A +
          (absorbed_at E m p s X.c.hrly_idx X.L.hod).shaded_lai * A) *
          (1 / 1000000) * 12 * 1800 := by
    rw [hx, hR exact_arith]
    rfl
  refine ⟨a0, a1, l0b, l1b, f0b, hR R, hx, hq, ?_⟩
  rw [hq]
  ring

/-- C9, amended, at the scenario of the spec (`par = 500`, elevation `0.5`,
`A = 15`, sunlit LAI `1.2`, shaded LAI `0.8`) in exact arithmetic: the slot is
sunlit and completes, and `gpp_gCm2` is `0.648`. -/
theorem canopy_slot_gpp_constant_model_witness :
    sunlit_slot sample_collaborators sample_met sample_params sample_world ∧
      (canopy_slot sample_constants sample_collaborators sample_met sample_params
        sample_state sample_world).1 = status.ok ∧
      (canopy_slot sample_constants sample_collaborators sample_met sample_params
        sample_state sample_world).2.f.gpp_gCm2 = 648 / 1000 := by
  have h := (canopy_slot_gpp_constant_model sample_constants sample_collaborators
    sample_met sample_params sample_state sample_world (2 / 10) 15 exact_arith
    sample_slot_sunlit (fun _ _ _ _ _ _ _ _ => rfl) sample_slot_ok).2.2.2.2.2.2.2.2
  have hab : absorbed_at sample_collaborators sample_met sample_params sample_state
      sample_world.c.hrly_idx sample_world.L.hod = sample_absorbed := rfl
  refine ⟨sample_slot_sunlit, sample_slot_ok, ?_⟩
  rw [h, hab]
  simp [sample_absorbed, sample_world, canopy_entry, zero_carbon_day_fluxes]
  norm_num

/-! ## C10: zero wind -/

/-- C10 fails as stated: in still air, on the first pass of a stability loop
(leaf temperature equal to air temperature), with positive leaf width,
pressure and stomatal conductance, the denominators `gbh`, `gbc` and `gv` of
`solve_leaf_energy_balance` are zero. -/
theorem zero_wind_first_pass_zero_denominators :
    calm_met.wind sample_control.hrly_idx = 0 ∧ 0 < sample_params.leaf_width ∧
      0 < calm_met.press sample_control.hrly_idx ∧
      (leaf_conductances sample_constants sample_collaborators sample_control calm_met
        sample_params (calm_met.tair sample_control.hrly_idx) (2 / 10)).gbh = 0 ∧
      (leaf_conductances sample_constants sample_collaborators sample_control calm_met
        sample_params (calm_met.tair sample_control.hrly_idx) (2 / 10)).gbc = 0 ∧
      (leaf_conductances sample_constants sample_collaborators sample_control calm_met
        sample_params (calm_met.tair sample_control.hrly_idx) (2 / 10)).gv = 0 := by
  have h0 : Rat.sqrt 0 = 0 := by
    rw [show (0 : ℚ) = 0 * 0 by norm_num, Rat.sqrt_eq]
    simp
  have hfe : sample_float_eq 0 0 = true := by
    simp [sample_float_eq]
  refine ⟨rfl, by norm_num [sample_params], by norm_num [calm_met, sample_met], ?_, ?_, ?_⟩ <;>
    simp [leaf_conductances, calc_bdn_layer_forced_conduct, calc_bdn_layer_free_conduct,
      sample_collaborators, stub_collaborators, calm_met, sample_met, h0, hfe]

/-- C10, amended: in still air `solve_leaf_energy_balance` divides by non-zero
`gbh`, `gbc`, `gbv + gsv` and `gv` on the passes whose leaf temperature differs
from the air temperature (positive constants, leaf width, pressure, absolute
temperature and stomatal conductance; a `sqrt` with `sqrt(0) = 0` and a `pow`
that is positive on positive arguments); on a pass with the leaf at air
temperature, such as the first, `gbh`, `gbc` and `gv` are zero and only
`gbv + gsv` is not. -/
theorem zero_wind_denominators {W : Type} (K : constants) (E : collaborators W)
    (c : control) (m : met) (p : params) (tleaf gsc : ℚ) (hK : positive_constants K)
    (hwind : m.wind c.hrly_idx = 0) (hsqrt : E.sqrt 0 = 0)
    (hpow : ∀ x : ℚ, 0 < x → 0 < E.pow x (1 / 4)) (hp : 0 < m.press c.hrly_idx)
    (hw : 0 < p.leaf_width) (hT : 0 < m.tair c.hrly_idx + DEG_TO_KELVIN) (hg : 0 < gsc) :
    (E.float_eq (tleaf - m.tair c.hrly_idx) 0 = false → tleaf ≠ m.tair c.hrly_idx →
        0 < (leaf_conductances K E c m p tleaf gsc).gbh ∧
          0 < (leaf_conductances K E c m p tleaf gsc).gbc ∧
          0 < (leaf_conductances K E c m p tleaf gsc).gbv +
            (leaf_conductances K E c m p tleaf gsc).gsv ∧
          0 < (leaf_conductances K E c m p tleaf gsc).gv) ∧
      (E.float_eq (tleaf - m.tair c.hrly_idx) 0 = true →
        (leaf_conductances K E c m p tleaf gsc).gbh = 0 ∧
          (leaf_conductances K E c m p tleaf gsc).gbc = 0 ∧
          (leaf_conductances K E c m p tleaf gsc).gv = 0 ∧
          0 < (leaf_conductances K E c m p tleaf gsc).gbv +
            (leaf_conductances K E c m p tleaf gsc).gsv) := by
  have hu : calc_bdn_layer_forced_conduct K E (m.tair c.hrly_idx)
      (m.press c.hrly_idx * K.KPA_2_PA) (m.wind c.hrly_idx) p.leaf_width = 0 := by
    simp [calc_bdn_layer_forced_conduct, hwind, hsqrt]
  obtain ⟨k1, _, _, _, _, _, _, k8, k9, k10⟩ := hK
  have hK : positive_constants K := ⟨k1, by assumption, by assumption, by assumption,
    by assumption, by assumption, by assumption, k8, k9, k10⟩
  have hgsv : 0 < K.GSVGSC * gsc := mul_pos k9 hg
  constructor
  · intro hfe hne
    have hf := calc_bdn_layer_free_conduct_pos K E hK (m.tair c.hrly_idx) tleaf
      (m.press c.hrly_idx * K.KPA_2_PA) p.leaf_width hpow (mul_pos hp k1) hw hT hfe hne
    have hb : 0 < (leaf_conductances K E c m p tleaf gsc).gbh := by
      simp only [leaf_conductances, hu, zero_add]
      exact hf
    have hbv : 0 < (leaf_conductances K E c m p tleaf gsc).gbv := mul_pos k8 hb
    refine ⟨hb, div_pos hb k10, add_pos hbv hgsv, ?_⟩
    exact div_pos (mul_pos hbv hgsv) (add_pos hbv hgsv)
  · intro hfe
    have hf : calc_bdn_layer_free_conduct K E (m.tair c.hrly_idx) tleaf
        (m.press c.hrly_idx * K.KPA_2_PA) p.leaf_width = 0 := by
      simp [calc_bdn_layer_free_conduct, hfe]
    refine ⟨?_, ?_, ?_, ?_⟩
    · simp [leaf_conductances, hu, hf]
    · simp [leaf_conductances, hu, hf]
    · simp [leaf_conductances, hu, hf]
    · simp only [leaf_conductances, hu, hf, add_zero, mul_zero, zero_add]
      exact hgsv

/-- C10, amended, in the still-air scenario with the leaf one degree above the
air: the total boundary-layer conductance is positive. -/
theorem zero_wind_denominators_witness :
    positive_constants sample_constants ∧ calm_met.wind sample_control.hrly_idx = 0 ∧
      sample_collaborators.sqrt 0 = 0 ∧
      (∀ x : ℚ, 0 < x → 0 < sample_collaborators.pow x (1 / 4)) ∧
      0 < calm_met.press sample_control.hrly_idx ∧ 0 < sample_params.leaf_width ∧
      0 < calm_met.tair sample_control.hrly_idx + DEG_TO_KELVIN ∧ (0 : ℚ) < 2 / 10 ∧
      sample_collaborators.float_eq (26 - calm_met.tair sample_control.hrly_idx) 0 =
        false ∧
      (26 : ℚ) ≠ calm_met.tair sample_control.hrly_idx ∧
      0 < (leaf_conductances sample_constants sample_collaborators sample_control calm_met
        sample_params 26 (2 / 10)).gbh := by
  have h0 : sample_collaborators.sqrt 0 = 0 := by
    show Rat.sqrt 0 = 0
    rw [show (0 : ℚ) = 0 * 0 by norm_num, Rat.sqrt_eq]
    simp
  have hpow : ∀ x : ℚ, 0 < x → 0 < sample_collaborators.pow x (1 / 4) := by
    intro x hx
    show 0 < sample_pow x (1 / 4)
    unfold sample_pow
    rw [if_neg (by norm_num), if_pos rfl]
    exact rat_sqrt_pos (rat_sqrt_pos hx)
  have hp : 0 < calm_met.press sample_control.hrly_idx := by
    norm_num [calm_met, sample_met]
  have hw : 0 < sample_params.leaf_width := by
    norm_num [sample_params]
  have hT : 0 < calm_met.tair sample_control.hrly_idx + DEG_TO_KELVIN := by
    norm_num [calm_met, sample_met, DEG_TO_KELVIN]
  have hfe : sample_collaborators.float_eq (26 - calm_met.tair sample_control.hrly_idx) 0 =
      false := by
    show sample_float_eq (26 - 25) 0 = false
    unfold sample_float_eq
    rw [decide_eq_false_iff_not]
    norm_num
  have hne : (26 : ℚ) ≠ calm_met.tair sample_control.hrly_idx := by
    norm_num [calm_met, sample_met]
  exact ⟨sample_constants_positive, rfl, h0, hpow, hp, hw, hT, by norm_num, hfe, hne,
    ((zero_wind_denominators sample_constants sample_collaborators sample_control calm_met
      sample_params 26 (2 / 10) sample_constants_positive rfl h0 hpow hp hw hT
      (by norm_num)).1 hfe hne).1⟩

/-! ## C11: the half-hour cursor -/

/-- C11: in every run of `canopy()` that completes, `c->hrly_idx` on return is
its value on entry plus the number of slots run, which is `c->num_hlf_hrs` for
a non-negative count; every slot `k` of the run starts with the cursor at
`entry + k` and with `hod = k`, completes, keeps the cursor in all its worlds
(the radiation step, the entry of either stability loop, every pass of either
loop, the end of the slot), and is followed by exactly one step of the cursor.
The forcing is read at the cursor only: `par`, `doy`, `tair`, `vpd`, `co2` are
read at `c->hrly_idx`, and the radiation step, the air-space step and the
energy-balance call of a pass give the same result for every forcing that
agrees with `m` at the cursor. -/
theorem canopy_cursor_advances_once_per_slot {W : Type} (K : constants)
    (E : collaborators W) (c : control) (f : fluxes) (m : met) (p : params) (s : state)
    (water : W) (u : locals)
    (hok : (canopy K E c f m p s water u).1 = status.ok) :
    (canopy K E c f m p s water u).2.c.hrly_idx =
        c.hrly_idx + (c.num_hlf_hrs.toNat : Int) ∧
      (0 ≤ c.num_hlf_hrs →
        (canopy K E c f m p s water u).2.c.hrly_idx = c.hrly_idx + c.num_hlf_hrs) ∧
      (∀ k : Nat, k < c.num_hlf_hrs.toNat →
        (slot_start K E c f m p s water u k).c.hrly_idx = c.hrly_idx + k ∧
          (slot_start K E c f m p s water u k).L.hod = k ∧
          (canopy_slot K E m p s (slot_start K E c f m p s water u k)).1 = status.ok ∧
          slot_start K E c f m p s water u (k + 1) =
            next_slot (canopy_slot K E m p s (slot_start K E c f m p s water u k)).2 ∧
          (slot_start K E c f m p s water u (k + 1)).c.hrly_idx = c.hrly_idx + k + 1 ∧
          (slot_radiation E m p (slot_start K E c f m p s water u k)).c.hrly_idx =
            c.hrly_idx + k ∧
          (first_loop_entry K E m p s (slot_start K E c f m p s water u k)).c.hrly_idx =
            c.hrly_idx + k ∧
          (second_loop_entry K E m p s (slot_start K E c f m p s water u k)).c.hrly_idx =
            c.hrly_idx + k ∧
          (∀ j : Nat,
            (nth_pass K E m p s
              (first_loop_entry K E m p s (slot_start K E c f m p s water u k))
              j).c.hrly_idx = c.hrly_idx + k ∧
            (nth_pass K E m p s
              (second_loop_entry K E m p s (slot_start K E c f m p s water u k))
              j).c.hrly_idx = c.hrly_idx + k) ∧
          (canopy_slot K E m p s (slot_start K E c f m p s water u k)).2.c.hrly_idx =
            c.hrly_idx + k) ∧
      (∀ Y : world W,
        (slot_radiation E m p Y).L.par = m.par Y.c.hrly_idx ∧
          (slot_radiation E m p Y).L.cos_zenith =
            (E.calculate_zenith_angle p (m.doy Y.c.hrly_idx) Y.L.hod).1 ∧
          (slot_radiation E m p Y).L.elevation =
            (E.calculate_zenith_angle p (m.doy Y.c.hrly_idx) Y.L.hod).2 ∧
          (slot_radiation E m p Y).L.diffuse_frac =
            E.get_diffuse_frac (m.doy Y.c.hrly_idx)
              (E.calculate_zenith_angle p (m.doy Y.c.hrly_idx) Y.L.hod).1
              (m.par Y.c.hrly_idx) ∧
          (leaf_air_space K m Y).L.tleaf = m.tair Y.c.hrly_idx ∧
          (leaf_air_space K m Y).L.dleaf = m.vpd Y.c.hrly_idx * K.KPA_2_PA ∧
          (leaf_air_space K m Y).L.Cs = m.co2 Y.c.hrly_idx ∧
          ∀ m2 : met, met_agree_at m m2 Y.c.hrly_idx →
            slot_radiation E m2 p Y = slot_radiation E m p Y ∧
              leaf_air_space K m2 Y = leaf_air_space K m Y ∧
              pass_energy_balance K E m2 p s Y = pass_energy_balance K E m p s Y) := by
  have hfin := (canopy_hod_loop_cursor K E m p s c.num_hlf_hrs.toNat
    (canopy_entry E c f water u) hok).1
  have h1 : (canopy K E c f m p s water u).2.c.hrly_idx =
      c.hrly_idx + (c.num_hlf_hrs.toNat : Int) := hfin
  refine ⟨h1, ?_, ?_, fun Y => met_read_at_cursor K E m p s Y⟩
  · intro hn
    rw [h1, Int.toNat_of_nonneg hn]
  · intro k hk
    obtain ⟨b, hb⟩ : ∃ b, c.num_hlf_hrs.toNat = (k + 1) + b :=
      ⟨c.num_hlf_hrs.toNat - (k + 1), by omega⟩
    have hok2 : (canopy_hod_loop K E m p s ((k + 1) + b) (canopy_entry E c f water u)).1 =
        status.ok := by
      rw [← hb]
      exact hok
    have hk1 := canopy_hod_loop_prefix_ok K E m p s (k + 1) b _ hok2
    obtain ⟨h0, hs, he⟩ := canopy_hod_loop_succ_ok K E m p s k _ hk1
    obtain ⟨c1, c2, _, _⟩ := canopy_hod_loop_cursor K E m p s k _ h0
    obtain ⟨d1, _, _, _⟩ := canopy_hod_loop_cursor K E m p s (k + 1) _ hk1
    have c3 : (slot_start K E c f m p s water u k).c.hrly_idx = c.hrly_idx + k := c1
    have c4 : (slot_start K E c f m p s water u k).L.hod = k := by
      have t : (slot_start K E c f m p s water u k).L.hod =
          (canopy_entry E c f water u).L.hod + k := c2
      rw [t]
      show (0 : Int) + k = k
      ring
    have d3 : (slot_start K E c f m p s water u (k + 1)).c.hrly_idx =
        c.hrly_idx + k + 1 := by
      have t : (slot_start K E c f m p s water u (k + 1)).c.hrly_idx =
          c.hrly_idx + ((k + 1 : Nat) : Int) := d1
      rw [t]
      push_cast
      ring
    obtain ⟨w1, w2, w3, w4, w5, w6⟩ := slot_worlds_cursor K E m p s
      (slot_start K E c f m p s water u k)
    refine ⟨c3, c4, hs, he, d3, ?_, ?_, ?_, fun j => ⟨?_, ?_⟩, ?_⟩
    · rw [w1, c3]
    · rw [w2, c3]
    · rw [w4, c3]
    · rw [w3 j, c3]
    · rw [w5 j, c3]
    · rw [w6, c3]

/-- C11 on a run of two slots, a sunlit one followed by a dark one: the run
completes and the cursor, 0 on entry, is 2 on return. -/
theorem canopy_cursor_advances_once_per_slot_witness :
    (canopy sample_constants sample_collaborators dusk_control sample_fluxes dusk_met
        sample_params sample_state () sample_locals).1 = status.ok ∧
      (canopy sample_constants sample_collaborators dusk_control sample_fluxes dusk_met
        sample_params sample_state () sample_locals).2.c.hrly_idx = 2 := by
  have t := canopy_cursor_advances_once_per_slot sample_constants sample_collaborators
    dusk_control sample_fluxes dusk_met sample_params sample_state () sample_locals
    dusk_run_ok
  have e : dusk_control.hrly_idx + dusk_control.num_hlf_hrs = 2 := by decide
  exact ⟨dusk_run_ok, (t.2.1 (by decide)).trans e⟩

/-! ## C12: total absorbed PAR of a sunlit slot -/

/-- C13: `solve_leaf_energy_balance` returns `Cs = Ca - anleaf / gbc` with
`gbc = gbh / GBHGBC`, `dleaf = et * press / gv` with
`gv = gbv * gsv / (gbv + gsv)`, `gbv = GBVGBH * gbh`, `gsv = GSVGSC * gsc`, and
`new_tleaf = tair + (rnet - LE) / (4 * CP * MASS_AIR * gh)`, one quarter of the
step `(rnet - LE) / (CP * MASS_AIR * gh)`, where `gbh` is the forced plus the
free boundary-layer conductance, `gh = 2 * (gbh + gradn)`, and `et`, `LE` are
what the Penman-Monteith collaborator returns; the call leaves `iter` and
`itermax` alone and its results do not depend on them. -/
theorem solve_leaf_energy_balance_spec {W : Type} (K : constants) (E : collaborators W)
    (c : control) (f : fluxes) (m : met) (p : params) (s : state)
    (tleaf gsc anleaf apar : ℚ) (X : world W) (n : Nat) :
    (leaf_conductances K E c m p tleaf gsc).gbh =
        calc_bdn_layer_forced_conduct K E (m.tair c.hrly_idx)
            (m.press c.hrly_idx * K.KPA_2_PA) (m.wind c.hrly_idx) p.leaf_width +
          calc_bdn_layer_free_conduct K E (m.tair c.hrly_idx) tleaf
            (m.press c.hrly_idx * K.KPA_2_PA) p.leaf_width ∧
      (leaf_conductances K E c m p tleaf gsc).gh =
        2 * ((leaf_conductances K E c m p tleaf gsc).gbh +
          calc_radiation_conductance K (m.tair c.hrly_idx)) ∧
      (leaf_conductances K E c m p tleaf gsc).gbv =
        K.GBVGBH * (leaf_conductances K E c m p tleaf gsc).gbh ∧
      (leaf_conductances K E c m p tleaf gsc).gsv = K.GSVGSC * gsc ∧
      (leaf_conductances K E c m p tleaf gsc).gv =
        (leaf_conductances K E c m p tleaf gsc).gbv *
            (leaf_conductances K E c m p tleaf gsc).gsv /
          ((leaf_conductances K E c m p tleaf gsc).gbv +
            (leaf_conductances K E c m p tleaf gsc).gsv) ∧
      (leaf_conductances K E c m p tleaf gsc).gbc =
        (leaf_conductances K E c m p tleaf gsc).gbh / K.GBHGBC ∧
      (solve_leaf_energy_balance K E c f m p s tleaf gsc anleaf apar).Cs =
        m.co2 c.hrly_idx - anleaf / (leaf_conductances K E c m p tleaf gsc).gbc ∧
      (solve_leaf_energy_balance K E c f m p s tleaf gsc anleaf apar).et =
        (E.penman_leaf (m.press c.hrly_idx * K.KPA_2_PA) (leaf_rnet K E c m p s apar)
          (m.vpd c.hrly_idx * K.KPA_2_PA) (m.tair c.hrly_idx)
          (leaf_conductances K E c m p tleaf gsc).gh
          (leaf_conductances K E c m p tleaf gsc).gv
          (leaf_conductances K E c m p tleaf gsc).gbv
          (leaf_conductances K E c m p tleaf gsc).gsv).1 ∧
      (solve_leaf_energy_balance K E c f m p s tleaf gsc anleaf apar).dleaf =
        (solve_leaf_energy_balance K E c f m p s tleaf gsc anleaf apar).et *
            (m.press c.hrly_idx * K.KPA_2_PA) /
          (leaf_conductances K E c m p tleaf gsc).gv ∧
      (solve_leaf_energy_balance K E c f m p s tleaf gsc anleaf apar).new_tleaf =
        m.tair c.hrly_idx +
          (leaf_rnet K E c m p s apar -
            (E.penman_leaf (m.press c.hrly_idx * K.KPA_2_PA) (leaf_rnet K E c m p s apar)
              (m.vpd c.hrly_idx * K.KPA_2_PA) (m.tair c.hrly_idx)
              (leaf_conductances K E c m p tleaf gsc).gh
              (leaf_conductances K E c m p tleaf gsc).gv
              (leaf_conductances K E c m p tleaf gsc).gbv
              (leaf_conductances K E c m p tleaf gsc).gsv).2) /
            (4 * K.CP * K.MASS_AIR * (leaf_conductances K E c m p tleaf gsc).gh) ∧
      (solve_leaf_energy_balance K E c f m p s tleaf gsc anleaf apar).new_tleaf =
        m.tair c.hrly_idx +
          (leaf_rnet K E c m p s apar -
            (E.penman_leaf (m.press c.hrly_idx * K.KPA_2_PA) (leaf_rnet K E c m p s apar)
              (m.vpd c.hrly_idx * K.KPA_2_PA) (m.tair c.hrly_idx)
              (leaf_conductances K E c m p tleaf gsc).gh
              (leaf_conductances K E c m p tleaf gsc).gv
              (leaf_conductances K E c m p tleaf gsc).gbv
              (leaf_conductances K E c m p tleaf gsc).gsv).2) /
            (K.CP * K.MASS_AIR * (leaf_conductances K E c m p tleaf gsc).gh) / 4 ∧
      (pass_energy_balance K E m p s X).L.iter = X.L.iter ∧
      (pass_energy_balance K E m p s X).L.itermax = X.L.itermax ∧
      (pass_energy_balance K E m p s { X with L := { X.L with iter := n } }).L.new_tleaf =
        (pass_energy_balance K E m p s X).L.new_tleaf ∧
      (pass_energy_balance K E m p s { X with L := { X.L with iter := n } }).L.Cs =
        (pass_energy_balance K E m p s X).L.Cs ∧
      (pass_energy_balance K E m p s { X with L := { X.L with iter := n } }).L.dleaf =
        (pass_energy_balance K E m p s X).L.dleaf ∧
      (pass_energy_balance K E m p s { X with L := { X.L with iter := n } }).L.leaf_trans =
        (pass_energy_balance K E m p s X).L.leaf_trans := by
  refine ⟨rfl, rfl, rfl, rfl, rfl, rfl, rfl, rfl, rfl, ?_, rfl, rfl, rfl, rfl, rfl, rfl,
    rfl⟩
  simp only [solve_leaf_energy_balance]
  rw [div_div]
  congr 2
  ring

/-! ## C14: the free-convection conductance -/

/-- C14: with a `float_eq` that compares with zero exactly,
`calc_bdn_layer_free_conduct(tair, tleaf, press, leaf_width)` is exactly 0
whenever `tleaf` equals `tair`, whatever `press`, `leaf_width` and `pow` are,
and otherwise is
`0.5 * DHEAT * (1.6e8 * |tleaf - tair| * leaf_width^3)^0.25 / leaf_width *`
`(press / (RGAS * (tair + 273.15)))`, which is non-negative for `press >= 0`,
`leaf_width > 0` and `tair > -273.15` (positive `DHEAT` and `RGAS`, a `pow`
with non-negative values). -/
theorem calc_bdn_layer_free_conduct_spec {W : Type} (K : constants) (E : collaborators W)
    (tair tleaf press leaf_width : ℚ)
    (hfe : ∀ x : ℚ, E.float_eq x 0 = true ↔ x = 0) :
    (tleaf = tair → calc_bdn_layer_free_conduct K E tair tleaf press leaf_width = 0) ∧
      (tleaf ≠ tair →
        calc_bdn_layer_free_conduct K E tair tleaf press leaf_width =
          1 / 2 * K.DHEAT *
              E.pow (160000000 * |tleaf - tair| * leaf_width ^ 3) (1 / 4) / leaf_width *
            (press / (K.RGAS * (tair + 27315 / 100)))) ∧
      (0 < K.DHEAT → 0 < K.RGAS → (∀ x : ℚ, 0 ≤ E.pow x (1 / 4)) → 0 ≤ press →
        0 < leaf_width → -(27315 / 100) < tair →
        0 ≤ calc_bdn_layer_free_conduct K E tair tleaf press leaf_width) := by
  refine ⟨fun h => ?_, fun h => ?_, fun hD hR hpow hp hw hT => ?_⟩
  · have h0 : E.float_eq (tleaf - tair) 0 = true := (hfe _).mpr (sub_eq_zero.mpr h)
    simp [calc_bdn_layer_free_conduct, h0]
  · have h0 : ¬ E.float_eq (tleaf - tair) 0 = true := fun h1 =>
      h (sub_eq_zero.mp ((hfe _).mp h1))
    have e3 : leaf_width ^ 3 = leaf_width * leaf_width * leaf_width := by ring
    simp only [calc_bdn_layer_free_conduct, if_neg h0, DEG_TO_KELVIN, e3]
  · have hT2 : 0 < tair + DEG_TO_KELVIN := by
      simp only [DEG_TO_KELVIN]
      linarith
    unfold calc_bdn_layer_free_conduct
    split_ifs
    · exact le_refl _
    · have := hpow (160000000 * |tleaf - tair| * (leaf_width * leaf_width * leaf_width))
      positivity

/-- The relative comparison with tolerance `1e-8` compares with zero exactly. -/
theorem calc_bdn_layer_free_conduct_spec_witness :
    (∀ x : ℚ, sample_collaborators.float_eq x 0 = true ↔ x = 0) ∧
      calc_bdn_layer_free_conduct sample_constants sample_collaborators 25 25 101000
        (2 / 100) = 0 := by
  have hfe : ∀ x : ℚ, sample_collaborators.float_eq x 0 = true ↔ x = 0 := by
    intro x
    show sample_float_eq x 0 = true ↔ x = 0
    unfold sample_float_eq
    rw [decide_eq_true_iff, sub_zero]
    constructor
    · intro h
      by_contra hx
      have hpos : 0 < |x| := abs_pos.mpr hx
      nlinarith
    · intro h
      rw [h]
      simp
  exact ⟨hfe, (calc_bdn_layer_free_conduct_spec sample_constants sample_collaborators 25 25
    101000 (2 / 100) hfe).1 rfl⟩

/-! ## C15: the radiation conductance -/

/-- C16: in every run of `canopy()`, whatever the meteorology, the
collaborators and the way the run ends, the per-leaf `rnet` that is added to
`total_rnet` is still 0 at the end, `total_rnet` still holds the contents it
had on entry (`u.total_rnet`, the variable has no initialiser), and every call
of the water-balance collaborator was handed that same value. -/
theorem canopy_total_rnet_never_assigned {W : Type} (K : constants)
    (E : collaborators W) (c : control) (f : fluxes) (m : met) (p : params) (s : state)
    (water : W) (u : locals) :
    (canopy K E c f m p s water u).2.L.rnet = 0 ∧
      (canopy K E c f m p s water u).2.L.total_rnet = u.total_rnet ∧
      ∀ r t : ℚ, event.calculate_sub_daily_water_balance r t ∈
        (canopy K E c f m p s water u).2.trace → r = u.total_rnet := by
  have h0 : rnet_untouched u.total_rnet (canopy_entry E c f water u) := by
    refine ⟨rfl, rfl, ?_⟩
    intro a t ha
    simp [canopy_entry] at ha
  obtain ⟨a1, a2⟩ := canopy_hod_loop_invariant K E m p s _ _
    (rnet_untouched_invariant K E m p s u.total_rnet) c.num_hlf_hrs.toNat _ h0
  unfold canopy
  by_cases hs : (canopy_hod_loop K E m p s c.num_hlf_hrs.toNat
      (canopy_entry E c f water u)).1 = status.ok
  · exact a1 hs
  · exact a2 hs

/-! ## C17: absorbed PAR in dark slots -/

/-- C18: `canopy()` is a total function of its inputs and collaborators: every
call ends normally or in one of the two fatal errors.  A pass of a stability
loop goes on to another pass only on the C3 pathway with positive assimilation,
`iter < itermax` and no convergence, and then `iter` is incremented; every
other pass is the last of its loop and leaves `iter` alone.  So `iter` never
exceeds 100, and the photosynthesis model is called at most
`iter + 2 * num_hlf_hrs <= 100 + 2 * num_hlf_hrs` times in a call of
`canopy()`. -/
theorem canopy_terminates_within_cap {W : Type} (K : constants) (E : collaborators W)
    (c : control) (f : fluxes) (m : met) (p : params) (s : state) (water : W)
    (u : locals) :
    ((canopy K E c f m p s water u).1 = status.ok ∨
        (canopy K E c f m p s water u).1 = status.C4_not_implemented ∨
        (canopy K E c f m p s water u).1 = status.no_convergence) ∧
      (canopy K E c f m p s water u).2.L.iter ≤ 100 ∧
      photosynthesis_calls (canopy K E c f m p s water u).2.trace ≤
        (canopy K E c f m p s water u).2.L.iter + 2 * c.num_hlf_hrs.toNat ∧
      photosynthesis_calls (canopy K E c f m p s water u).2.trace ≤
        100 + 2 * c.num_hlf_hrs.toNat ∧
      (0 ≤ c.num_hlf_hrs →
        (photosynthesis_calls (canopy K E c f m p s water u).2.trace : Int) ≤
          100 + 2 * c.num_hlf_hrs) ∧
      (∀ X : world W, X.c.ps_pathway = K.C3 → pass_assimilates E p s X →
        X.L.iter < X.L.itermax → ¬ pass_converged K E m p s X →
        stability_loop K E m p s X = stability_loop K E m p s (full_pass K E m p s X) ∧
          (full_pass K E m p s X).L.iter = X.L.iter + 1) ∧
      (∀ X : world W,
        ¬ (X.c.ps_pathway = K.C3 ∧ pass_assimilates E p s X ∧ X.L.iter < X.L.itermax ∧
          ¬ pass_converged K E m p s X) →
        (stability_loop K E m p s X).2.L.iter = X.L.iter ∧
          photosynthesis_calls (stability_loop K E m p s X).2.trace ≤
            photosynthesis_calls X.trace + 1) := by
  obtain ⟨b1, b2, b3, b4⟩ := canopy_hod_loop_passes_bounded K E m p s c.num_hlf_hrs.toNat
    (canopy_entry E c f water u)
  have e1 : (canopy_entry E c f water u).L.iter = 0 := rfl
  have e2 : (canopy_entry E c f water u).L.itermax = 100 := rfl
  have e3 : photosynthesis_calls (canopy_entry E c f water u).trace = 0 := rfl
  rw [e1, e2] at b3
  rw [e2] at b1
  rw [e1, e3] at b4
  have hit : (canopy K E c f m p s water u).2.L.iter ≤ 100 := by
    unfold canopy
    rw [← b1]
    exact b3 (Nat.zero_le _)
  have hcalls : photosynthesis_calls (canopy K E c f m p s water u).2.trace ≤
      (canopy K E c f m p s water u).2.L.iter + 2 * c.num_hlf_hrs.toNat := by
    unfold canopy
    omega
  refine ⟨?_, hit, hcalls, by omega, ?_, ?_, ?_⟩
  · cases (canopy K E c f m p s water u).1
    · exact Or.inl rfl
    · exact Or.inr (Or.inl rfl)
    · exact Or.inr (Or.inr rfl)
  · intro hn
    have h2 : ((c.num_hlf_hrs.toNat : Nat) : Int) = c.num_hlf_hrs := Int.toNat_of_nonneg hn
    omega
  · intro X hps ha hi hc
    refine ⟨?_, rfl⟩
    exact stability_loop_continue K E m p s X hps ((pass_assimilates_iff E p s X).mp ha)
      (not_le.mpr hi) (fun h => hc ((pass_converged_iff K E m p s X).mpr h))
  · intro X hX
    by_cases hps : X.c.ps_pathway = K.C3
    · by_cases ha : pass_assimilates E p s X
      · by_cases hi : X.L.iter < X.L.itermax
        · have hc : pass_converged K E m p s X := by
            by_contra hc
            exact hX ⟨hps, ha, hi, hc⟩
          rw [stability_loop_converged K E m p s X hps ((pass_assimilates_iff E p s X).mp ha)
            (not_le.mpr hi) ((pass_converged_iff K E m p s X).mp hc)]
          simp [pass_energy_balance, pass_photosynthesis, photosynthesis_calls,
            List.countP_append, List.countP_cons, event.isPhotosynthesis]
        · rw [stability_loop_cap K E m p s X hps ((pass_assimilates_iff E p s X).mp ha)
            (not_lt.mp hi)]
          simp [pass_energy_balance, pass_photosynthesis, photosynthesis_calls,
            List.countP_append, List.countP_cons, event.isPhotosynthesis]
      · rw [stability_loop_stop K E m p s X hps
          (fun h => ha ((pass_assimilates_iff E p s X).mpr h))]
        simp [pass_no_transpiration, pass_photosynthesis, photosynthesis_calls,
          List.countP_append, List.countP_cons, event.isPhotosynthesis]
    · rw [stability_loop_C4 K E m p s X hps]
      exact ⟨rfl, Nat.le_succ _⟩

/-! ## C19: the iteration count is run-wide -/

/-- C19: `iter` is 0 when `canopy()` enters its loop over the slots and no leaf
class or slot resets it: at the start of every slot and at the end of the run
`0 <= iter <= 100 = itermax`; unless the run ends in the non-convergence error,
`iter` at the end equals the number of non-converged positive-assimilation
passes of the whole run, and when it ends in that error `iter` is 100.  On the
C3 pathway the run ends in the non-convergence error if and only if some pass
with positive assimilation started when 100 non-converged passes had been made
before it in the run, whatever `|tleaf - new_tleaf|` is on that pass. -/
theorem canopy_iter_is_run_wide_count {W : Type} (K : constants) (E : collaborators W)
    (c : control) (f : fluxes) (m : met) (p : params) (s : state) (water : W)
    (u : locals) :
    (canopy_entry E c f water u).L.iter = 0 ∧
      (∀ k : Nat, (slot_start K E c f m p s water u k).L.iter ≤ 100 ∧
        (slot_start K E c f m p s water u k).L.itermax = 100) ∧
      (canopy K E c f m p s water u).2.L.iter ≤ 100 ∧
      ((canopy K E c f m p s water u).1 ≠ status.no_convergence →
        (canopy K E c f m p s water u).2.L.iter =
          non_converged_passes (canopy K E c f m p s water u).2.trace) ∧
      ((canopy K E c f m p s water u).1 = status.no_convergence →
        (canopy K E c f m p s water u).2.L.iter = 100) ∧
      (c.ps_pathway = K.C3 →
        ((canopy K E c f m p s water u).1 = status.no_convergence ↔
          reaches_cap 100 (canopy K E c f m p s water u).2.trace)) := by
  have h0 : iter_counts c.ps_pathway (canopy_entry E c f water u) := by
    refine ⟨rfl, rfl, rfl, Nat.zero_le _, ?_⟩
    rintro ⟨pre, e, post, h1, _, _⟩
    have h2 : ([] : List event) = pre ++ e :: post := h1
    simp at h2
  have key : ∀ n : Nat,
      ((canopy_hod_loop K E m p s n (canopy_entry E c f water u)).1 = status.ok →
          iter_counts c.ps_pathway
            (canopy_hod_loop K E m p s n (canopy_entry E c f water u)).2) ∧
        ((canopy_hod_loop K E m p s n (canopy_entry E c f water u)).1 ≠ status.ok →
          iter_at_exit K c.ps_pathway
            (canopy_hod_loop K E m p s n (canopy_entry E c f water u)).1
            (canopy_hod_loop K E m p s n (canopy_entry E c f water u)).2) := fun n =>
    canopy_hod_loop_invariant K E m p s _ _ (iter_counts_invariant K E m p s c.ps_pathway)
      n _ h0
  have bound : ∀ n : Nat,
      (canopy_hod_loop K E m p s n (canopy_entry E c f water u)).2.L.iter ≤ 100 ∧
        (canopy_hod_loop K E m p s n (canopy_entry E c f water u)).2.L.itermax = 100 := by
    intro n
    obtain ⟨a1, a2⟩ := key n
    by_cases hs : (canopy_hod_loop K E m p s n (canopy_entry E c f water u)).1 = status.ok
    · exact ⟨(a1 hs).2.2.2.1, (a1 hs).2.1⟩
    · rcases a2 hs with ⟨_, _, h⟩ | ⟨_, _, h1, h2, _⟩
      · exact ⟨h.2.2.2.1, h.2.1⟩
      · exact ⟨le_of_eq h2, h1⟩
  obtain ⟨a1, a2⟩ := key c.num_hlf_hrs.toNat
  refine ⟨rfl, bound, (bound c.num_hlf_hrs.toNat).1, ?_, ?_, ?_⟩
  · intro hn
    unfold canopy at hn ⊢
    by_cases hs : (canopy_hod_loop K E m p s c.num_hlf_hrs.toNat
        (canopy_entry E c f water u)).1 = status.ok
    · exact (a1 hs).2.2.1
    · rcases a2 hs with ⟨_, _, h⟩ | ⟨h, _⟩
      · exact h.2.2.1
      · exact absurd h hn
  · intro hn
    unfold canopy at hn ⊢
    have hs : (canopy_hod_loop K E m p s c.num_hlf_hrs.toNat
        (canopy_entry E c f water u)).1 ≠ status.ok := by
      rw [hn]
      exact fun h => status.noConfusion h
    rcases a2 hs with ⟨h, _⟩ | ⟨_, _, _, h, _⟩
    · rw [hn] at h
      exact status.noConfusion h
    · exact h
  · intro hps
    unfold canopy
    constructor
    · intro hn
      have hs : (canopy_hod_loop K E m p s c.num_hlf_hrs.toNat
          (canopy_entry E c f water u)).1 ≠ status.ok := by
        rw [hn]
        exact fun h => status.noConfusion h
      rcases a2 hs with ⟨h, _⟩ | ⟨_, _, _, _, h⟩
      · rw [hn] at h
        exact status.noConfusion h
      · exact h
    · intro hr
      by_cases hs : (canopy_hod_loop K E m p s c.num_hlf_hrs.toNat
          (canopy_entry E c f water u)).1 = status.ok
      · exact absurd hr (a1 hs).2.2.2.2
      · rcases a2 hs with ⟨_, h, _⟩ | ⟨h, _⟩
        · exact absurd hps h
        · exact h

/-- C19 on a run that reaches the cap: with leaves that warm by one degree per
pass for 50 passes, the run of the C3 scenario ends in the non-convergence
error, its trace shows a pass with positive assimilation starting at the
run-wide count 100, and `iter` is 100. -/
theorem canopy_iter_is_run_wide_count_witness :
    sample_control.ps_pathway = sample_constants.C3 ∧
      (canopy sample_constants (warming_collaborators 50) sample_control sample_fluxes
        sample_met sample_params sample_state () sample_locals).1 =
          status.no_convergence ∧
      reaches_cap 100 (canopy sample_constants (warming_collaborators 50) sample_control
        sample_fluxes sample_met sample_params sample_state () sample_locals).2.trace ∧
      (canopy sample_constants (warming_collaborators 50) sample_control sample_fluxes
        sample_met sample_params sample_state () sample_locals).2.L.iter = 100 := by
  have h : (canopy sample_constants (warming_collaborators 50) sample_control
      sample_fluxes sample_met sample_params sample_state () sample_locals).1 =
      status.no_convergence := by
    rw [warming_50_run]
  have t := canopy_iter_is_run_wide_count sample_constants (warming_collaborators 50)
    sample_control sample_fluxes sample_met sample_params sample_state () sample_locals
  exact ⟨rfl, h, (t.2.2.2.2.2 rfl).mp h, t.2.2.2.2.1 h⟩

end GDAY
